import Mathlib

/-!
# EcoWellness extension: carbon model, daily aggregation and wellness scores

A shallow embedding of `src/utils/carbon-calculator.js` (class `CarbonCalculator`), of the
bucket bookkeeping, weekly statistics and achievements of `src/background/service-worker.js`
(class `EcoWellnessBackground`), of the session scores of
`src/utils/wellness-tracker.js` (class `WellnessTracker`), and of
`src/popup/components/wellness-timer.js` (class `WellnessTimer`).

Modelling conventions

* A JavaScript number is modelled as a rational `ℚ`. In the estimates
  `calculateCO2FromDataTransfer`, `calculateVideoStreamingCO2`, `calculateSessionCarbon` and
  in `formatCarbonFootprint` the arithmetic is that of IEEE 754 doubles: `fl x` is the double
  nearest to `x` (53-bit significand, ties to even, exponent range unbounded), a decimal
  literal such as `0.81` denotes `fl (81/100)`, a numeric argument `x` is read as `fl x`,
  and each `*` and `/` is followed by `fl`. A result `Math.round(y) / 100` is kept as the
  rational `k / 100`, which stands for the double nearest to it.
* Everywhere else decimal literals denote the rationals they spell and `+ - * /` are exact.
* `Math.round x` is `⌊x + 1/2⌋` (nearest integer, a tie goes to the larger integer).
* An object used as a dictionary is a function from the key to `Option` of the value, with
  `none` for a key the object does not own. The lookup `gridFactors[region]` also sees the
  properties inherited from `Object.prototype` (`objectPrototypeKeys`), whose values are
  functions or objects and turn the arithmetic into `NaN`.
* `a || b` on a number that may be `undefined` takes `b` when `a` is absent or `0`.
* The built-in `String.prototype.toUpperCase` / `toLowerCase` are parameters of the model.
* `async` methods are modelled as run to completion, one call after the other.
* The clock is an input. `Date.now()` is a number `now`. In `getWeeklyStats` the instant of
  `new Date()` is a number of ms since the epoch, `setDate(getDate() - i)` moves the local
  time value of a `TimeZone` back by `i` days, and `toISOString().split('T')[0]` renders
  the UTC day number of the result by a rendering `isoDate`. `Math.sqrt` is a parameter.
* `Math.random()` is an input of the step that draws it.
* A division whose divisor can be 0 returns a `JsNumber`, which may be `NaN` or infinite.
* A number that is a multiple of 0.01 is printed as its decimal numeral without trailing
  zeros (`hundredthsToString`), which `decimalValue` reads back.
-/

namespace EcoWellness

/-! ## JavaScript primitives -/

/-- JavaScript `Math.round`: the nearest integer, a tie going to the larger one. -/
def mathRound (x : ℚ) : ℤ := ⌊x + 1 / 2⌋

/-- The idiom `Math.round(x * 100) / 100` used by every estimate. -/
def round2 (x : ℚ) : ℚ := (mathRound (x * 100) : ℚ) / 100

/-- The idiom `v || d` for a numeric lookup `v` that may be `undefined`. -/
def orDefault (v : Option ℚ) (d : ℚ) : ℚ :=
  match v with
  | some x => if x = 0 then d else x
  | none => d

/-- The two case-mapping built-ins of JavaScript strings used by the calculator. -/
structure JsStringOps where
  toUpperCase : String → String
  toLowerCase : String → String

/-- Case mapping of the ASCII letters, character by character: the string built-ins on
ASCII text. -/
def asciiOps : JsStringOps :=
  ⟨fun s => String.mk (s.data.map Char.toUpper), fun s => String.mk (s.data.map Char.toLower)⟩

/-! ## Double arithmetic -/

/-- The nearest integer, a tie going to the even one. -/
def roundHalfEven (y : ℚ) : ℤ :=
  if y - ⌊y⌋ < 1 / 2 then ⌊y⌋
  else if 1 / 2 < y - ⌊y⌋ then ⌊y⌋ + 1
  else if ⌊y⌋ % 2 = 0 then ⌊y⌋ else ⌊y⌋ + 1

/-- The double nearest to `x`: `x` rounded to 53 significant bits, a tie going to the even
significand. -/
def fl (x : ℚ) : ℚ :=
  if x = 0 then 0
  else
    (roundHalfEven (x / (2 : ℚ) ^ (Int.log 2 |x| - 52)) : ℚ) * (2 : ℚ) ^ (Int.log 2 |x| - 52)

/-- The unit roundoff `2⁻⁵³` of a double. -/
def unitRoundoff : ℚ := 1 / 9007199254740992

/-- The relative tolerance `2⁻⁵⁰`, which bounds the accumulated error of up to 7 roundings
to the nearest double. -/
def relTol : ℚ := 1 / 1125899906842624

/-- The approximation `x'` is `x` up to the relative error `ρ - 1`. -/
def CloseTo (ρ x' x : ℚ) : Prop := |x' - x| ≤ (ρ - 1) * |x|

/-! ## Non-finite numbers and inherited properties -/

/-- A JavaScript number that may fail to be finite: the result of a division whose
divisor can be 0. -/
inductive JsNumber where
  | finite (q : ℚ)
  | posInf
  | negInf
  | nan
deriving DecidableEq

/-- JavaScript `a / b` on finite numbers: `0 / 0` is `NaN` and `a / 0` is an infinity. -/
def jsDiv (a b : ℚ) : JsNumber :=
  if b = 0 then
    if a = 0 then JsNumber.nan
    else if a > 0 then JsNumber.posInf
    else JsNumber.negInf
  else JsNumber.finite (a / b)

/-- JavaScript `Math.min(x, m)` for a finite `m`. -/
def JsNumber.minWith (x : JsNumber) (m : ℚ) : JsNumber :=
  match x with
  | JsNumber.finite q => JsNumber.finite (min q m)
  | JsNumber.posInf => JsNumber.finite m
  | JsNumber.negInf => JsNumber.negInf
  | JsNumber.nan => JsNumber.nan

/-- A finite computation `f` that adds a positive multiple of its argument to finite terms
and scales the sum by a positive constant, applied to a possibly non-finite factor: `NaN`
and the infinities propagate. -/
def JsNumber.weighted (x : JsNumber) (f : ℚ → ℚ) : JsNumber :=
  match x with
  | JsNumber.finite q => JsNumber.finite (f q)
  | JsNumber.posInf => JsNumber.posInf
  | JsNumber.negInf => JsNumber.negInf
  | JsNumber.nan => JsNumber.nan

/-- The names of the properties every object inherits from `Object.prototype`: a lookup
`table[key]` with one of these keys yields the inherited function or object, not
`undefined`. -/
def objectPrototypeKeys : List String :=
  ["constructor", "__defineGetter__", "__defineSetter__", "hasOwnProperty",
    "__lookupGetter__", "__lookupSetter__", "isPrototypeOf", "propertyIsEnumerable",
    "toString", "valueOf", "__proto__", "toLocaleString"]

/-! ## `CarbonCalculator.factors` -/

def ENERGY_PER_GB : ℚ := 81 / 100
def CO2_PER_KWH : ℚ := 437
def MB_TO_GB : ℚ := 1 / 1000
def averagePageSize : ℚ := 228 / 100
def firstVisitCO2 : ℚ := 8 / 10
def returnVisitCO2 : ℚ := 6 / 10
def videoStreamingSD : ℚ := 36
def videoStreamingHD : ℚ := 55
def videoStreamingUHD : ℚ := 175
def videoStreamingMobile : ℚ := 56 / 100
def videoStreamingLaptop : ℚ := 1019 / 100
def socialMediaPageView : ℚ := 176 / 100
def imageUploadView : ℚ := 25 / 10
def activeTimePerMinute : ℚ := 2 / 100
def backgroundTabPerMinute : ℚ := 5 / 1000
def idleBrowsingPerMinute : ℚ := 1 / 100

/-- The table `factors.searchQueries`. -/
def searchQueries (engine : String) : Option ℚ :=
  if engine = "google" then some (2 / 10)
  else if engine = "bing" then some (12 / 100)
  else if engine = "duckduckgo" then some (14 / 100)
  else if engine = "default" then some (16 / 100)
  else none

/-- The entry `factors.searchQueries.default`. -/
def searchDefault : ℚ := 16 / 100

/-- The table `factors.deviceMultipliers`. -/
def deviceMultipliers (device : String) : Option ℚ :=
  if device = "desktop" then some 1
  else if device = "laptop" then some (8 / 10)
  else if device = "tablet" then some (6 / 10)
  else if device = "smartphone" then some (3 / 10)
  else none

/-- The table `factors.gridFactors`. -/
def gridFactors (region : String) : Option ℚ :=
  if region = "US" then some 400
  else if region = "EU" then some 300
  else if region = "UK" then some 250
  else if region = "CA" then some 150
  else if region = "AU" then some 600
  else if region = "IN" then some 700
  else if region = "CN" then some 550
  else if region = "JP" then some 350
  else if region = "default" then some 437
  else none

/-- The entry `factors.gridFactors.default`. -/
def gridDefault : ℚ := 437

/-! ## `CarbonCalculator` -/

/-- The instance fields set by the constructor from `detectDeviceType` and `detectRegion`. -/
structure CarbonCalculator where
  deviceType : String
  region : String

namespace CarbonCalculator

/-- The field `gridFactor`, set to `gridFactors[region] || gridFactors.default`: the table
value of the region, 437 for a region the table does not have, and `none` for a region
that names an inherited property of the table object, where the lookup yields a function
or object (truthy, so that the default is not taken) instead of a number. -/
def gridFactor (c : CarbonCalculator) : Option ℚ :=
  if c.region ∈ objectPrototypeKeys then none
  else some (orDefault (gridFactors c.region) gridDefault)

/-- The expression `factors.deviceMultipliers[this.deviceType] || 1.0`. -/
def deviceMultiplier (c : CarbonCalculator) : ℚ := orDefault (deviceMultipliers c.deviceType) 1

/-- The method `calculateCO2FromDataTransfer` in double arithmetic; the result `k / 100`
stands for the double nearest to it. -/
def calculateCO2FromDataTransfer (dataTransferMB : ℚ) : ℚ :=
  let energyKWh := fl (fl (fl dataTransferMB * fl MB_TO_GB) * fl ENERGY_PER_GB)
  (mathRound (fl (fl (energyKWh * fl CO2_PER_KWH) * 100)) : ℚ) / 100

def calculateNetworkActivityCO2 (bytesTransferred : ℚ) : ℚ :=
  let mb := bytesTransferred / (1024 * 1024)
  (mathRound (mb * (8 / 10000) * 437 * 100) : ℚ) / 100

def calculatePageLoadCO2 (c : CarbonCalculator) (sizeKB : ℚ) (isFirstVisit : Bool) : ℚ :=
  let sizeMB := sizeKB / 1024
  let baseCO2 : ℚ :=
    if sizeMB ≤ 1 / 10 then 1 / 10
    else if sizeMB ≥ 228 / 100 then
      let b := if isFirstVisit then firstVisitCO2 else returnVisitCO2
      if sizeMB > 228 / 100 then b * (sizeMB / (228 / 100)) else b
    else
      (if isFirstVisit then firstVisitCO2 else returnVisitCO2) * (sizeMB / (228 / 100))
  (mathRound (baseCO2 * c.deviceMultiplier * 100) : ℚ) / 100

def calculateSearchCO2 (c : CarbonCalculator) (ops : JsStringOps) (searchEngine : String) : ℚ :=
  let co2 := orDefault (searchQueries (ops.toLowerCase searchEngine)) searchDefault
  (mathRound (co2 * c.deviceMultiplier * 100) : ℚ) / 100

/-- The method `calculateVideoStreamingCO2` in double arithmetic. The parameter
`deviceType = null` is `none`; `deviceType || this.deviceType` also falls back on the
empty string. -/
def calculateVideoStreamingCO2 (c : CarbonCalculator) (ops : JsStringOps)
    (durationMinutes : ℚ) (quality : String) (deviceType : Option String) : ℚ :=
  let device := match deviceType with
    | some d => if d = "" then c.deviceType else d
    | none => c.deviceType
  let baseCO2PerHour : ℚ :=
    if device = "smartphone" then videoStreamingMobile
    else if device = "laptop" ∨ device = "desktop" then videoStreamingLaptop
    else
      let q := ops.toUpperCase quality
      if q = "SD" then videoStreamingSD
      else if q = "HD" then videoStreamingHD
      else if q = "UHD" ∨ q = "4K" then videoStreamingUHD
      else videoStreamingHD
  let co2 := fl (fl (fl durationMinutes / 60) * fl baseCO2PerHour)
  (mathRound (fl (co2 * 100)) : ℚ) / 100

def calculateSocialMediaCO2 (c : CarbonCalculator) (pageViews imageViews : ℚ) : ℚ :=
  let pageViewCO2 := pageViews * socialMediaPageView
  let imageCO2 := imageViews * imageUploadView
  let total := pageViewCO2 + imageCO2
  (mathRound (total * c.deviceMultiplier * 100) : ℚ) / 100

def calculateTimeBrowsingCO2 (c : CarbonCalculator)
    (activeMinutes backgroundTabs idleMinutes : ℚ) : ℚ :=
  let activeCO2 := activeMinutes * activeTimePerMinute
  let backgroundCO2 := backgroundTabs * activeMinutes * backgroundTabPerMinute
  let idleCO2 := idleMinutes * idleBrowsingPerMinute
  let total := activeCO2 + backgroundCO2 + idleCO2
  (mathRound (total * c.deviceMultiplier * 100) : ℚ) / 100

end CarbonCalculator

/-- The argument of `calculateSessionCarbon`, each field with its destructuring default. -/
structure SessionData where
  totalTimeMinutes : ℚ := 0
  activeTabs : ℚ := 1
  idleTabs : ℚ := 0
  totalRequests : ℚ := 0
  totalDataMB : ℚ := 0
  videoTimeMinutes : ℚ := 0
  videoQuality : String := "HD"
  searchQueries : ℚ := 0
  socialMediaPageViews : ℚ := 0
  imageViews : ℚ := 0

namespace CarbonCalculator

/-- The method `calculateSessionCarbon`, the running total and the grid adjustment in
double arithmetic. The result is `NaN` when the region or the device type names an
inherited property of the factor tables: the grid factor, respectively the device
multiplier of the first term, is then a function or object, and `NaN` propagates through
the sum, the product and `Math.round`. -/
def calculateSessionCarbon (c : CarbonCalculator) (ops : JsStringOps) (s : SessionData) :
    JsNumber :=
  let totalCarbon : ℚ := 0
  let totalCarbon :=
    fl (totalCarbon + fl (c.calculateTimeBrowsingCO2 s.totalTimeMinutes s.idleTabs 0))
  let totalCarbon := fl (totalCarbon + fl (calculateCO2FromDataTransfer s.totalDataMB))
  let totalCarbon := if s.videoTimeMinutes > 0 then
      fl (totalCarbon +
        fl (c.calculateVideoStreamingCO2 ops s.videoTimeMinutes s.videoQuality none))
    else totalCarbon
  let totalCarbon := if s.searchQueries > 0 then
      fl (totalCarbon + fl (fl s.searchQueries * fl (c.calculateSearchCO2 ops "google")))
    else totalCarbon
  let totalCarbon := if s.socialMediaPageViews > 0 then
      fl (totalCarbon + fl (c.calculateSocialMediaCO2 s.socialMediaPageViews s.imageViews))
    else totalCarbon
  if c.deviceType ∈ objectPrototypeKeys then JsNumber.nan
  else
    match c.gridFactor with
    | none => JsNumber.nan
    | some gridFactor =>
      let gridAdjustment := fl (gridFactor / gridDefault)
      let totalCarbon := fl (totalCarbon * gridAdjustment)
      JsNumber.finite ((mathRound (fl (totalCarbon * 100)) : ℚ) / 100)

end CarbonCalculator

/-! ## Rate tables as the specification words them -/

/-- The video rate in grams per hour as the specification words it: the device tier
(smartphone 0.56, laptop or desktop 10.19) first, otherwise the quality tier of the
upper-cased quality (SD 36, HD 55, UHD or 4K 175, anything else 55). -/
def specVideoRate (ops : JsStringOps) (device quality : String) : ℚ :=
  if device = "smartphone" then 56 / 100
  else if device = "laptop" then 1019 / 100
  else if device = "desktop" then 1019 / 100
  else if ops.toUpperCase quality = "SD" then 36
  else if ops.toUpperCase quality = "HD" then 55
  else if ops.toUpperCase quality = "UHD" then 175
  else if ops.toUpperCase quality = "4K" then 175
  else 55

/-- The quality-tier rate in grams per hour as the specification words it. -/
def specTierRate (ops : JsStringOps) (quality : String) : ℚ :=
  if ops.toUpperCase quality = "SD" then 36
  else if ops.toUpperCase quality = "HD" then 55
  else if ops.toUpperCase quality = "UHD" then 175
  else if ops.toUpperCase quality = "4K" then 175
  else 55

/-- The grid factor `G(r)` as the specification words it: the table value of the region,
and 437 for `default` and for a region that is not in the table. -/
def specGridFactor (region : String) : ℚ :=
  match gridFactors region with
  | some g => g
  | none => 437

/-! ## `EcoWellnessBackground`: session total, daily buckets, alerts -/

/-- One entry of the persisted `dailyStats` object. -/
structure DailyBucket where
  carbon : ℚ
  screenTime : ℚ
  breaksTaken : ℚ
  sitesVisited : ℚ
deriving DecidableEq

/-- The persisted `dailyStats` object, keyed by the ISO date string. A store that was never
written (`getStoredData` gives `undefined`, replaced by `{}`) is the empty store. -/
abbrev DailyStats := String → Option DailyBucket

/-- The object literal `{}`. -/
def DailyStats.empty : DailyStats := fun _ => none

/-- The assignment `dailyData[key] = bucket`. -/
def DailyStats.set (d : DailyStats) (key : String) (bucket : DailyBucket) : DailyStats :=
  fun k => if k = key then some bucket else d k

/-- The literal `{ carbon: 0, screenTime: 0, breaksTaken: 0, sitesVisited: 0 }`. -/
def zeroBucket : DailyBucket := { carbon := 0, screenTime := 0, breaksTaken := 0, sitesVisited := 0 }

/-- The state the service worker reads and writes: `sessionData.totalCarbon`, the stored
`dailyStats`, and the log of `triggerHighCarbonAlert` calls (the argument of each call,
oldest first). -/
structure BackgroundState where
  totalCarbon : ℚ
  dailyStats : DailyStats
  alerts : List ℚ

/-- The state after construction, with nothing stored yet. -/
def BackgroundState.initial : BackgroundState :=
  { totalCarbon := 0, dailyStats := DailyStats.empty, alerts := [] }

/-- The method `triggerHighCarbonAlert`: one more alert is shown. -/
def triggerHighCarbonAlert (s : BackgroundState) (totalCarbon : ℚ) : BackgroundState :=
  { s with alerts := s.alerts ++ [totalCarbon] }

/-- The method `updateCarbonFootprint`; `today` is the date string of the clock at the call. -/
def updateCarbonFootprint (s : BackgroundState) (today : String) (carbonGrams : ℚ) :
    BackgroundState :=
  let s1 := { s with totalCarbon := s.totalCarbon + carbonGrams }
  let dailyData := s1.dailyStats
  let dailyData := if (dailyData today).isNone then dailyData.set today zeroBucket else dailyData
  let dailyData := match dailyData today with
    | some b => dailyData.set today { b with carbon := b.carbon + carbonGrams }
    | none => dailyData
  let s2 := { s1 with dailyStats := dailyData }
  if s2.totalCarbon > 500 then triggerHighCarbonAlert s2 s2.totalCarbon else s2

/-- A sequence of `updateCarbonFootprint` calls, each with its date and amount. -/
def runUpdates (s : BackgroundState) : List (String × ℚ) → BackgroundState
  | [] => s
  | (today, g) :: rest => runUpdates (updateCarbonFootprint s today g) rest

/-- For each call of a sequence, whether that call showed the high-carbon alert. -/
def alertTrace (s : BackgroundState) : List (String × ℚ) → List Bool
  | [] => []
  | (today, g) :: rest =>
    decide ((updateCarbonFootprint s today g).alerts.length = s.alerts.length + 1) ::
      alertTrace (updateCarbonFootprint s today g) rest

/-! ## `EcoWellnessBackground`: weekly statistics, break score, achievements -/

/-- One entry of the array returned by `getWeeklyStats`. -/
structure WeeklyEntry where
  date : String
  carbon : ℚ
  screenTime : ℚ
  breaksTaken : ℚ
deriving DecidableEq

/-- A time zone as the built-in `Date` sees it: `offsetAt t` is the UTC offset in ms in
force at the instant `t` (`LocalTime(t) = t + offsetAt t`), and `offsetOfLocal w` the
offset by which the local time value `w` is converted back (`UTC(w) = w - offsetOfLocal w`). -/
structure TimeZone where
  offsetAt : ℤ → ℤ
  offsetOfLocal : ℤ → ℤ

/-- The number of ms in a day. -/
def msPerDay : ℤ := 86400000

/-- The UTC day number of an instant given in ms since the epoch; the date part of
`toISOString()` is the string of this day. -/
def utcDay (t : ℤ) : ℤ := t / msPerDay

/-- The instant held by `date` after `date.setDate(date.getDate() - i)` on `new Date()` at
the instant `now`: the local time value moved back `i` days, converted back to UTC. -/
def setDateBack (zone : TimeZone) (now i : ℤ) : ℤ :=
  let localTime := now + zone.offsetAt now
  let newDate := localTime - i * msPerDay
  newDate - zone.offsetOfLocal newDate

/-- The zone UTC. -/
def utcZone : TimeZone := { offsetAt := fun _ => 0, offsetOfLocal := fun _ => 0 }

/-- New York around the end of daylight saving time on 2024-11-03: UTC-4 before
06:00 UTC (02:00 local), UTC-5 from then on. -/
def newYorkAutumn2024 : TimeZone :=
  { offsetAt := fun t => if t < 1730613600000 then -14400000 else -18000000,
    offsetOfLocal := fun w => if w < 1730599200000 then -14400000 else -18000000 }

/-- The date strings of the UTC days 20024 to 20031, 2024-10-28 to 2024-11-04. -/
def isoDateAutumn2024 (n : ℤ) : String :=
  if n = 20024 then "2024-10-28"
  else if n = 20025 then "2024-10-29"
  else if n = 20026 then "2024-10-30"
  else if n = 20027 then "2024-10-31"
  else if n = 20028 then "2024-11-01"
  else if n = 20029 then "2024-11-02"
  else if n = 20030 then "2024-11-03"
  else if n = 20031 then "2024-11-04"
  else ""

/-- The method `getWeeklyStats`. `now` is the instant of `new Date()` in ms, `zone` the
local time zone, and `isoDate n` the string `toISOString().split('T')[0]` of UTC day `n`. -/
def getWeeklyStats (zone : TimeZone) (isoDate : ℤ → String) (dailyData : DailyStats)
    (now : ℤ) : List WeeklyEntry :=
  ([6, 5, 4, 3, 2, 1, 0] : List ℤ).map fun i =>
    let dateStr := isoDate (utcDay (setDateBack zone now i))
    { date := dateStr,
      carbon := orDefault ((dailyData dateStr).map fun b => b.carbon) 0,
      screenTime := orDefault ((dailyData dateStr).map fun b => b.screenTime) 0,
      breaksTaken := orDefault ((dailyData dateStr).map fun b => b.breaksTaken) 0 }

/-- The persisted `settings` object; `carbonTarget` may be missing from it. -/
structure Settings where
  breakReminders : Bool := true
  carbonTarget : Option ℚ := none
  notificationStyle : String := "gentle"
  darkMode : Bool := false

/-- The method `checkWeeklyTarget`; `settings` is `none` when nothing is stored and
`today` is the instant of the clock in ms. -/
def checkWeeklyTarget (zone : TimeZone) (isoDate : ℤ → String) (dailyData : DailyStats)
    (settings : Option Settings) (today : ℤ) : Bool :=
  let weeklyStats := getWeeklyStats zone isoDate dailyData today
  let target := orDefault (settings.bind fun s => s.carbonTarget) 50
  weeklyStats.all fun day => decide (day.carbon < target)

/-- The service worker's method `calculateBreakScore`. -/
def calculateBreakScore (stats : DailyBucket) : ℚ :=
  let expectedBreaks : ℤ := ⌊stats.screenTime / 20⌋
  let breakRatio : ℚ := if expectedBreaks > 0 then stats.breaksTaken / expectedBreaks else 1
  min 10 (mathRound (breakRatio * 10) : ℚ)

/-- One element of the array built by `checkAchievements`. -/
structure Achievement where
  id : String
  name : String
  description : String
  icon : String
  unlocked : Bool
deriving DecidableEq

/-- One entry of the persisted `achievements` object: `{ unlockedAt, ...achievement }`. -/
structure AchievementRecord where
  unlockedAt : ℚ
  id : String
  name : String
  description : String
  icon : String
  unlocked : Bool
deriving DecidableEq

/-- The persisted `achievements` object, keyed by the achievement id. -/
abbrev AchievementMap := String → Option AchievementRecord

/-- The loop body of `checkAchievements`: a newly unlocked achievement is recorded. -/
def saveUnlocked (now : ℚ) (userAchievements : AchievementMap) (achievement : Achievement) :
    AchievementMap :=
  if achievement.unlocked = true ∧ (userAchievements achievement.id).isNone then
    fun k => if k = achievement.id then
      some { unlockedAt := now, id := achievement.id, name := achievement.name,
             description := achievement.description, icon := achievement.icon,
             unlocked := achievement.unlocked }
    else userAchievements k
  else userAchievements

/-- The method `checkAchievements`: the array it returns and the map it stores. The stored
`dailyStats` and `settings` are read by `checkWeeklyTarget`; `today` is the instant of the
clock in ms as `getWeeklyStats` reads it and `now` is `Date.now()` as the records store
it. -/
def checkAchievements (zone : TimeZone) (isoDate : ℤ → String) (dailyData : DailyStats)
    (settings : Option Settings) (today : ℤ) (now : ℚ) (todayStats : DailyBucket)
    (userAchievements : AchievementMap) : List Achievement × AchievementMap :=
  let achievements : List Achievement :=
    [ { id := "green_surfer", name := "Green Surfer",
        description := "Browse with <500g CO₂ today", icon := "🌱",
        unlocked := decide (todayStats.carbon < 500) },
      { id := "break_master", name := "Break Master",
        description := "Take 5+ wellness breaks today", icon := "🧘",
        unlocked := decide (todayStats.breaksTaken ≥ 5) },
      { id := "eco_warrior", name := "Eco Warrior",
        description := "Keep carbon footprint under target for 7 days", icon := "🛡️",
        unlocked := checkWeeklyTarget zone isoDate dailyData settings today },
      { id := "mindful_browser", name := "Mindful Browser",
        description := "Perfect break score for the day", icon := "🎯",
        unlocked := decide (calculateBreakScore todayStats ≥ 9) } ]
  (achievements, achievements.foldl (saveUnlocked now) userAchievements)

/-! ## `WellnessTracker` -/

/-- The object `WellnessTracker.sessionData`; `lastBreakTime` is `none` for `null`. -/
structure WellnessTracker.SessionData where
  startTime : ℚ
  activeTime : ℚ
  idleTime : ℚ
  breaksTaken : ℚ
  eyeStrainLevel : ℚ
  postureScore : ℚ
  lastBreakTime : Option ℚ
  consecutiveActiveMinutes : ℚ
  blinkRate : ℚ
  focusScore : ℚ
deriving DecidableEq

/-- One record pushed by `recordBreakHistory`. -/
structure WellnessTracker.BreakRecord where
  timestamp : ℚ
  type : String
  duration : ℚ
  date : String
deriving DecidableEq

/-- The object `breakHistory`: for each date string, the records of that day. -/
abbrev WellnessTracker.BreakHistory := String → Option (List WellnessTracker.BreakRecord)

/-- The mutable fields of a `WellnessTracker`; `breakHistory` is `none` while undefined. -/
structure WellnessTracker where
  sessionData : WellnessTracker.SessionData
  breakHistory : Option WellnessTracker.BreakHistory

/-- The object `improvedScores` returned by `recordBreakTaken`. -/
structure WellnessTracker.ImprovedScores where
  eyeStrain : ℚ
  posture : ℚ
  focus : ℚ
deriving DecidableEq

namespace WellnessTracker

/-- The array `wellnessMetrics.eyeStrain.weights`. -/
def eyeStrainWeights : List ℚ := [4 / 10, 25 / 100, 2 / 10, 15 / 100]

/-- The entry `wellnessRules.optimalBreakInterval`. -/
def optimalBreakInterval : ℚ := 25

/-- The expression `lastBreakTime ? (Date.now() - lastBreakTime) / (1000 * 60) :
consecutiveActiveMinutes`; a `lastBreakTime` of `0` is falsy like `null`. -/
def timeSinceLastBreak (s : SessionData) (now : ℚ) : ℚ :=
  match s.lastBreakTime with
  | some t => if t = 0 then s.consecutiveActiveMinutes else (now - t) / (1000 * 60)
  | none => s.consecutiveActiveMinutes

/-- The method `calculateEyeStrainLevel`: the updated session and the returned level. -/
def calculateEyeStrainLevel (s : SessionData) : SessionData × ℚ :=
  let factors : List ℚ :=
    [ min (s.consecutiveActiveMinutes / 60) 1,
      7 / 10,
      max 0 ((20 - s.blinkRate) / 15),
      5 / 10 ]
  let weights := eyeStrainWeights
  let strainLevel : ℚ := (factors.zip weights).foldl (fun acc p => acc + p.1 * p.2) 0
  let s1 := { s with eyeStrainLevel := min (strainLevel * 10) 10 }
  (s1, s1.eyeStrainLevel)

/-- The method `calculatePostureScore`: the updated session and the returned score. -/
def calculatePostureScore (s : SessionData) (now : ℚ) : SessionData × ℚ :=
  let t := timeSinceLastBreak s now
  let score : ℚ := 10 - t / 10
  let score : ℚ :=
    if s.breaksTaken > 0 then
      let breakFrequency := s.activeTime / s.breaksTaken
      if breakFrequency ≤ 30 then score + 1 else score
    else score
  let s1 := { s with postureScore := max (min score 10) 0 }
  (s1, s1.postureScore)

/-- The method `recordBreakHistory`, creating the history and the list of the day when
they are missing. -/
def recordBreakHistory (h : Option BreakHistory) (now : ℚ) (today breakType : String)
    (duration : ℚ) : Option BreakHistory :=
  let breakRecord : BreakRecord :=
    { timestamp := now, type := breakType, duration := duration, date := today }
  let h0 : BreakHistory := match h with
    | some m => m
    | none => fun _ => none
  let todayBreaks : List BreakRecord := match h0 today with
    | some l => l
    | none => []
  some fun d => if d = today then some (todayBreaks ++ [breakRecord]) else h0 d

/-- The method `recordBreakTaken`; `now` is `Date.now()` and `today` its date string. -/
def recordBreakTaken (w : WellnessTracker) (now : ℚ) (today : String)
    (breakType : String) (duration : ℚ) : WellnessTracker × ImprovedScores :=
  let s := w.sessionData
  let s := { s with breaksTaken := s.breaksTaken + 1 }
  let s := { s with lastBreakTime := some now }
  let s := { s with consecutiveActiveMinutes := 0 }
  let s := { s with eyeStrainLevel := max 0 (s.eyeStrainLevel - 2) }
  let s := { s with postureScore := min 10 (s.postureScore + 1) }
  let s := { s with focusScore := min 10 (s.focusScore + 5 / 10) }
  let h := recordBreakHistory w.breakHistory now today breakType duration
  ({ sessionData := s, breakHistory := h },
    { eyeStrain := s.eyeStrainLevel, posture := s.postureScore, focus := s.focusScore })

/-- The method `calculateBreakConsistency`; `Math.sqrt` is the parameter `sqrt`. -/
def calculateBreakConsistency (sqrt : ℚ → ℚ) (w : WellnessTracker) (today : String) : ℚ :=
  match w.breakHistory with
  | none => 0
  | some h =>
    let todayBreaks : List BreakRecord := match h today with
      | some l => l
      | none => []
    if todayBreaks.length < 2 then 0
    else
      let intervals : List ℚ :=
        List.zipWith (fun prev cur => (cur.timestamp - prev.timestamp) / (1000 * 60))
          todayBreaks todayBreaks.tail
      let averageInterval : ℚ :=
        intervals.foldl (fun sum interval => sum + interval) 0 / (intervals.length : ℚ)
      let variance : ℚ :=
        intervals.foldl (fun sum interval => sum + (interval - averageInterval) ^ 2) 0 /
          (intervals.length : ℚ)
      let standardDeviation := sqrt variance
      max 0 (2 - standardDeviation / 30)

/-- The method `WellnessTracker.calculateBreakScore`. -/
def calculateBreakScore (sqrt : ℚ → ℚ) (w : WellnessTracker) (today : String) : ℚ :=
  let activeHours := w.sessionData.activeTime / 60
  let expectedBreaks : ℤ := ⌊activeHours * 2⌋
  let actualBreaks := w.sessionData.breaksTaken
  if expectedBreaks = 0 then 10
  else
    let breakRatio := actualBreaks / (expectedBreaks : ℚ)
    let score := min (breakRatio * 10) 10
    let consistency := calculateBreakConsistency sqrt w today
    min (score + consistency) 10

end WellnessTracker

/-! ## `WellnessTracker`: session steps and derived scores -/

namespace WellnessTracker

/-- The array `wellnessMetrics.mentalWellness.weights`. -/
def mentalWellnessWeights : List ℚ := [35 / 100, 35 / 100, 3 / 10]

/-- The `sessionData` literal of the constructor; `startTime` is `Date.now()`. -/
def initialSessionData (startTime : ℚ) : SessionData :=
  { startTime := startTime,
    activeTime := 0,
    idleTime := 0,
    breaksTaken := 0,
    eyeStrainLevel := 0,
    postureScore := 10,
    lastBreakTime := none,
    consecutiveActiveMinutes := 0,
    blinkRate := 0,
    focusScore := 10 }

/-- The tracker right after construction. -/
def initial (startTime : ℚ) : WellnessTracker :=
  { sessionData := initialSessionData startTime, breakHistory := none }

/-- The method `resetDailyData`; `now` is `Date.now()`. -/
def resetDailyData (w : WellnessTracker) (now : ℚ) : WellnessTracker :=
  { w with sessionData :=
      { startTime := now,
        activeTime := 0,
        idleTime := 0,
        breaksTaken := 0,
        eyeStrainLevel := 0,
        postureScore := 10,
        lastBreakTime := none,
        consecutiveActiveMinutes := 0,
        blinkRate := 15,
        focusScore := 10 } }

/-- The method `getActivityLevel`; `random` is the value of `Math.random()`. -/
def getActivityLevel (random : ℚ) : ℚ := 7 / 10 + (random - 5 / 10) * (4 / 10)

/-- The method `estimateBlinkRate`. -/
def estimateBlinkRate (s : SessionData) : SessionData :=
  let baselineBlinkRate : ℚ := 15
  let screenReduction := min (s.consecutiveActiveMinutes * (1 / 10)) 8
  { s with blinkRate := max (baselineBlinkRate - screenReduction) 5 }

/-- The method `trackFocusPatterns`. -/
def trackFocusPatterns (s : SessionData) (random : ℚ) : SessionData :=
  let activityLevel := getActivityLevel random
  if activityLevel > 7 / 10 then
    { s with focusScore := min (s.focusScore + 1 / 10) 10 }
  else if activityLevel < 3 / 10 then
    { s with focusScore := max (s.focusScore - 2 / 10) 0 }
  else s

/-- The method `trackMicroMetrics`. -/
def trackMicroMetrics (s : SessionData) (random : ℚ) : SessionData :=
  trackFocusPatterns (estimateBlinkRate s) random

/-- The method `calculateFocusScore`: the updated session and the returned score. -/
def calculateFocusScore (s : SessionData) (random : ℚ) : SessionData × ℚ :=
  let s1 := if getActivityLevel random < 1 / 10 then
      { s with focusScore := max (s.focusScore - 1 / 10) 0 }
    else s
  (s1, s1.focusScore)

/-- The method `updateActiveTime`; `now` is the clock read by `calculatePostureScore` and
`random` the value drawn by `calculateFocusScore`. -/
def updateActiveTime (s : SessionData) (now random : ℚ) : SessionData :=
  let s := { s with activeTime := s.activeTime + 1 }
  let s := { s with consecutiveActiveMinutes := s.consecutiveActiveMinutes + 1 }
  let s := (calculateEyeStrainLevel s).1
  let s := (calculatePostureScore s now).1
  (calculateFocusScore s random).1

/-- The method `shouldTakeBreak`. -/
def shouldTakeBreak (s : SessionData) (now : ℚ) : Bool :=
  decide (timeSinceLastBreak s now ≥ optimalBreakInterval)

/-- The method `estimateStressLevel`. -/
def estimateStressLevel (s : SessionData) : ℚ :=
  let stressLevel : ℚ := 0
  let stressLevel := if s.consecutiveActiveMinutes > 120 then stressLevel + 4 / 10
    else stressLevel
  let stressLevel := if s.breaksTaken < (⌊s.activeTime / 60⌋ : ℚ) then stressLevel + 3 / 10
    else stressLevel
  let stressLevel := if s.eyeStrainLevel > 7 then stressLevel + 3 / 10 else stressLevel
  min stressLevel 1

/-- The method `calculateMentalWellnessScore`. The weights are paired with `focusTime`,
`breakBalance`, `stressLevel` in that order; only `breakBalance` can fail to be finite. -/
def calculateMentalWellnessScore (s : SessionData) : JsNumber :=
  let focusTime := s.focusScore / 10
  let breakBalance := (jsDiv s.breaksTaken (s.activeTime / 60)).minWith 1
  let stressLevel := estimateStressLevel s
  breakBalance.weighted fun b =>
    (([focusTime, b, stressLevel] : List ℚ).zip mentalWellnessWeights).foldl
      (fun score p => score + p.1 * p.2) 0 * 10

/-- The score-range invariant of a session: the three scores lie in `[0, 10]` and the
counters are non-negative. -/
def SessionData.InRange (s : SessionData) : Prop :=
  (0 ≤ s.eyeStrainLevel ∧ s.eyeStrainLevel ≤ 10) ∧
    (0 ≤ s.postureScore ∧ s.postureScore ≤ 10) ∧
    (0 ≤ s.focusScore ∧ s.focusScore ≤ 10) ∧
    0 ≤ s.consecutiveActiveMinutes ∧ 0 ≤ s.activeTime ∧ 0 ≤ s.breaksTaken

instance (s : SessionData) : Decidable s.InRange := by
  unfold SessionData.InRange
  infer_instance

/-- One step of a tracker session, with the clock and random values it reads. -/
inductive Step where
  | updateActiveTime (now random : ℚ)
  | trackMicroMetrics (random : ℚ)
  | recordBreakTaken (now : ℚ) (today breakType : String) (duration : ℚ)

/-- The tracker after one step. -/
def step (w : WellnessTracker) : Step → WellnessTracker
  | Step.updateActiveTime now random =>
    { w with sessionData := updateActiveTime w.sessionData now random }
  | Step.trackMicroMetrics random =>
    { w with sessionData := trackMicroMetrics w.sessionData random }
  | Step.recordBreakTaken now today breakType duration =>
    (w.recordBreakTaken now today breakType duration).1

/-- The tracker after a sequence of steps. -/
def run (w : WellnessTracker) (steps : List Step) : WellnessTracker :=
  steps.foldl step w

end WellnessTracker

/-! ## `EcoWellnessBackground`: remaining bucket operations, visit log -/

/-- The table `carbonFactors` of the service worker. -/
def carbonFactors_dataTransfer : ℚ := 5 / 10
def carbonFactors_cpuUsage : ℚ := 1 / 10
def carbonFactors_screenBrightness : ℚ := 5 / 100
def carbonFactors_serverRequest : ℚ := 25 / 100

/-- The method `updateScreenTime`. -/
def updateScreenTime (s : BackgroundState) (today : String) : BackgroundState :=
  let dailyData := s.dailyStats
  let dailyData := if (dailyData today).isNone then dailyData.set today zeroBucket else dailyData
  let dailyData := match dailyData today with
    | some b => dailyData.set today
        { b with screenTime := b.screenTime + 1, sitesVisited := b.sitesVisited + 1 }
    | none => dailyData
  { s with dailyStats := dailyData }

/-- The service worker's method `recordBreakTaken`. -/
def recordBreakTaken (s : BackgroundState) (today : String) : BackgroundState :=
  let dailyData := s.dailyStats
  let dailyData := if (dailyData today).isNone then dailyData.set today zeroBucket else dailyData
  let dailyData := match dailyData today with
    | some b => dailyData.set today { b with breaksTaken := b.breaksTaken + 1 }
    | none => dailyData
  { s with dailyStats := dailyData }

/-- The fields of a `webRequest` event that describe the request. -/
structure RequestDetails where
  type : String
  url : String
  statusCode : ℚ
  contentLength : Option ℚ

/-- The method `trackNetworkRequest`. -/
def trackNetworkRequest (s : BackgroundState) (today : String) (details : RequestDetails) :
    BackgroundState :=
  if details.type = "main_frame" then
    let estimatedSize : ℚ := 50
    let carbonImpact := carbonFactors_serverRequest + estimatedSize * carbonFactors_dataTransfer
    updateCarbonFootprint s today carbonImpact
  else s

/-- One of the bucket operations of the service worker, with the date of its clock. -/
inductive BucketOp where
  | updateCarbonFootprint (today : String) (carbonGrams : ℚ)
  | updateScreenTime (today : String)
  | recordBreakTaken (today : String)

/-- The state after one bucket operation. -/
def applyBucketOp (s : BackgroundState) : BucketOp → BackgroundState
  | BucketOp.updateCarbonFootprint today g => updateCarbonFootprint s today g
  | BucketOp.updateScreenTime today => updateScreenTime s today
  | BucketOp.recordBreakTaken today => recordBreakTaken s today

/-- One entry of the persisted `visitLog`. -/
structure VisitEntry where
  url : String
  size : ℚ
  carbon : ℚ
  timestamp : ℚ
deriving DecidableEq

/-- The method `logPageVisit`: the log it stores; `stored` is `none` when nothing was
stored yet and `now` is `Date.now()`. -/
def logPageVisit (stored : Option (List VisitEntry)) (url : String) (size carbon now : ℚ) :
    List VisitEntry :=
  let visitLog : List VisitEntry := match stored with
    | some l => l
    | none => []
  let visitLog := visitLog ++ [{ url := url, size := size, carbon := carbon, timestamp := now }]
  if visitLog.length > 100 then visitLog.drop (visitLog.length - 100) else visitLog

/-! ## `formatCarbonFootprint` -/

/-- The decimal digit of a number below 10. -/
def digitChar (d : ℕ) : Char := Char.ofNat (48 + d % 10)

/-- The decimal digits of a natural number, most significant first. -/
def decimalDigits : ℕ → ℕ → List Char
  | 0, _ => []
  | fuel + 1, n =>
    if n < 10 then [digitChar n] else decimalDigits fuel (n / 10) ++ [digitChar (n % 10)]

/-- The string of the number `n / 100` in a template literal: sign, integer part, and up
to two decimals without trailing zeros. -/
def hundredthsToString (n : ℤ) : String :=
  let a := n.natAbs
  let sign : List Char := if n < 0 then ['-'] else []
  let whole := decimalDigits (a / 100 + 1) (a / 100)
  let frac : List Char :=
    if a % 100 = 0 then []
    else if a % 10 = 0 then ['.', digitChar (a % 100 / 10)]
    else ['.', digitChar (a % 100 / 10), digitChar (a % 10)]
  String.mk (sign ++ whole ++ frac)

/-- The method `CarbonCalculator.formatCarbonFootprint` in double arithmetic. -/
def CarbonCalculator.formatCarbonFootprint (carbonGrams : ℚ) : String :=
  if fl carbonGrams < 1000 then
    hundredthsToString (mathRound (fl (fl carbonGrams * 100))) ++ "g CO₂"
  else
    hundredthsToString (mathRound (fl (fl carbonGrams / 10))) ++ "kg CO₂"

/-! ## Reading a decimal numeral -/

/-- The number a string of decimal digits denotes, read from the left. -/
def digitsValue (cs : List Char) : ℕ := cs.foldl (fun acc c => 10 * acc + (c.toNat - 48)) 0

/-- A non-empty string of decimal digits. -/
def isDigits (cs : List Char) : Bool := !cs.isEmpty && cs.all Char.isDigit

/-- The value of an unsigned numeral `ddd` or `ddd.ddd`. -/
def unsignedValue (cs : List Char) : Option ℚ :=
  match cs.dropWhile (fun c => c != '.') with
  | [] => if isDigits cs then some (digitsValue cs : ℚ) else none
  | _ :: frac =>
    if isDigits (cs.takeWhile (fun c => c != '.')) && isDigits frac then
      some ((digitsValue (cs.takeWhile (fun c => c != '.')) : ℚ) +
        (digitsValue frac : ℚ) / 10 ^ frac.length)
    else none

/-- The value of a decimal numeral with an optional leading minus sign; `none` for a
string that is not such a numeral. -/
def decimalValue (s : String) : Option ℚ :=
  match s.data with
  | [] => none
  | c :: rest =>
    if c = '-' then (unsignedValue rest).map (fun v => -v) else unsignedValue (c :: rest)

/-! ## `WellnessTimer` -/

/-- The fields of a `WellnessTimer` element and the number of `BREAK_NOW` messages sent. -/
structure WellnessTimer where
  initialized : Bool
  intervalMins : ℚ
  remaining : ℚ
  sent : ℕ

namespace WellnessTimer

/-- The element before it is connected. -/
def fresh : WellnessTimer := { initialized := false, intervalMins := 0, remaining := 0, sent := 0 }

/-- The method `connectedCallback`; `interval` is the number in the `interval` attribute,
`none` when the attribute is missing or empty. -/
def connectedCallback (t : WellnessTimer) (interval : Option ℚ) : WellnessTimer :=
  if t.initialized then t
  else
    let intervalMins : ℚ := match interval with
      | some v => v
      | none => 20
    { t with initialized := true, intervalMins := intervalMins, remaining := intervalMins * 60 }

/-- The method `tick`. -/
def tick (t : WellnessTimer) : WellnessTimer :=
  let t1 := { t with remaining := t.remaining - 1 }
  if t1.remaining ≤ 0 then
    { t1 with sent := t1.sent + 1, remaining := t1.intervalMins * 60 }
  else t1

/-- The timer after `n` ticks. -/
def ticks (t : WellnessTimer) : ℕ → WellnessTimer
  | 0 => t
  | n + 1 => tick (ticks t n)

end WellnessTimer

end EcoWellness

namespace EcoWellness
open CarbonCalculator

/-! ## Rounding lemmas -/

theorem mathRound_mono {x y : ℚ} (h : x ≤ y) : mathRound x ≤ mathRound y := by
  unfold mathRound
  exact Int.floor_mono (by linarith)

theorem mathRound_eq_iff (x : ℚ) (n : ℤ) :
    mathRound x = n ↔ (n : ℚ) ≤ x + 1 / 2 ∧ x + 1 / 2 < n + 1 := by
  unfold mathRound
  exact Int.floor_eq_iff

theorem mathRound_le (x : ℚ) : (mathRound x : ℚ) ≤ x + 1 / 2 := by
  unfold mathRound
  exact Int.floor_le _

theorem lt_mathRound_add_one (x : ℚ) : x + 1 / 2 < (mathRound x : ℚ) + 1 := by
  unfold mathRound
  exact Int.lt_floor_add_one _

theorem round2_eq_of (x : ℚ) (n : ℤ) (h1 : (n : ℚ) ≤ x * 100 + 1 / 2)
    (h2 : x * 100 + 1 / 2 < n + 1) : round2 x = (n : ℚ) / 100 := by
  unfold round2
  rw [(mathRound_eq_iff _ n).2 ⟨h1, h2⟩]

theorem round2_mono {x y : ℚ} (h : x ≤ y) : round2 x ≤ round2 y := by
  unfold round2
  have h1 : mathRound (x * 100) ≤ mathRound (y * 100) := mathRound_mono (by linarith)
  have h2 : (mathRound (x * 100) : ℚ) ≤ (mathRound (y * 100) : ℚ) := by exact_mod_cast h1
  linarith

theorem round2_zero : round2 0 = 0 := by
  rw [round2_eq_of 0 0 (by norm_num) (by norm_num)]
  norm_num

/-! ## Double arithmetic -/

theorem roundHalfEven_abs_sub_le (y : ℚ) : |(roundHalfEven y : ℚ) - y| ≤ 1 / 2 := by
  have h1 := Int.floor_le y
  have h2 := Int.lt_floor_add_one y
  unfold roundHalfEven
  rw [abs_le]
  split_ifs with a b c
  · constructor <;> linarith
  · push_cast
    constructor <;> linarith
  · have e : y - ⌊y⌋ = 1 / 2 := le_antisymm (not_lt.mp b) (not_lt.mp a)
    constructor <;> linarith
  · have e : y - ⌊y⌋ = 1 / 2 := le_antisymm (not_lt.mp b) (not_lt.mp a)
    push_cast
    constructor <;> linarith

theorem roundHalfEven_eq_of_lt (y : ℚ) (n : ℤ) (h : |y - n| < 1 / 2) : roundHalfEven y = n := by
  rw [abs_lt] at h
  unfold roundHalfEven
  by_cases c : (n : ℚ) ≤ y
  · have hf : ⌊y⌋ = n := by
      rw [Int.floor_eq_iff]
      constructor <;> linarith [h.1, h.2]
    rw [hf, if_pos (by linarith [h.2])]
  · have hf : ⌊y⌋ = n - 1 := by
      rw [Int.floor_eq_iff]
      push_cast
      constructor <;> linarith [h.1, h.2]
    rw [hf]
    push_cast
    rw [if_neg (by linarith [h.1]), if_pos (by linarith [h.1])]
    ring

theorem intLog_eq (r : ℚ) (e : ℤ) (h1 : (2 : ℚ) ^ e ≤ r) (h2 : r < (2 : ℚ) ^ (e + 1)) :
    Int.log 2 r = e := by
  have hr : 0 < r := lt_of_lt_of_le (by positivity) h1
  have a : e ≤ Int.log 2 r := by
    have := (Int.zpow_le_iff_le_log (b := 2) (by norm_num) hr (x := e)).1 (by exact_mod_cast h1)
    exact this
  have b : Int.log 2 r < e + 1 := by
    have := (Int.lt_zpow_iff_log_lt (b := 2) (by norm_num) hr (x := e + 1)).1
      (by exact_mod_cast h2)
    exact this
  omega

/-- Evaluation of `fl` from the binade of `x` and its significand. -/
theorem fl_eq (x : ℚ) (e n : ℤ) (h1 : (2 : ℚ) ^ e ≤ |x|) (h2 : |x| < (2 : ℚ) ^ (e + 1))
    (h3 : |x / (2 : ℚ) ^ (e - 52) - n| < 1 / 2) : fl x = (n : ℚ) * (2 : ℚ) ^ (e - 52) := by
  have hx : x ≠ 0 := by
    intro h
    rw [h, abs_zero] at h1
    exact absurd h1 (not_le.mpr (by positivity))
  unfold fl
  rw [if_neg hx, intLog_eq _ e h1 h2, roundHalfEven_eq_of_lt _ n h3]

theorem fl_zero : fl 0 = 0 := by
  unfold fl
  simp

theorem fl_abs_sub_le (x : ℚ) : |fl x - x| ≤ unitRoundoff * |x| := by
  by_cases hx : x = 0
  · rw [hx, fl_zero]
    simp
  · unfold fl
    rw [if_neg hx]
    have hpos : 0 < |x| := abs_pos.mpr hx
    have hlog : ((2 : ℕ) : ℚ) ^ Int.log 2 |x| ≤ |x| := Int.zpow_log_le_self (by norm_num) hpos
    generalize Int.log 2 |x| = e at hlog
    have hp : (0 : ℚ) < (2 : ℚ) ^ (e - 52) := by positivity
    have hr := roundHalfEven_abs_sub_le (x / (2 : ℚ) ^ (e - 52))
    have e1 : (roundHalfEven (x / (2 : ℚ) ^ (e - 52)) : ℚ) * (2 : ℚ) ^ (e - 52) - x =
        ((roundHalfEven (x / (2 : ℚ) ^ (e - 52)) : ℚ) - x / (2 : ℚ) ^ (e - 52)) *
          (2 : ℚ) ^ (e - 52) := by
      field_simp
    rw [e1, abs_mul, abs_of_pos hp]
    have e2 : (2 : ℚ) ^ (e - 52) = (2 : ℚ) ^ e * (1 / 4503599627370496) := by
      rw [zpow_sub₀ (by norm_num)]
      norm_num
      ring
    have hlog2 : (2 : ℚ) ^ e ≤ |x| := by exact_mod_cast hlog
    have h2e : (0 : ℚ) < (2 : ℚ) ^ e := by positivity
    unfold unitRoundoff
    calc |(roundHalfEven (x / (2 : ℚ) ^ (e - 52)) : ℚ) - x / (2 : ℚ) ^ (e - 52)| *
          (2 : ℚ) ^ (e - 52)
        ≤ 1 / 2 * (2 : ℚ) ^ (e - 52) := by
          apply mul_le_mul_of_nonneg_right hr (le_of_lt hp)
      _ = 1 / 9007199254740992 * (2 : ℚ) ^ e := by rw [e2]; ring
      _ ≤ 1 / 9007199254740992 * |x| := by
          apply mul_le_mul_of_nonneg_left hlog2 (by norm_num)


theorem fl_eq_pos (x : ℚ) (e n : ℤ) (h1 : (2 : ℚ) ^ e ≤ x) (h2 : x < (2 : ℚ) ^ (e + 1))
    (h3 : (n : ℚ) - 1 / 2 < x / (2 : ℚ) ^ (e - 52))
    (h4 : x / (2 : ℚ) ^ (e - 52) < n + 1 / 2) :
    fl x = (n : ℚ) * (2 : ℚ) ^ (e - 52) := by
  have hx : 0 < x := lt_of_lt_of_le (by positivity) h1
  apply fl_eq x e n
  · rwa [abs_of_pos hx]
  · rwa [abs_of_pos hx]
  · rw [abs_lt]
    constructor <;> linarith

theorem fl_eq_neg (x : ℚ) (e n : ℤ) (h1 : (2 : ℚ) ^ e ≤ -x) (h2 : -x < (2 : ℚ) ^ (e + 1))
    (h3 : (n : ℚ) - 1 / 2 < x / (2 : ℚ) ^ (e - 52))
    (h4 : x / (2 : ℚ) ^ (e - 52) < n + 1 / 2) :
    fl x = (n : ℚ) * (2 : ℚ) ^ (e - 52) := by
  have hx : x < 0 := by
    have : 0 < -x := lt_of_lt_of_le (by positivity) h1
    linarith
  apply fl_eq x e n
  · rwa [abs_of_neg hx]
  · rwa [abs_of_neg hx]
  · rw [abs_lt]
    constructor <;> linarith

/-- A number `n * 2 ^ k` with `|n| < 2 ^ 53` is a double. -/
theorem fl_dyadic (n k : ℤ) (hn : |n| < 9007199254740992) :
    fl ((n : ℚ) * (2 : ℚ) ^ k) = (n : ℚ) * (2 : ℚ) ^ k := by
  by_cases h0 : n = 0
  · rw [h0]
    simp [fl_zero]
  have hx : (n : ℚ) * (2 : ℚ) ^ k ≠ 0 := by
    have : (n : ℚ) ≠ 0 := by exact_mod_cast h0
    positivity
  have hpos : 0 < |(n : ℚ) * (2 : ℚ) ^ k| := abs_pos.mpr hx
  have hlog : ((2 : ℕ) : ℚ) ^ Int.log 2 |(n : ℚ) * (2 : ℚ) ^ k| ≤
      |(n : ℚ) * (2 : ℚ) ^ k| :=
    Int.zpow_log_le_self (by norm_num) hpos
  unfold fl
  rw [if_neg hx]
  generalize Int.log 2 |(n : ℚ) * (2 : ℚ) ^ k| = e at hlog
  have hlog2 : (2 : ℚ) ^ e ≤ |(n : ℚ) * (2 : ℚ) ^ k| := by exact_mod_cast hlog
  have hnq : |(n : ℚ)| < 9007199254740992 := by exact_mod_cast hn
  have h2k : (0 : ℚ) < (2 : ℚ) ^ k := by positivity
  have hlt : (2 : ℚ) ^ e < (2 : ℚ) ^ (53 + k) := by
    calc (2 : ℚ) ^ e ≤ |(n : ℚ)| * (2 : ℚ) ^ k := by
          rw [abs_mul, abs_of_pos h2k] at hlog2
          exact hlog2
      _ < 9007199254740992 * (2 : ℚ) ^ k := by
          apply mul_lt_mul_of_pos_right hnq h2k
      _ = (2 : ℚ) ^ (53 + k) := by
          rw [zpow_add₀ (by norm_num)]
          norm_num
  have he : e < 53 + k := (zpow_lt_zpow_iff_right₀ (by norm_num : (1 : ℚ) < 2)).1 hlt
  obtain ⟨j, hj⟩ : ∃ j : ℕ, (j : ℤ) = k - (e - 52) := ⟨(k - (e - 52)).toNat, by omega⟩
  have hq : (n : ℚ) * (2 : ℚ) ^ k / (2 : ℚ) ^ (e - 52) = ((n * 2 ^ j : ℤ) : ℚ) := by
    rw [mul_div_assoc, ← zpow_sub₀ (by norm_num), ← hj, zpow_natCast]
    push_cast
    rfl
  rw [hq, roundHalfEven_eq_of_lt _ (n * 2 ^ j) (by simp)]
  have hk : k = (j : ℤ) + (e - 52) := by omega
  rw [hk, zpow_add₀ (by norm_num)]
  push_cast
  rw [zpow_natCast]
  ring

theorem fl_intCast (n : ℤ) (hn : |n| < 9007199254740992) : fl (n : ℚ) = n := by
  have h := fl_dyadic n 0 hn
  simpa using h

theorem closeTo_refl (x : ℚ) : CloseTo 1 x x := by
  unfold CloseTo
  simp

theorem closeTo_abs_le {ρ x' x : ℚ} (h : CloseTo ρ x' x) : |x'| ≤ ρ * |x| := by
  unfold CloseTo at h
  have h1 : |x'| ≤ |x' - x| + |x| := by
    have := abs_add (x' - x) x
    simpa using this
  linarith

theorem closeTo_mul {ρa ρb a' a b' b : ℚ} (ha : CloseTo ρa a' a) (hb : CloseTo ρb b' b) :
    CloseTo (ρa * ρb) (a' * b') (a * b) := by
  have hb' := closeTo_abs_le hb
  unfold CloseTo at *
  have e : a' * b' - a * b = (a' - a) * b' + a * (b' - b) := by ring
  have i1 : |(a' - a) * b'| ≤ (ρa - 1) * |a| * (ρb * |b|) := by
    rw [abs_mul]
    exact mul_le_mul ha hb' (abs_nonneg _) (le_trans (abs_nonneg _) ha)
  have i2 : |a * (b' - b)| ≤ |a| * ((ρb - 1) * |b|) := by
    rw [abs_mul]
    exact mul_le_mul_of_nonneg_left hb (abs_nonneg _)
  rw [e, abs_mul a b]
  calc |(a' - a) * b' + a * (b' - b)| ≤ |(a' - a) * b'| + |a * (b' - b)| := abs_add _ _
    _ ≤ (ρa - 1) * |a| * (ρb * |b|) + |a| * ((ρb - 1) * |b|) := add_le_add i1 i2
    _ = (ρa * ρb - 1) * (|a| * |b|) := by ring

theorem closeTo_fl {ρ x' x : ℚ} (h : CloseTo ρ x' x) :
    CloseTo (ρ * (1 + unitRoundoff)) (fl x') x := by
  have h' := closeTo_abs_le h
  have hf := fl_abs_sub_le x'
  unfold CloseTo at *
  have e : fl x' - x = (fl x' - x') + (x' - x) := by ring
  have hu : (0 : ℚ) ≤ unitRoundoff := by unfold unitRoundoff; norm_num
  rw [e]
  calc |(fl x' - x') + (x' - x)| ≤ |fl x' - x'| + |x' - x| := abs_add _ _
    _ ≤ unitRoundoff * (ρ * |x|) + (ρ - 1) * |x| :=
        add_le_add (le_trans hf (mul_le_mul_of_nonneg_left h' hu)) h
    _ = (ρ * (1 + unitRoundoff) - 1) * |x| := by ring

theorem closeTo_fl_self (x : ℚ) : CloseTo (1 + unitRoundoff) (fl x) x := by
  have h := closeTo_fl (closeTo_refl x)
  simpa using h

theorem closeTo_mono {ρ ρ' x' x : ℚ} (h : CloseTo ρ x' x) (hρ : ρ ≤ ρ') :
    CloseTo ρ' x' x := by
  unfold CloseTo at *
  exact le_trans h (mul_le_mul_of_nonneg_right (by linarith) (abs_nonneg _))

/-- `Math.round` of an approximation is within `1/2` plus the error of the exact value. -/
theorem mathRound_close_abs_le (y' y δ : ℚ) (h : |y' - y| ≤ δ) :
    |(mathRound y' : ℚ) - y| ≤ 1 / 2 + δ := by
  have h1 := mathRound_le y'
  have h2 := lt_mathRound_add_one y'
  rw [abs_le] at h ⊢
  constructor <;> linarith [h.1, h.2]

/-- `Math.round` of an approximation is `Math.round` of the exact value when the exact
value is farther from every half-integer than the error. -/
theorem mathRound_eq_of_close (y' y δ : ℚ) (h : |y' - y| ≤ δ)
    (hgap : ∀ j : ℤ, δ < |y - ((j : ℚ) + 1 / 2)|) : mathRound y' = mathRound y := by
  have h1 := mathRound_le y
  have h2 := lt_mathRound_add_one y
  have g1 := hgap (mathRound y)
  have g0 := hgap (mathRound y - 1)
  rw [abs_of_neg (by linarith)] at g1
  push_cast at g0
  rw [abs_of_nonneg (by linarith)] at g0
  rw [abs_le] at h
  rw [mathRound_eq_iff]
  constructor <;> linarith [h.1, h.2]

/-! ## Doubles of the estimates at sample inputs -/

theorem fl_MB_TO_GB :
    fl (1 / 1000) =
      1152921504606847 / 1152921504606846976 := by
  rw [fl_eq_pos _ (-10) 4611686018427388 (by norm_num) (by norm_num)
    (by norm_num) (by norm_num)]
  norm_num

theorem fl_ENERGY_PER_GB :
    fl (81 / 100) =
      1823957849085051 / 2251799813685248 := by
  rw [fl_eq_pos _ (-1) 7295831396340204 (by norm_num) (by norm_num)
    (by norm_num) (by norm_num)]
  norm_num

theorem fl_videoStreamingLaptop :
    fl (1019 / 100) =
      5736460025363169 / 562949953421312 := by
  rw [fl_eq_pos _ 3 5736460025363169 (by norm_num) (by norm_num)
    (by norm_num) (by norm_num)]
  norm_num

theorem dt_neg500_a :
    fl ((-500) * (1152921504606847 / 1152921504606846976)) =
      -1 / 2 := by
  rw [fl_eq_neg _ (-1) (-4503599627370496) (by norm_num) (by norm_num)
    (by norm_num) (by norm_num)]
  norm_num

theorem dt_neg500_b :
    fl (-1 / 2 * (1823957849085051 / 2251799813685248)) =
      -1823957849085051 / 4503599627370496 := by
  rw [fl_eq_neg _ (-2) (-7295831396340204) (by norm_num) (by norm_num)
    (by norm_num) (by norm_num)]
  norm_num

theorem dt_neg500_c :
    fl (-1823957849085051 / 4503599627370496 * 437) =
      -1556776523535483 / 8796093022208 := by
  rw [fl_eq_neg _ 7 (-6227106094141932) (by norm_num) (by norm_num)
    (by norm_num) (by norm_num)]
  norm_num

theorem dt_neg500_y :
    fl (-1556776523535483 / 8796093022208 * 100) =
      -35397 / 2 := by
  rw [fl_eq_neg _ 14 (-4864926636048384) (by norm_num) (by norm_num)
    (by norm_num) (by norm_num)]
  norm_num

theorem dt_pos500_a :
    fl (500 * (1152921504606847 / 1152921504606846976)) =
      1 / 2 := by
  rw [fl_eq_pos _ (-1) 4503599627370496 (by norm_num) (by norm_num)
    (by norm_num) (by norm_num)]
  norm_num

theorem dt_pos500_b :
    fl (1 / 2 * (1823957849085051 / 2251799813685248)) =
      1823957849085051 / 4503599627370496 := by
  rw [fl_eq_pos _ (-2) 7295831396340204 (by norm_num) (by norm_num)
    (by norm_num) (by norm_num)]
  norm_num

theorem dt_pos500_c :
    fl (1823957849085051 / 4503599627370496 * 437) =
      1556776523535483 / 8796093022208 := by
  rw [fl_eq_pos _ 7 6227106094141932 (by norm_num) (by norm_num)
    (by norm_num) (by norm_num)]
  norm_num

theorem dt_pos500_y :
    fl (1556776523535483 / 8796093022208 * 100) =
      35397 / 2 := by
  rw [fl_eq_pos _ 14 4864926636048384 (by norm_num) (by norm_num)
    (by norm_num) (by norm_num)]
  norm_num

theorem dt_neg1500_a :
    fl ((-1500) * (1152921504606847 / 1152921504606846976)) =
      -3 / 2 := by
  rw [fl_eq_neg _ 0 (-6755399441055744) (by norm_num) (by norm_num)
    (by norm_num) (by norm_num)]
  norm_num

theorem dt_neg1500_b :
    fl (-3 / 2 * (1823957849085051 / 2251799813685248)) =
      -5471873547255153 / 4503599627370496 := by
  rw [fl_eq_neg _ 0 (-5471873547255153) (by norm_num) (by norm_num)
    (by norm_num) (by norm_num)]
  norm_num

theorem dt_neg1500_c :
    fl (-5471873547255153 / 4503599627370496 * 437) =
      -4670329570606449 / 8796093022208 := by
  rw [fl_eq_neg _ 9 (-4670329570606449) (by norm_num) (by norm_num)
    (by norm_num) (by norm_num)]
  norm_num

theorem dt_neg1500_y :
    fl (-4670329570606449 / 8796093022208 * 100) =
      -7297389954072577 / 137438953472 := by
  rw [fl_eq_neg _ 15 (-7297389954072577) (by norm_num) (by norm_num)
    (by norm_num) (by norm_num)]
  norm_num

theorem dt_pos100_a :
    fl (100 * (1152921504606847 / 1152921504606846976)) =
      3602879701896397 / 36028797018963968 := by
  rw [fl_eq_pos _ (-4) 7205759403792794 (by norm_num) (by norm_num)
    (by norm_num) (by norm_num)]
  norm_num

theorem dt_pos100_b :
    fl (3602879701896397 / 36028797018963968 * (1823957849085051 / 2251799813685248)) =
      1459166279268041 / 18014398509481984 := by
  rw [fl_eq_pos _ (-4) 5836665117072164 (by norm_num) (by norm_num)
    (by norm_num) (by norm_num)]
  norm_num

theorem dt_pos100_c :
    fl (1459166279268041 / 18014398509481984 * 437) =
      2490842437656773 / 70368744177664 := by
  rw [fl_eq_pos _ 5 4981684875313546 (by norm_num) (by norm_num)
    (by norm_num) (by norm_num)]
  norm_num

theorem dt_pos100_y :
    fl (2490842437656773 / 70368744177664 * 100) =
      972985327209677 / 274877906944 := by
  rw [fl_eq_pos _ 11 7783882617677416 (by norm_num) (by norm_num)
    (by norm_num) (by norm_num)]
  norm_num

theorem video_330_b :
    fl (11 / 2 * (5736460025363169 / 562949953421312)) =
      7887632534874357 / 140737488355328 := by
  rw [fl_eq_pos _ 5 7887632534874357 (by norm_num) (by norm_num)
    (by norm_num) (by norm_num)]
  norm_num

theorem video_330_y :
    fl (7887632534874357 / 140737488355328 * 100) =
      6162212917870591 / 1099511627776 := by
  rw [fl_eq_pos _ 12 6162212917870591 (by norm_num) (by norm_num)
    (by norm_num) (by norm_num)]
  norm_num

theorem video_345_a :
    fl (69 / 2 / 60) =
      2589569785738035 / 4503599627370496 := by
  rw [fl_eq_pos _ (-1) 5179139571476070 (by norm_num) (by norm_num)
    (by norm_num) (by norm_num)]
  norm_num

theorem video_345_b :
    fl (2589569785738035 / 4503599627370496 * 55) =
      8901646138474495 / 281474976710656 := by
  rw [fl_eq_pos _ 4 8901646138474495 (by norm_num) (by norm_num)
    (by norm_num) (by norm_num)]
  norm_num

theorem video_345_y :
    fl (8901646138474495 / 281474976710656 * 100) =
      6954411045683199 / 2199023255552 := by
  rw [fl_eq_pos _ 11 6954411045683199 (by norm_num) (by norm_num)
    (by norm_num) (by norm_num)]
  norm_num

theorem fl_45_1000 :
    fl (45 / 1000) =
      3242591731706757 / 72057594037927936 := by
  rw [fl_eq_pos _ (-5) 6485183463413514 (by norm_num) (by norm_num)
    (by norm_num) (by norm_num)]
  norm_num

theorem format_45_y :
    fl (3242591731706757 / 72057594037927936 * 100) =
      9 / 2 := by
  rw [fl_eq_pos _ 2 5066549580791808 (by norm_num) (by norm_num)
    (by norm_num) (by norm_num)]
  norm_num

theorem fl_201_200 :
    fl (201 / 200) =
      1131529406376837 / 1125899906842624 := by
  rw [fl_eq_pos _ 0 4526117625507348 (by norm_num) (by norm_num)
    (by norm_num) (by norm_num)]
  norm_num

theorem format_1005_y :
    fl (1131529406376837 / 1125899906842624 * 100) =
      7072058789855231 / 70368744177664 := by
  rw [fl_eq_pos _ 6 7072058789855231 (by norm_num) (by norm_num)
    (by norm_num) (by norm_num)]
  norm_num

theorem format_12345_y :
    fl (2469 / 2 / 10) =
      8687021468732621 / 70368744177664 := by
  rw [fl_eq_pos _ 6 8687021468732621 (by norm_num) (by norm_num)
    (by norm_num) (by norm_num)]
  norm_num

/-! ## Page loads -/

theorem deviceMultiplier_pos (c : CarbonCalculator) : 0 < c.deviceMultiplier := by
  unfold deviceMultiplier deviceMultipliers
  split_ifs <;> norm_num [orDefault]

/-- The page-load estimate as one rounded product. -/
theorem pageLoad_eq_round2 (c : CarbonCalculator) (sizeKB : ℚ) (isFirstVisit : Bool) :
    c.calculatePageLoadCO2 sizeKB isFirstVisit =
      round2 ((if sizeKB / 1024 ≤ 1 / 10 then 1 / 10
        else (if isFirstVisit then 8 / 10 else 6 / 10) * (sizeKB / 1024) / (228 / 100)) *
          c.deviceMultiplier) := by
  unfold calculatePageLoadCO2 round2 firstVisitCO2 returnVisitCO2
  by_cases h1 : sizeKB / 1024 ≤ 1 / 10
  · simp only [h1, if_true]
  · simp only [h1, if_false]
    by_cases h2 : sizeKB / 1024 ≥ 228 / 100
    · simp only [h2, if_true]
      by_cases h3 : sizeKB / 1024 > 228 / 100
      · simp only [h3, if_true]
        congr 3
        ring
      · simp only [h3, if_false]
        have h4 : sizeKB / 1024 = 228 / 100 := le_antisymm (not_lt.mp h3) h2
        rw [h4]
        congr 3
        cases isFirstVisit <;> norm_num
    · simp only [h2, if_false]
      congr 3
      ring

/-- C3: for every page size, first-visit flag and device, `calculatePageLoadCO2` is
`round2 (base * m)` with `m` the device multiplier, `base = 0.1` when the size in MB is at
most 0.1 and `base = B * s / 2.28` above it, `B` being 0.8 on a first visit and 0.6 on a
return visit. -/
theorem calculatePageLoadCO2_formula (c : CarbonCalculator) (sizeKB : ℚ) (isFirstVisit : Bool) :
    c.calculatePageLoadCO2 sizeKB isFirstVisit =
      round2 ((if sizeKB / 1024 ≤ 1 / 10 then 1 / 10
        else (if isFirstVisit then 8 / 10 else 6 / 10) * (sizeKB / 1024) / (228 / 100)) *
          c.deviceMultiplier) :=
  pageLoad_eq_round2 c sizeKB isFirstVisit

/-- C2, as stated, fails: on a desktop a first-visit page of 100 KB is estimated at 0.1 g
and a larger page of 200 KB at 0.07 g. -/
theorem calculatePageLoadCO2_not_monotone :
    (0 : ℚ) ≤ 100 ∧ (100 : ℚ) ≤ 200 ∧
      calculatePageLoadCO2 ⟨"desktop", "default"⟩ 100 true = 10 / 100 ∧
      calculatePageLoadCO2 ⟨"desktop", "default"⟩ 200 true = 7 / 100 ∧
      ¬ (calculatePageLoadCO2 ⟨"desktop", "default"⟩ 100 true ≤
          calculatePageLoadCO2 ⟨"desktop", "default"⟩ 200 true) := by
  have hm : (⟨"desktop", "default"⟩ : CarbonCalculator).deviceMultiplier = 1 := by
    simp [deviceMultiplier, deviceMultipliers, orDefault]
  have e1 : calculatePageLoadCO2 ⟨"desktop", "default"⟩ 100 true = 10 / 100 := by
    rw [pageLoad_eq_round2, hm, round2_eq_of _ 10 (by norm_num) (by norm_num)]
    norm_num
  have e2 : calculatePageLoadCO2 ⟨"desktop", "default"⟩ 200 true = 7 / 100 := by
    rw [pageLoad_eq_round2, hm, round2_eq_of _ 7 (by norm_num) (by norm_num)]
    norm_num
  refine ⟨by norm_num, by norm_num, e1, e2, ?_⟩
  rw [e1, e2]
  norm_num

/-- C2, amended: the page-load estimate is non-decreasing in the size as long as the two
sizes lie on the same side of the 0.1 MB threshold. -/
theorem calculatePageLoadCO2_mono_same_side (c : CarbonCalculator) (isFirstVisit : Bool)
    (s1 s2 : ℚ) (h12 : s1 ≤ s2)
    (hside : s2 / 1024 ≤ 1 / 10 ∨ 1 / 10 < s1 / 1024) :
    c.calculatePageLoadCO2 s1 isFirstVisit ≤ c.calculatePageLoadCO2 s2 isFirstVisit := by
  rw [pageLoad_eq_round2, pageLoad_eq_round2]
  apply round2_mono
  have hm := deviceMultiplier_pos c
  apply mul_le_mul_of_nonneg_right _ hm.le
  rcases hside with h | h
  · have h1 : s1 / 1024 ≤ 1 / 10 := by linarith
    simp only [h, h1, if_true, le_refl]
  · have h1 : ¬ s1 / 1024 ≤ 1 / 10 := not_le.mpr h
    have h2 : ¬ s2 / 1024 ≤ 1 / 10 := by
      apply not_le.mpr
      linarith
    simp only [h1, h2, if_false]
    cases isFirstVisit <;> simp <;> linarith

theorem calculatePageLoadCO2_mono_same_side_witness :
    calculatePageLoadCO2 ⟨"laptop", "US"⟩ 500 true ≤
      calculatePageLoadCO2 ⟨"laptop", "US"⟩ 3000 true :=
  calculatePageLoadCO2_mono_same_side ⟨"laptop", "US"⟩ true 500 3000 (by norm_num)
    (Or.inr (by norm_num))

/-- C4: a first-visit page of 2,390,000 bytes on a laptop is estimated at exactly 0.64 g. -/
theorem calculatePageLoadCO2_laptop_scenario (region : String) :
    calculatePageLoadCO2 ⟨"laptop", region⟩ (2390000 / 1024) true = 64 / 100 := by
  have hm : (⟨"laptop", region⟩ : CarbonCalculator).deviceMultiplier = 8 / 10 := by
    simp [deviceMultiplier, deviceMultipliers, orDefault]
  rw [pageLoad_eq_round2, hm, round2_eq_of _ 64 (by norm_num) (by norm_num)]
  norm_num

/-! ## Rounding of a product computed in double arithmetic -/

theorem relTol_bound : (1 + unitRoundoff) ^ 7 ≤ 1 + relTol := by
  unfold unitRoundoff relTol
  norm_num

/-- The hundredth obtained by `Math.round` from a double within `relTol` of `x * 100`:
it is within `0.005 + relTol * |x|` of `x`, and it is `round2 x` when `x * 100` is farther
than `relTol * |x * 100|` from every half-integer. -/
theorem round_of_close (y' x : ℚ) (h : CloseTo (1 + relTol) y' (x * 100)) :
    |(mathRound y' : ℚ) / 100 - x| ≤ 1 / 200 + relTol * |x| ∧
      ((∀ j : ℤ, relTol * |x * 100| < |x * 100 - ((j : ℚ) + 1 / 2)|) →
        (mathRound y' : ℚ) / 100 = round2 x) := by
  unfold CloseTo at h
  have h' : |y' - x * 100| ≤ relTol * |x * 100| := by simpa using h
  constructor
  · have b := mathRound_close_abs_le y' (x * 100) _ h'
    have e : (mathRound y' : ℚ) / 100 - x = ((mathRound y' : ℚ) - x * 100) / 100 := by ring
    rw [e, abs_div, abs_mul] at *
    rw [abs_of_pos (by norm_num : (0 : ℚ) < 100)] at *
    rw [div_le_iff₀ (by norm_num)]
    linarith
  · intro hgap
    unfold round2
    rw [mathRound_eq_of_close y' (x * 100) _ h' hgap]

/-- An integer is at least `1/2` away from every half-integer. -/
theorem half_le_abs_int_sub (n j : ℤ) : (1 : ℚ) / 2 ≤ |(n : ℚ) - ((j : ℚ) + 1 / 2)| := by
  by_cases h : j < n
  · have h1 : j + 1 ≤ n := h
    have h2 : ((j + 1 : ℤ) : ℚ) ≤ (n : ℚ) := by exact_mod_cast h1
    push_cast at h2
    exact le_trans (by linarith) (le_abs_self _)
  · have h1 : n ≤ j := not_lt.mp h
    have h2 : (n : ℚ) ≤ (j : ℚ) := by exact_mod_cast h1
    exact le_trans (by linarith) (neg_le_abs _)

/-- A double product that is an integer below `2 ^ 49` is farther than the tolerance from
every half-integer. -/
theorem int_gap (n : ℤ) (hn : |(n : ℚ)| < 562949953421312) (j : ℤ) :
    relTol * |(n : ℚ)| < |(n : ℚ) - ((j : ℚ) + 1 / 2)| := by
  refine lt_of_lt_of_le ?_ (half_le_abs_int_sub n j)
  unfold relTol
  linarith

/-! ## Video streaming -/

/-- The rate the code reads off the effective device and the quality is the rate of the
specification table. -/
theorem video_rate_eq (c : CarbonCalculator) (ops : JsStringOps) (q : String)
    (deviceType : Option String) :
    (if (match deviceType with
          | some x => if x = "" then c.deviceType else x
          | none => c.deviceType) = "smartphone" then videoStreamingMobile
      else if (match deviceType with
          | some x => if x = "" then c.deviceType else x
          | none => c.deviceType) = "laptop" ∨
        (match deviceType with
          | some x => if x = "" then c.deviceType else x
          | none => c.deviceType) = "desktop" then videoStreamingLaptop
      else if ops.toUpperCase q = "SD" then videoStreamingSD
      else if ops.toUpperCase q = "HD" then videoStreamingHD
      else if ops.toUpperCase q = "UHD" ∨ ops.toUpperCase q = "4K" then videoStreamingUHD
      else videoStreamingHD) =
      specVideoRate ops ((deviceType.filter (fun x => x ≠ "")).getD c.deviceType) q := by
  have hdev : (match deviceType with
      | some x => if x = "" then c.deviceType else x
      | none => c.deviceType) = (deviceType.filter (fun x => x ≠ "")).getD c.deviceType := by
    cases deviceType with
    | none => rfl
    | some x => by_cases hx : x = "" <;> simp [Option.filter, hx]
  unfold specVideoRate
  simp only [hdev]
  generalize (deviceType.filter (fun x => x ≠ "")).getD c.deviceType = dev
  simp only [videoStreamingMobile, videoStreamingLaptop, videoStreamingSD, videoStreamingHD,
    videoStreamingUHD]
  split_ifs <;> first | rfl | simp_all

/-- The video estimate is `Math.round` of a double chain for the specification rate. -/
theorem video_eq_chain (c : CarbonCalculator) (ops : JsStringOps) (d : ℚ) (q : String)
    (deviceType : Option String) :
    c.calculateVideoStreamingCO2 ops d q deviceType =
      (mathRound (fl (fl (fl (fl d / 60) * fl (specVideoRate ops
        ((deviceType.filter (fun x => x ≠ "")).getD c.deviceType) q)) * 100)) : ℚ) / 100 := by
  unfold calculateVideoStreamingCO2
  simp only []
  rw [video_rate_eq]

theorem video_close (d rate : ℚ) (hd : fl d = d) :
    CloseTo (1 + relTol) (fl (fl (fl (fl d / 60) * fl rate) * 100)) (d / 60 * rate * 100) := by
  rw [hd]
  have a := closeTo_fl (closeTo_mul (closeTo_fl_self (d / 60)) (closeTo_fl_self rate))
  have b := closeTo_fl (closeTo_mul a (closeTo_refl 100))
  refine closeTo_mono b ?_
  have := relTol_bound
  unfold unitRoundoff relTol at *
  norm_num

theorem video_rounding (c : CarbonCalculator) (ops : JsStringOps) (d : ℚ) (q : String)
    (deviceType : Option String) (hd : fl d = d) :
    |c.calculateVideoStreamingCO2 ops d q deviceType -
        d / 60 * specVideoRate ops
          ((deviceType.filter (fun x => x ≠ "")).getD c.deviceType) q| ≤
      1 / 200 + relTol *
        |d / 60 * specVideoRate ops
          ((deviceType.filter (fun x => x ≠ "")).getD c.deviceType) q| ∧
    ((∀ j : ℤ,
        relTol * |d / 60 * specVideoRate ops
            ((deviceType.filter (fun x => x ≠ "")).getD c.deviceType) q * 100| <
          |d / 60 * specVideoRate ops
            ((deviceType.filter (fun x => x ≠ "")).getD c.deviceType) q * 100 -
              ((j : ℚ) + 1 / 2)|) →
      c.calculateVideoStreamingCO2 ops d q deviceType =
        round2 (d / 60 * specVideoRate ops
          ((deviceType.filter (fun x => x ≠ "")).getD c.deviceType) q)) := by
  rw [video_eq_chain]
  exact round_of_close _ _ (video_close d _ hd)

theorem fl_330 : fl 330 = 330 := by
  have h := fl_intCast 330 (by norm_num)
  push_cast at h
  exact h

theorem fl_120 : fl 120 = 120 := by
  have h := fl_intCast 120 (by norm_num)
  push_cast at h
  exact h

theorem fl_60 : fl 60 = 60 := by
  have h := fl_intCast 60 (by norm_num)
  push_cast at h
  exact h

theorem fl_55 : fl 55 = 55 := by
  have h := fl_intCast 55 (by norm_num)
  push_cast at h
  exact h

theorem fl_1 : fl 1 = 1 := by
  have h := fl_intCast 1 (by norm_num)
  push_cast at h
  exact h

theorem fl_5500 : fl 5500 = 5500 := by
  have h := fl_intCast 5500 (by norm_num)
  push_cast at h
  exact h

theorem fl_11_2 : fl (11 / 2) = 11 / 2 := by
  have h := fl_dyadic 11 (-1) (by norm_num)
  norm_num at h
  exact h

theorem fl_69_2 : fl (69 / 2) = 69 / 2 := by
  have h := fl_dyadic 69 (-1) (by norm_num)
  norm_num at h
  exact h

/-- C5, as stated, fails: for 330 minutes on a laptop the code returns 56.04, while
`330 / 60 * 10.19` rounded to 2 decimals is 56.05; the double nearest to 10.19 lies below
it, and so does the product. -/
theorem calculateVideoStreamingCO2_laptop_330 :
    fl 330 = 330 ∧
      specVideoRate asciiOps "laptop" "HD" = 1019 / 100 ∧
      calculateVideoStreamingCO2 ⟨"laptop", "default"⟩ asciiOps 330 "HD" none = 5604 / 100 ∧
      round2 (330 / 60 * (1019 / 100)) = 5605 / 100 := by
  have hr : specVideoRate asciiOps "laptop" "HD" = 1019 / 100 := by
    unfold specVideoRate
    rw [if_neg (by decide), if_pos (by decide)]
  refine ⟨fl_330, hr, ?_, ?_⟩
  · rw [video_eq_chain]
    have hdev : ((none : Option String).filter (fun x => x ≠ "")).getD
        (⟨"laptop", "default"⟩ : CarbonCalculator).deviceType = "laptop" := rfl
    rw [hdev, hr, fl_330]
    have e : (330 : ℚ) / 60 = 11 / 2 := by norm_num
    rw [e, fl_11_2, fl_videoStreamingLaptop, video_330_b, video_330_y,
      (mathRound_eq_iff _ 5604).2 (by norm_num)]
    norm_num
  · rw [round2_eq_of _ 5605 (by norm_num) (by norm_num)]
    norm_num

/-- C5, amended: for every double duration `d`, every quality string and every effective
device (the `deviceType` argument, or the detected device when the argument is absent or
empty), `calculateVideoStreamingCO2` is `Math.round` of the double product
`(d / 60) * rate * 100`, divided by 100; this multiple of 0.01 differs from
`d / 60 * rate` by at most `0.005 + 2⁻⁵⁰ * |d / 60 * rate|`, and it is `d / 60 * rate`
rounded to 2 decimals whenever `d / 60 * rate * 100` is farther than
`2⁻⁵⁰ * |d / 60 * rate * 100|` from every half-integer; the rate is 0.56 for a
smartphone, 10.19 for a laptop or desktop whatever the quality, and otherwise the rate of
the upper-cased quality: SD 36, HD 55, UHD or 4K 175, anything else 55. -/
theorem calculateVideoStreamingCO2_formula (c : CarbonCalculator) (ops : JsStringOps) (d : ℚ)
    (q : String) (deviceType : Option String) (hd : fl d = d) :
    c.calculateVideoStreamingCO2 ops d q deviceType =
      (mathRound (fl (fl (fl (d / 60) * fl (specVideoRate ops
        ((deviceType.filter (fun x => x ≠ "")).getD c.deviceType) q)) * 100)) : ℚ) / 100 ∧
    |c.calculateVideoStreamingCO2 ops d q deviceType -
        d / 60 * specVideoRate ops
          ((deviceType.filter (fun x => x ≠ "")).getD c.deviceType) q| ≤
      1 / 200 + relTol *
        |d / 60 * specVideoRate ops
          ((deviceType.filter (fun x => x ≠ "")).getD c.deviceType) q| ∧
    ((∀ j : ℤ,
        relTol * |d / 60 * specVideoRate ops
            ((deviceType.filter (fun x => x ≠ "")).getD c.deviceType) q * 100| <
          |d / 60 * specVideoRate ops
            ((deviceType.filter (fun x => x ≠ "")).getD c.deviceType) q * 100 -
              ((j : ℚ) + 1 / 2)|) →
      c.calculateVideoStreamingCO2 ops d q deviceType =
        round2 (d / 60 * specVideoRate ops
          ((deviceType.filter (fun x => x ≠ "")).getD c.deviceType) q)) :=
  ⟨by rw [video_eq_chain, hd], video_rounding c ops d q deviceType hd⟩

theorem calculateVideoStreamingCO2_formula_witness :
    fl 120 = 120 ∧
      |calculateVideoStreamingCO2 ⟨"laptop", "default"⟩ asciiOps 120 "HD" (some "smartphone") -
          120 / 60 * specVideoRate asciiOps
            (((some "smartphone" : Option String).filter (fun x => x ≠ "")).getD "laptop")
              "HD"| ≤
        1 / 200 + relTol * |120 / 60 * specVideoRate asciiOps
            (((some "smartphone" : Option String).filter (fun x => x ≠ "")).getD "laptop")
              "HD"| ∧
      calculateVideoStreamingCO2 ⟨"laptop", "default"⟩ asciiOps 120 "HD" (some "smartphone") =
        round2 (120 / 60 * specVideoRate asciiOps
          (((some "smartphone" : Option String).filter (fun x => x ≠ "")).getD "laptop")
            "HD") :=
  ⟨fl_120,
    (calculateVideoStreamingCO2_formula ⟨"laptop", "default"⟩ asciiOps 120 "HD"
      (some "smartphone") fl_120).2.1,
    (calculateVideoStreamingCO2_formula ⟨"laptop", "default"⟩ asciiOps 120 "HD"
      (some "smartphone") fl_120).2.2 (by
        have hr : specVideoRate asciiOps
            (((some "smartphone" : Option String).filter (fun x => x ≠ "")).getD
              (⟨"laptop", "default"⟩ : CarbonCalculator).deviceType) "HD" = 56 / 100 := by
          have hdev : ((some "smartphone" : Option String).filter (fun x => x ≠ "")).getD
              (⟨"laptop", "default"⟩ : CarbonCalculator).deviceType = "smartphone" := by
            decide
          rw [hdev]
          unfold specVideoRate
          rw [if_pos rfl]
        rw [hr]
        have e : (120 : ℚ) / 60 * (56 / 100) * 100 = ((112 : ℤ) : ℚ) := by norm_num
        rw [e]
        exact int_gap 112 (by norm_num))⟩

theorem specVideoRate_tablet (ops : JsStringOps) (q : String) :
    specVideoRate ops "tablet" q = specTierRate ops q := by
  unfold specVideoRate specTierRate
  rw [if_neg (by decide), if_neg (by decide), if_neg (by decide)]

theorem specTierRate_HD : specTierRate asciiOps "HD" = 55 := by
  unfold specTierRate
  rw [if_neg (by decide), if_pos (by decide)]

theorem video_tablet_60 :
    calculateVideoStreamingCO2 ⟨"tablet", "default"⟩ asciiOps 60 "HD" none = 55 := by
  rw [video_eq_chain]
  have hdev : ((none : Option String).filter (fun x => x ≠ "")).getD
      (⟨"tablet", "default"⟩ : CarbonCalculator).deviceType = "tablet" := rfl
  rw [hdev, specVideoRate_tablet, specTierRate_HD, fl_60]
  have e : (60 : ℚ) / 60 = 1 := by norm_num
  have e2 : (1 : ℚ) * 55 = 55 := by norm_num
  have e3 : (55 : ℚ) * 100 = 5500 := by norm_num
  rw [e, fl_1, fl_55, e2, fl_55, e3, fl_5500, (mathRound_eq_iff _ 5500).2 (by norm_num)]
  norm_num

theorem video_tablet_345 :
    calculateVideoStreamingCO2 ⟨"tablet", "default"⟩ asciiOps (69 / 2) "HD" none =
      3162 / 100 := by
  rw [video_eq_chain]
  have hdev : ((none : Option String).filter (fun x => x ≠ "")).getD
      (⟨"tablet", "default"⟩ : CarbonCalculator).deviceType = "tablet" := rfl
  rw [hdev, specVideoRate_tablet, specTierRate_HD, fl_69_2, video_345_a, fl_55, video_345_b,
    video_345_y, (mathRound_eq_iff _ 3162).2 (by norm_num)]
  norm_num

/-- C6, as stated, fails: for 60 minutes of HD video on a tablet the code returns 55 g,
the tier rate without the tablet multiplier, where the claim gives 33 g. -/
theorem video_tablet_multiplier_counterexample :
    fl 60 = 60 ∧
      specTierRate asciiOps "HD" = 55 ∧
      calculateVideoStreamingCO2 ⟨"tablet", "default"⟩ asciiOps 60 "HD" none = 55 ∧
      round2 (60 / 60 * specTierRate asciiOps "HD" * (6 / 10)) = 33 ∧
      calculateVideoStreamingCO2 ⟨"tablet", "default"⟩ asciiOps 60 "HD" none ≠
        round2 (60 / 60 * specTierRate asciiOps "HD" * (6 / 10)) := by
  have e2 : round2 (60 / 60 * specTierRate asciiOps "HD" * (6 / 10)) = 33 := by
    rw [specTierRate_HD, round2_eq_of _ 3300 (by norm_num) (by norm_num)]
    norm_num
  refine ⟨fl_60, specTierRate_HD, video_tablet_60, e2, ?_⟩
  rw [video_tablet_60, e2]
  norm_num

/-- C6, amended: on a tablet no device multiplier is applied to the video estimate: for
every double duration `d` and every quality `q`, `calculateVideoStreamingCO2` is
`Math.round` of the double product `(d / 60) * tierRate q * 100`, divided by 100; this
multiple of 0.01 differs from `d / 60 * tierRate q` by at most
`0.005 + 2⁻⁵⁰ * |d / 60 * tierRate q|`, and it is `d / 60 * tierRate q` rounded to 2
decimals whenever `d / 60 * tierRate q * 100` is farther than `2⁻⁵⁰` times its size from
every half-integer; 60 minutes of HD give 55 g and 34.5 minutes of HD give 31.62 g. -/
theorem video_tablet_uses_tier_rate (region : String) (ops : JsStringOps) (d : ℚ) (q : String)
    (hd : fl d = d) :
    calculateVideoStreamingCO2 ⟨"tablet", region⟩ ops d q none =
      (mathRound (fl (fl (fl (d / 60) * fl (specTierRate ops q)) * 100)) : ℚ) / 100 ∧
    |calculateVideoStreamingCO2 ⟨"tablet", region⟩ ops d q none -
        d / 60 * specTierRate ops q| ≤
      1 / 200 + relTol * |d / 60 * specTierRate ops q| ∧
    ((∀ j : ℤ, relTol * |d / 60 * specTierRate ops q * 100| <
          |d / 60 * specTierRate ops q * 100 - ((j : ℚ) + 1 / 2)|) →
      calculateVideoStreamingCO2 ⟨"tablet", region⟩ ops d q none =
        round2 (d / 60 * specTierRate ops q)) ∧
    calculateVideoStreamingCO2 ⟨"tablet", "default"⟩ asciiOps 60 "HD" none = 55 ∧
    calculateVideoStreamingCO2 ⟨"tablet", "default"⟩ asciiOps (69 / 2) "HD" none =
      3162 / 100 := by
  have h := video_rounding ⟨"tablet", region⟩ ops d q none hd
  have hc := video_eq_chain ⟨"tablet", region⟩ ops d q none
  have hdev : ((none : Option String).filter (fun x => x ≠ "")).getD
      (⟨"tablet", region⟩ : CarbonCalculator).deviceType = "tablet" := rfl
  rw [hdev, specVideoRate_tablet] at h hc
  rw [hd] at hc
  exact ⟨hc, h.1, h.2, video_tablet_60, video_tablet_345⟩

theorem video_tablet_uses_tier_rate_witness :
    fl 60 = 60 ∧
      |calculateVideoStreamingCO2 ⟨"tablet", "EU"⟩ asciiOps 60 "SD" none -
          60 / 60 * specTierRate asciiOps "SD"| ≤
        1 / 200 + relTol * |60 / 60 * specTierRate asciiOps "SD"| ∧
      calculateVideoStreamingCO2 ⟨"tablet", "EU"⟩ asciiOps 60 "SD" none =
        round2 (60 / 60 * specTierRate asciiOps "SD") :=
  ⟨fl_60, (video_tablet_uses_tier_rate "EU" asciiOps 60 "SD" fl_60).2.1,
    (video_tablet_uses_tier_rate "EU" asciiOps 60 "SD" fl_60).2.2.1 (by
      have hr : specTierRate asciiOps "SD" = 36 := by
        unfold specTierRate
        rw [if_pos (by decide)]
      rw [hr]
      have e : (60 : ℚ) / 60 * 36 * 100 = ((3600 : ℤ) : ℚ) := by norm_num
      rw [e]
      exact int_gap 3600 (by norm_num))⟩

/-! ## Data transfer -/

theorem network_eq_round2 (b : ℚ) :
    calculateNetworkActivityCO2 b = round2 (b / 1048576 * (8 / 10000) * 437) := by
  unfold calculateNetworkActivityCO2 round2
  norm_num

/-- C7, as stated, fails: for 1,048,576 bytes the code returns 0.35 g, while
`(b / 1048576) * 0.81 * 437` rounded to 2 decimals is 353.97 g. -/
theorem calculateNetworkActivityCO2_not_081 :
    calculateNetworkActivityCO2 1048576 = 35 / 100 ∧
      round2 (1048576 / 1048576 * (81 / 100) * 437) = 35397 / 100 ∧
      calculateNetworkActivityCO2 1048576 ≠ round2 (1048576 / 1048576 * (81 / 100) * 437) := by
  have e1 : calculateNetworkActivityCO2 1048576 = 35 / 100 := by
    rw [network_eq_round2, round2_eq_of _ 35 (by norm_num) (by norm_num)]
    norm_num
  have e2 : round2 (1048576 / 1048576 * (81 / 100) * 437) = 35397 / 100 := by
    rw [round2_eq_of _ 35397 (by norm_num) (by norm_num)]
    norm_num
  refine ⟨e1, e2, ?_⟩
  rw [e1, e2]
  norm_num

/-- C7, amended: for every byte count, `calculateNetworkActivityCO2` equals
`(b / 1048576) * 0.0008 * 437` rounded to 2 decimals; the energy factor is the literal
0.0008 kWh per MB, not `ENERGY_PER_GB = 0.81`. -/
theorem calculateNetworkActivityCO2_formula (b : ℚ) :
    calculateNetworkActivityCO2 b = round2 (b / 1048576 * (8 / 10000) * 437) :=
  network_eq_round2 b

/-- The double to which `Math.round` is applied in `calculateCO2FromDataTransfer` is within
`relTol` of the raw value times 100. -/
theorem dataTransfer_close (m : ℚ) (hm : fl m = m) :
    CloseTo (1 + relTol)
      (fl (fl (fl (fl (fl m * fl MB_TO_GB) * fl ENERGY_PER_GB) * fl CO2_PER_KWH) * 100))
      (m * (1 / 1000) * (81 / 100) * 437 * 100) := by
  rw [hm]
  have a := closeTo_fl (closeTo_mul (closeTo_refl m) (closeTo_fl_self MB_TO_GB))
  have b := closeTo_fl (closeTo_mul a (closeTo_fl_self ENERGY_PER_GB))
  have c := closeTo_fl (closeTo_mul b (closeTo_fl_self CO2_PER_KWH))
  have d := closeTo_fl (closeTo_mul c (closeTo_refl 100))
  unfold MB_TO_GB ENERGY_PER_GB CO2_PER_KWH at d
  refine closeTo_mono d ?_
  have := relTol_bound
  unfold unitRoundoff relTol at *
  norm_num

theorem fl_neg500 : fl (-500) = -500 := by
  have h := fl_intCast (-500) (by norm_num)
  push_cast at h
  exact h

theorem fl_pos500 : fl 500 = 500 := by
  have h := fl_intCast 500 (by norm_num)
  push_cast at h
  exact h

theorem fl_neg1500 : fl (-1500) = -1500 := by
  have h := fl_intCast (-1500) (by norm_num)
  push_cast at h
  exact h

theorem fl_pos100 : fl 100 = 100 := by
  have h := fl_intCast 100 (by norm_num)
  push_cast at h
  exact h

theorem fl_1000 : fl 1000 = 1000 := by
  have h := fl_intCast 1000 (by norm_num)
  push_cast at h
  exact h

theorem fl_437 : fl 437 = 437 := by
  have h := fl_intCast 437 (by norm_num)
  push_cast at h
  exact h

theorem dataTransfer_neg500 : calculateCO2FromDataTransfer (-500) = -17698 / 100 := by
  unfold calculateCO2FromDataTransfer MB_TO_GB ENERGY_PER_GB CO2_PER_KWH
  simp only []
  rw [fl_neg500, fl_MB_TO_GB, fl_ENERGY_PER_GB, fl_437, dt_neg500_a, dt_neg500_b, dt_neg500_c,
    dt_neg500_y, (mathRound_eq_iff _ (-17698)).2 (by norm_num)]
  norm_num

theorem dataTransfer_pos500 : calculateCO2FromDataTransfer 500 = 17699 / 100 := by
  unfold calculateCO2FromDataTransfer MB_TO_GB ENERGY_PER_GB CO2_PER_KWH
  simp only []
  rw [fl_pos500, fl_MB_TO_GB, fl_ENERGY_PER_GB, fl_437, dt_pos500_a, dt_pos500_b, dt_pos500_c,
    dt_pos500_y, (mathRound_eq_iff _ 17699).2 (by norm_num)]
  norm_num

theorem dataTransfer_neg1500 : calculateCO2FromDataTransfer (-1500) = -53096 / 100 := by
  unfold calculateCO2FromDataTransfer MB_TO_GB ENERGY_PER_GB CO2_PER_KWH
  simp only []
  rw [fl_neg1500, fl_MB_TO_GB, fl_ENERGY_PER_GB, fl_437, dt_neg1500_a, dt_neg1500_b,
    dt_neg1500_c, dt_neg1500_y, (mathRound_eq_iff _ (-53096)).2 (by norm_num)]
  norm_num

theorem dataTransfer_pos100 : calculateCO2FromDataTransfer 100 = 3540 / 100 := by
  unfold calculateCO2FromDataTransfer MB_TO_GB ENERGY_PER_GB CO2_PER_KWH
  simp only []
  rw [fl_pos100, fl_MB_TO_GB, fl_ENERGY_PER_GB, fl_437, dt_pos100_a, dt_pos100_b, dt_pos100_c,
    dt_pos100_y, (mathRound_eq_iff _ 3540).2 (by norm_num)]
  norm_num

/-- C9, as stated, fails: at `m = -500` the raw value is `-176.985`, halfway between
`-176.99` and `-176.98`, and the code returns `-176.98`, the candidate with the smaller
absolute value. -/
theorem calculateCO2FromDataTransfer_tie_negative :
    fl (-500) = -500 ∧
      (-500 : ℚ) * (1 / 1000) * (81 / 100) * 437 = -17699 / 100 + 1 / 200 ∧
      (-500 : ℚ) * (1 / 1000) * (81 / 100) * 437 = -17698 / 100 - 1 / 200 ∧
      calculateCO2FromDataTransfer (-500) = -17698 / 100 ∧
      |(-17698 / 100 : ℚ)| < |(-17699 / 100 : ℚ)| := by
  refine ⟨fl_neg500, by norm_num, by norm_num, dataTransfer_neg500, ?_⟩
  rw [abs_of_neg (by norm_num), abs_of_neg (by norm_num)]
  norm_num

/-- C9, amended: for every double `m`, `calculateCO2FromDataTransfer m` is an integer
multiple of 0.01 that differs from the raw value `m * 0.001 * 0.81 * 437` by at most
`0.005 + 2⁻⁵⁰ * |raw|`, and it is the raw value rounded to 2 decimals whenever
`raw * 100` is farther than `2⁻⁵⁰ * |raw * 100|` from every half-integer; when the raw
value lies exactly halfway between two multiples of 0.01 either of them can be returned:
`m = 500` gives `176.99` and `m = -1500` gives `-530.96`, the larger absolute values,
where `m = -500` gives `-176.98`. -/
theorem calculateCO2FromDataTransfer_rounding (m : ℚ) (hm : fl m = m) :
    (∃ k : ℤ, calculateCO2FromDataTransfer m = (k : ℚ) / 100) ∧
      |calculateCO2FromDataTransfer m - m * (1 / 1000) * (81 / 100) * 437| ≤
        1 / 200 + relTol * |m * (1 / 1000) * (81 / 100) * 437| ∧
      ((∀ j : ℤ, relTol * |m * (1 / 1000) * (81 / 100) * 437 * 100| <
          |m * (1 / 1000) * (81 / 100) * 437 * 100 - ((j : ℚ) + 1 / 2)|) →
        calculateCO2FromDataTransfer m = round2 (m * (1 / 1000) * (81 / 100) * 437)) ∧
      calculateCO2FromDataTransfer 500 = 17699 / 100 ∧
      calculateCO2FromDataTransfer (-1500) = -53096 / 100 := by
  have h := round_of_close _ _ (dataTransfer_close m hm)
  exact ⟨⟨_, rfl⟩, h.1, h.2, dataTransfer_pos500, dataTransfer_neg1500⟩

theorem calculateCO2FromDataTransfer_rounding_witness :
    fl 1000 = 1000 ∧
      |calculateCO2FromDataTransfer 1000 - 1000 * (1 / 1000) * (81 / 100) * 437| ≤
        1 / 200 + relTol * |1000 * (1 / 1000) * (81 / 100) * 437| ∧
      calculateCO2FromDataTransfer 1000 = round2 (1000 * (1 / 1000) * (81 / 100) * 437) :=
  ⟨fl_1000, (calculateCO2FromDataTransfer_rounding 1000 fl_1000).2.1,
    (calculateCO2FromDataTransfer_rounding 1000 fl_1000).2.2.1 (by
      have e : (1000 : ℚ) * (1 / 1000) * (81 / 100) * 437 * 100 = ((35397 : ℤ) : ℚ) := by
        norm_num
      rw [e]
      exact int_gap 35397 (by norm_num))⟩

/-! ## Session carbon -/

theorem timeBrowsing_zero (c : CarbonCalculator) (tabs : ℚ) :
    c.calculateTimeBrowsingCO2 0 tabs 0 = 0 := by
  unfold calculateTimeBrowsingCO2
  have h := round2_zero
  unfold round2 at h
  norm_num
  simpa using h

theorem specGridFactor_eq (region : String) :
    orDefault (gridFactors region) 437 = specGridFactor region := by
  unfold specGridFactor gridFactors
  split_ifs <;> norm_num [orDefault]

/-- The grid factor is one of the table values. -/
theorem specGridFactor_mem (region : String) :
    ∃ g : ℤ, specGridFactor region = (g : ℚ) ∧
      g ∈ ([400, 300, 250, 150, 600, 700, 550, 350, 437] : List ℤ) := by
  unfold specGridFactor gridFactors
  split_ifs
  · exact ⟨400, by norm_num, by decide⟩
  · exact ⟨300, by norm_num, by decide⟩
  · exact ⟨250, by norm_num, by decide⟩
  · exact ⟨150, by norm_num, by decide⟩
  · exact ⟨600, by norm_num, by decide⟩
  · exact ⟨700, by norm_num, by decide⟩
  · exact ⟨550, by norm_num, by decide⟩
  · exact ⟨350, by norm_num, by decide⟩
  · exact ⟨437, by norm_num, by decide⟩
  · exact ⟨437, by norm_num, by decide⟩

/-- A hundredth scaled by a grid factor over 437 is never within `1/874` of a rounding
tie. -/
theorem grid_scaled_gap (k g : ℤ)
    (hg : g ∈ ([400, 300, 250, 150, 600, 700, 550, 350, 437] : List ℤ)) (j : ℤ) :
    (1 : ℚ) / 874 ≤ |(k : ℚ) / 100 * g / 437 * 100 - ((j : ℚ) + 1 / 2)| := by
  have hne : 2 * k * g - 437 * (2 * j + 1) ≠ 0 := by
    simp only [List.mem_cons, List.mem_singleton, List.not_mem_nil, or_false] at hg
    rcases hg with rfl | rfl | rfl | rfl | rfl | rfl | rfl | rfl | rfl <;> omega
  have h1 : (1 : ℤ) ≤ |2 * k * g - 437 * (2 * j + 1)| := Int.one_le_abs hne
  have h2 : (1 : ℚ) ≤ |((2 * k * g - 437 * (2 * j + 1) : ℤ) : ℚ)| := by
    rw [← Int.cast_abs]
    exact_mod_cast h1
  have e : (k : ℚ) / 100 * g / 437 * 100 - ((j : ℚ) + 1 / 2) =
      ((2 * k * g - 437 * (2 * j + 1) : ℤ) : ℚ) / 874 := by
    push_cast
    ring
  rw [e, abs_div, abs_of_pos (by norm_num : (0 : ℚ) < 874)]
  exact div_le_div_of_nonneg_right h2 (by norm_num)

/-- The session estimate when the region and the device type are not inherited property
names and only the data term contributes. -/
theorem session_data_only_eq (c : CarbonCalculator) (ops : JsStringOps) (s : SessionData)
    (hr : c.region ∉ objectPrototypeKeys) (hdev : c.deviceType ∉ objectPrototypeKeys)
    (ht : s.totalTimeMinutes = 0) (hv : s.videoTimeMinutes = 0)
    (hq : s.searchQueries = 0) (hp : s.socialMediaPageViews = 0) :
    c.calculateSessionCarbon ops s =
      JsNumber.finite ((mathRound (fl (fl (fl (fl (calculateCO2FromDataTransfer s.totalDataMB)) *
        fl (specGridFactor c.region / 437)) * 100)) : ℚ) / 100) := by
  unfold calculateSessionCarbon gridFactor
  simp only [ht, hv, hq, hp, timeBrowsing_zero, fl_zero, add_zero, zero_add, lt_self_iff_false,
    gt_iff_lt, if_false, hr, hdev, gridDefault, specGridFactor_eq]

theorem session_close (k : ℤ) (g : ℚ) :
    CloseTo (1 + relTol) (fl (fl (fl (fl ((k : ℚ) / 100)) * fl (g / 437)) * 100))
      ((k : ℚ) / 100 * g / 437 * 100) := by
  have a := closeTo_fl (closeTo_fl_self ((k : ℚ) / 100))
  have b := closeTo_fl (closeTo_mul a (closeTo_fl_self (g / 437)))
  have c := closeTo_fl (closeTo_mul b (closeTo_refl 100))
  have e : (k : ℚ) / 100 * g / 437 * 100 = (k : ℚ) / 100 * (g / 437) * 100 := by ring
  rw [e]
  refine closeTo_mono c ?_
  have := relTol_bound
  unfold unitRoundoff relTol at *
  norm_num

/-- C8, as stated, fails for a region that names an inherited property of the table
object: `gridFactors["constructor"]` is the inherited constructor function, not
`undefined`, so the default 437 is not taken and the result is `NaN`, although the region
is not in the table. -/
theorem calculateSessionCarbon_inherited_region :
    gridFactors "constructor" = none ∧
      calculateSessionCarbon ⟨"laptop", "constructor"⟩ asciiOps { totalDataMB := 1000 } =
        JsNumber.nan ∧
      ∀ v : ℚ, calculateSessionCarbon ⟨"laptop", "constructor"⟩ asciiOps
        { totalDataMB := 1000 } ≠ JsNumber.finite v := by
  have e : calculateSessionCarbon ⟨"laptop", "constructor"⟩ asciiOps { totalDataMB := 1000 } =
      JsNumber.nan := by
    unfold calculateSessionCarbon gridFactor
    simp only []
    rw [if_neg (by decide), if_pos (by decide)]
  refine ⟨by decide, e, ?_⟩
  intro v
  rw [e]
  exact fun h => JsNumber.noConfusion h

/-- The session estimate of a data-only session is the scaled data estimate rounded to 2
decimals: the double error of the scaling is smaller than the distance of the scaled
hundredth from a rounding tie. -/
theorem session_data_only_round2 (c : CarbonCalculator) (ops : JsStringOps)
    (s : SessionData) (hr : c.region ∉ objectPrototypeKeys)
    (hdev : c.deviceType ∉ objectPrototypeKeys)
    (ht : s.totalTimeMinutes = 0) (hv : s.videoTimeMinutes = 0)
    (hq : s.searchQueries = 0) (hp : s.socialMediaPageViews = 0)
    (hm : fl s.totalDataMB = s.totalDataMB) (h0 : 0 ≤ s.totalDataMB)
    (h1 : s.totalDataMB ≤ 1000000000) :
    c.calculateSessionCarbon ops s =
      JsNumber.finite
        (round2 (calculateCO2FromDataTransfer s.totalDataMB * specGridFactor c.region / 437)) := by
  rw [session_data_only_eq c ops s hr hdev ht hv hq hp]
  obtain ⟨g, hg, hgmem⟩ := specGridFactor_mem c.region
  have hdt : |calculateCO2FromDataTransfer s.totalDataMB -
      s.totalDataMB * (1 / 1000) * (81 / 100) * 437| ≤
      1 / 200 + relTol * |s.totalDataMB * (1 / 1000) * (81 / 100) * 437| :=
    (round_of_close _ _ (dataTransfer_close s.totalDataMB hm)).1
  obtain ⟨k, hk⟩ : ∃ k : ℤ, calculateCO2FromDataTransfer s.totalDataMB = (k : ℚ) / 100 :=
    ⟨_, rfl⟩
  rw [hk] at hdt
  rw [hk, hg]
  have hclose := session_close k (g : ℚ)
  have hraw : |s.totalDataMB * (1 / 1000) * (81 / 100) * 437| ≤ 353970000 := by
    rw [abs_of_nonneg (by positivity)]
    linarith
  have hkabs : |(k : ℚ) / 100| ≤ 400000000 := by
    have t := abs_sub_abs_le_abs_sub ((k : ℚ) / 100)
      (s.totalDataMB * (1 / 1000) * (81 / 100) * 437)
    have : relTol * |s.totalDataMB * (1 / 1000) * (81 / 100) * 437| ≤ 1 := by
      unfold relTol
      linarith
    linarith
  have hgabs : |(g : ℚ)| ≤ 700 := by
    simp only [List.mem_cons, List.mem_singleton, List.not_mem_nil, or_false] at hgmem
    rcases hgmem with rfl | rfl | rfl | rfl | rfl | rfl | rfl | rfl | rfl <;> norm_num
  have hy : |(k : ℚ) / 100 * g / 437 * 100| ≤ 64073226545 := by
    have e : (k : ℚ) / 100 * g / 437 * 100 = (k : ℚ) / 100 * g * (100 / 437) := by ring
    rw [e, abs_mul, abs_mul, abs_of_pos (by norm_num : (0 : ℚ) < 100 / 437)]
    have : |(k : ℚ) / 100| * |(g : ℚ)| ≤ 400000000 * 700 :=
      mul_le_mul hkabs hgabs (abs_nonneg _) (by norm_num)
    linarith
  unfold CloseTo at hclose
  have hclose' : |fl (fl (fl (fl ((k : ℚ) / 100)) * fl ((g : ℚ) / 437)) * 100) -
      (k : ℚ) / 100 * g / 437 * 100| ≤ relTol * |(k : ℚ) / 100 * g / 437 * 100| := by
    simpa using hclose
  have hsmall : relTol * |(k : ℚ) / 100 * g / 437 * 100| < 1 / 874 := by
    unfold relTol
    linarith
  unfold round2
  rw [mathRound_eq_of_close _ _ _ hclose'
    (fun j => lt_of_lt_of_le hsmall (grid_scaled_gap k g hgmem j))]

/-- C8, amended: for every region and device type that do not name an inherited property
of `Object.prototype` (in particular for every value `detectRegion` and `detectDeviceType`
return) and every session whose only non-zero input is a double `totalDataMB = m` with
`0 ≤ m ≤ 10⁹`, `calculateSessionCarbon` equals
`round2 (calculateCO2FromDataTransfer m * G r / 437)`, where `G r` is the table value of
the region and 437 for `default` and for a region that is not in the table, which thus
scales by exactly 1. -/
theorem calculateSessionCarbon_data_only (c : CarbonCalculator) (ops : JsStringOps)
    (s : SessionData) (hr : c.region ∉ objectPrototypeKeys)
    (hdev : c.deviceType ∉ objectPrototypeKeys)
    (ht : s.totalTimeMinutes = 0) (hv : s.videoTimeMinutes = 0)
    (hq : s.searchQueries = 0) (hp : s.socialMediaPageViews = 0)
    (hm : fl s.totalDataMB = s.totalDataMB) (h0 : 0 ≤ s.totalDataMB)
    (h1 : s.totalDataMB ≤ 1000000000) :
    c.calculateSessionCarbon ops s =
      JsNumber.finite
        (round2 (calculateCO2FromDataTransfer s.totalDataMB * specGridFactor c.region / 437)) ∧
    (gridFactors c.region = none → specGridFactor c.region / 437 = 1) := by
  constructor
  · exact session_data_only_round2 c ops s hr hdev ht hv hq hp hm h0 h1
  · intro h
    unfold specGridFactor
    rw [h]
    norm_num

theorem calculateSessionCarbon_data_only_witness :
    calculateSessionCarbon ⟨"laptop", "US"⟩ asciiOps { totalDataMB := 100 } =
      JsNumber.finite (round2 (calculateCO2FromDataTransfer 100 * specGridFactor "US" / 437)) ∧
    calculateSessionCarbon ⟨"laptop", "ZZ"⟩ asciiOps { totalDataMB := 100 } =
      JsNumber.finite (round2 (calculateCO2FromDataTransfer 100 * specGridFactor "ZZ" / 437)) ∧
    specGridFactor "ZZ" / 437 = 1 :=
  ⟨(calculateSessionCarbon_data_only ⟨"laptop", "US"⟩ asciiOps { totalDataMB := 100 }
      (by decide) (by decide) rfl rfl rfl rfl fl_pos100 (by norm_num) (by norm_num)).1,
    (calculateSessionCarbon_data_only ⟨"laptop", "ZZ"⟩ asciiOps { totalDataMB := 100 }
      (by decide) (by decide) rfl rfl rfl rfl fl_pos100 (by norm_num) (by norm_num)).1,
    (calculateSessionCarbon_data_only ⟨"laptop", "ZZ"⟩ asciiOps { totalDataMB := 100 }
      (by decide) (by decide) rfl rfl rfl rfl fl_pos100 (by norm_num) (by norm_num)).2
      (by decide)⟩

/-- Two sessions of 100 MB: 35.4 g scaled by 400/437 in the region US gives 32.4 g, and a
region that is not in the table leaves 35.4 g. -/
theorem calculateSessionCarbon_samples :
    calculateSessionCarbon ⟨"laptop", "US"⟩ asciiOps { totalDataMB := 100 } =
        JsNumber.finite (3240 / 100) ∧
      calculateSessionCarbon ⟨"laptop", "ZZ"⟩ asciiOps { totalDataMB := 100 } =
        JsNumber.finite (3540 / 100) := by
  constructor
  · rw [session_data_only_round2 ⟨"laptop", "US"⟩ asciiOps { totalDataMB := 100 }
      (by decide) (by decide) rfl rfl rfl rfl fl_pos100 (by norm_num) (by norm_num)]
    have hg : specGridFactor "US" = 400 := by decide
    have hd : ({ totalDataMB := 100 } : SessionData).totalDataMB = 100 := rfl
    rw [hd, dataTransfer_pos100, hg, round2_eq_of _ 3240 (by norm_num) (by norm_num)]
    norm_num
  · rw [session_data_only_round2 ⟨"laptop", "ZZ"⟩ asciiOps { totalDataMB := 100 }
      (by decide) (by decide) rfl rfl rfl rfl fl_pos100 (by norm_num) (by norm_num)]
    have hg : specGridFactor "ZZ" = 437 := by decide
    have hd : ({ totalDataMB := 100 } : SessionData).totalDataMB = 100 := rfl
    rw [hd, dataTransfer_pos100, hg, round2_eq_of _ 3540 (by norm_num) (by norm_num)]
    norm_num


/-! ## Daily buckets -/

theorem triggerHighCarbonAlert_dailyStats (s : BackgroundState) (t : ℚ) :
    (triggerHighCarbonAlert s t).dailyStats = s.dailyStats := rfl

theorem updateCarbonFootprint_totalCarbon (s : BackgroundState) (today : String) (g : ℚ) :
    (updateCarbonFootprint s today g).totalCarbon = s.totalCarbon + g := by
  unfold updateCarbonFootprint
  dsimp only
  split_ifs <;> rfl

theorem updateCarbonFootprint_dailyStats (s : BackgroundState) (today : String) (g : ℚ) :
    (updateCarbonFootprint s today g).dailyStats =
      s.dailyStats.set today
        { carbon := ((s.dailyStats today).getD zeroBucket).carbon + g,
          screenTime := ((s.dailyStats today).getD zeroBucket).screenTime,
          breaksTaken := ((s.dailyStats today).getD zeroBucket).breaksTaken,
          sitesVisited := ((s.dailyStats today).getD zeroBucket).sitesVisited } := by
  unfold updateCarbonFootprint
  cases hb : s.dailyStats today with
  | none =>
    have h1 : (s.dailyStats.set today zeroBucket) today = some zeroBucket := by
      simp [DailyStats.set]
    simp only [hb, Option.isNone_none, if_true, h1, Option.getD_none]
    split_ifs <;>
      (funext k; by_cases hk : k = today <;> simp [triggerHighCarbonAlert, DailyStats.set, hk])
  | some b0 =>
    simp only [hb, Option.isNone_some, Bool.false_eq_true, if_false, Option.getD_some]
    split_ifs <;> rfl

theorem updateCarbonFootprint_other_date (s : BackgroundState) (today : String) (g : ℚ)
    (d : String) (h : d ≠ today) :
    (updateCarbonFootprint s today g).dailyStats d = s.dailyStats d := by
  rw [updateCarbonFootprint_dailyStats]
  simp [DailyStats.set, h]

theorem updateCarbonFootprint_same_date (s : BackgroundState) (today : String) (g : ℚ) :
    ∃ b, (updateCarbonFootprint s today g).dailyStats today = some b ∧
      b.carbon = ((s.dailyStats today).getD zeroBucket).carbon + g ∧
      b.screenTime = ((s.dailyStats today).getD zeroBucket).screenTime ∧
      b.breaksTaken = ((s.dailyStats today).getD zeroBucket).breaksTaken ∧
      b.sitesVisited = ((s.dailyStats today).getD zeroBucket).sitesVisited := by
  rw [updateCarbonFootprint_dailyStats]
  exact ⟨_, if_pos rfl, rfl, rfl, rfl, rfl⟩

/-- The bucket of a date after a sequence of calls, from an arbitrary starting state. -/
theorem runUpdates_bucket (calls : List (String × ℚ)) (d : String) :
    ∀ s : BackgroundState,
      (((runUpdates s calls).dailyStats d).isSome ↔
        ((s.dailyStats d).isSome ∨ ∃ c ∈ calls, c.1 = d)) ∧
      ∀ b, (runUpdates s calls).dailyStats d = some b →
        b.carbon = ((s.dailyStats d).getD zeroBucket).carbon +
            ((calls.filter (fun c => c.1 = d)).map Prod.snd).sum ∧
          b.screenTime = ((s.dailyStats d).getD zeroBucket).screenTime ∧
          b.breaksTaken = ((s.dailyStats d).getD zeroBucket).breaksTaken ∧
          b.sitesVisited = ((s.dailyStats d).getD zeroBucket).sitesVisited := by
  induction calls with
  | nil =>
    intro s
    refine ⟨by simp [runUpdates], ?_⟩
    intro b hb
    simp [runUpdates] at hb
    simp [hb]
  | cons c rest ih =>
    intro s
    obtain ⟨t, g⟩ := c
    have ih1 := ih (updateCarbonFootprint s t g)
    simp only [runUpdates]
    by_cases hd : d = t
    · subst hd
      obtain ⟨b1, hb1, hc, hs, hk, hv⟩ := updateCarbonFootprint_same_date s d g
      rw [hb1] at ih1
      refine ⟨?_, ?_⟩
      · rw [ih1.1]
        simp
      · intro b hb
        obtain ⟨h1, h2, h3, h4⟩ := ih1.2 b hb
        simp only [Option.getD_some] at h1 h2 h3 h4
        refine ⟨?_, by rw [h2, hs], by rw [h3, hk], by rw [h4, hv]⟩
        rw [h1, hc]
        simp [List.filter_cons]
        ring
    · rw [updateCarbonFootprint_other_date s t g d hd] at ih1
      refine ⟨?_, ?_⟩
      · rw [ih1.1]
        have : ¬ t = d := fun h => hd h.symm
        simp [this]
      · intro b hb
        have := ih1.2 b hb
        have hne : ¬ t = d := fun h => hd h.symm
        simpa [List.filter_cons, hne] using this

/-- C1: starting from the empty store, after any finite sequence of
`updateCarbonFootprint` calls, the bucket of a date exists iff some call was made on that
date, its carbon is the sum of the amounts of exactly the calls made on that date, and its
`screenTime`, `breaksTaken` and `sitesVisited` are 0. -/
theorem dailyStats_after_updates (calls : List (String × ℚ)) (d : String) :
    (((runUpdates BackgroundState.initial calls).dailyStats d).isSome ↔
        ∃ c ∈ calls, c.1 = d) ∧
      ∀ b, (runUpdates BackgroundState.initial calls).dailyStats d = some b →
        b.carbon = ((calls.filter (fun c => c.1 = d)).map Prod.snd).sum ∧
          b.screenTime = 0 ∧ b.breaksTaken = 0 ∧ b.sitesVisited = 0 := by
  have h := runUpdates_bucket calls d BackgroundState.initial
  refine ⟨?_, ?_⟩
  · rw [h.1]
    simp [BackgroundState.initial, DailyStats.empty]
  · intro b hb
    have h2 := h.2 b hb
    simpa [BackgroundState.initial, DailyStats.empty, zeroBucket] using h2

theorem dailyStats_after_updates_witness :
    ∃ b, (runUpdates BackgroundState.initial
        [("2024-05-01", 2), ("2024-05-02", 3), ("2024-05-01", 4)]).dailyStats "2024-05-01" =
          some b ∧ b.carbon = 6 ∧ b.screenTime = 0 ∧ b.breaksTaken = 0 ∧ b.sitesVisited = 0 := by
  have h := dailyStats_after_updates
    [("2024-05-01", 2), ("2024-05-02", 3), ("2024-05-01", 4)] "2024-05-01"
  have hs := h.1.2 ⟨("2024-05-01", 2), by simp, rfl⟩
  obtain ⟨b, hb⟩ := Option.isSome_iff_exists.mp hs
  obtain ⟨h1, h2, h3, h4⟩ := h.2 b hb
  refine ⟨b, hb, ?_, h2, h3, h4⟩
  rw [h1]
  have hf : List.filter (fun c : String × ℚ => decide (c.1 = "2024-05-01"))
      [("2024-05-01", 2), ("2024-05-02", 3), ("2024-05-01", 4)] =
      [("2024-05-01", 2), ("2024-05-01", 4)] := by
    simp [List.filter]
  rw [hf]
  norm_num

/-! ## The high-carbon alert -/

theorem updateCarbonFootprint_alert (s : BackgroundState) (today : String) (g : ℚ) :
    decide ((updateCarbonFootprint s today g).alerts.length = s.alerts.length + 1) =
      decide (500 < s.totalCarbon + g) := by
  unfold updateCarbonFootprint
  dsimp only
  by_cases h : s.totalCarbon + g > 500
  · have h' : 500 < s.totalCarbon + g := h
    simp [h, h', triggerHighCarbonAlert]
  · have h' : ¬ 500 < s.totalCarbon + g := h
    simp [h, h']

/-- C10 fails on the code: after a call that takes the session total to 501 g, a second
call that takes it to 502 g shows the alert again, so the alert fires twice; the code
keeps neither the time window its comment names nor a record of the alert shown. -/
theorem high_carbon_alert_fires_again :
    alertTrace BackgroundState.initial [("2024-05-01", 501), ("2024-05-01", 1)] = [true, true] ∧
      (alertTrace BackgroundState.initial [("2024-05-01", 501), ("2024-05-01", 1)]).count true ≠
        1 ∧
      (runUpdates BackgroundState.initial [("2024-05-01", 501), ("2024-05-01", 1)]).alerts =
        [501, 502] := by
  have e : alertTrace BackgroundState.initial [("2024-05-01", 501), ("2024-05-01", 1)] =
      [true, true] := by
    simp only [alertTrace, updateCarbonFootprint_alert, updateCarbonFootprint_totalCarbon,
      BackgroundState.initial]
    norm_num
  refine ⟨e, ?_, ?_⟩
  · rw [e]
    decide
  · simp only [runUpdates, updateCarbonFootprint, triggerHighCarbonAlert,
      BackgroundState.initial]
    norm_num

/-! ## Weekly statistics -/

theorem orDefault_zero (v : Option ℚ) : orDefault v 0 = v.getD 0 := by
  cases v with
  | none => rfl
  | some x =>
    by_cases hx : x = 0
    · simp [orDefault, hx]
    · simp [orDefault, hx]

/-- The entry that `getWeeklyStats` builds for one date. -/
theorem weeklyEntry_fields (dailyData : DailyStats) (d : String) :
    orDefault ((dailyData d).map fun b => b.carbon) 0 =
        ((dailyData d).getD zeroBucket).carbon ∧
      orDefault ((dailyData d).map fun b => b.screenTime) 0 =
        ((dailyData d).getD zeroBucket).screenTime ∧
      orDefault ((dailyData d).map fun b => b.breaksTaken) 0 =
        ((dailyData d).getD zeroBucket).breaksTaken := by
  simp only [orDefault_zero]
  cases dailyData d <;> simp [zeroBucket]

theorem getWeeklyStats_eq (zone : TimeZone) (isoDate : ℤ → String) (dailyData : DailyStats)
    (T : ℤ) :
    getWeeklyStats zone isoDate dailyData T =
      ([6, 5, 4, 3, 2, 1, 0] : List ℤ).map fun i =>
        { date := isoDate (utcDay (setDateBack zone T i)),
          carbon := ((dailyData (isoDate (utcDay (setDateBack zone T i)))).getD
            zeroBucket).carbon,
          screenTime := ((dailyData (isoDate (utcDay (setDateBack zone T i)))).getD
            zeroBucket).screenTime,
          breaksTaken := ((dailyData (isoDate (utcDay (setDateBack zone T i)))).getD
            zeroBucket).breaksTaken } := by
  unfold getWeeklyStats
  apply List.map_congr_left
  intro i _
  have h := weeklyEntry_fields dailyData (isoDate (utcDay (setDateBack zone T i)))
  simp only [h.1, h.2.1, h.2.2]

/-- In a zone whose offset does not change, the day `i` days back is UTC day
`utcDay now - i`. -/
theorem setDateBack_fixed_offset (c now i : ℤ) :
    utcDay (setDateBack { offsetAt := fun _ => c, offsetOfLocal := fun _ => c } now i) =
      utcDay now - i := by
  unfold setDateBack utcDay msPerDay
  simp only []
  have h : now + c - i * 86400000 - c = now + (-i) * 86400000 := by ring
  rw [h, Int.add_mul_ediv_right _ _ (by norm_num)]
  ring

/-- With a fixed UTC offset `getWeeklyStats` lists the 7 UTC days `T-6 .. T`. -/
theorem getWeeklyStats_fixed_offset (c : ℤ) (isoDate : ℤ → String) (dailyData : DailyStats)
    (now : ℤ) :
    (getWeeklyStats { offsetAt := fun _ => c, offsetOfLocal := fun _ => c } isoDate dailyData
        now).map (fun e => e.date) =
      [isoDate (utcDay now - 6), isoDate (utcDay now - 5), isoDate (utcDay now - 4),
        isoDate (utcDay now - 3), isoDate (utcDay now - 2), isoDate (utcDay now - 1),
        isoDate (utcDay now - 0)] := by
  rw [getWeeklyStats_eq]
  simp only [List.map_cons, List.map_nil, setDateBack_fixed_offset]

/-- C11 fails on the code: in New York at 2024-11-04T00:30Z (19:30 local on 2024-11-03,
the day daylight saving time ended) `getWeeklyStats` returns the dates 2024-10-28 to
2024-11-02 and 2024-11-04; the date 2024-11-03 is skipped and its bucket of 900 g is not
reported, where the claim gives the 7 dates 2024-10-29 to 2024-11-04. -/
theorem getWeeklyStats_skips_a_day :
    isoDateAutumn2024 (utcDay 1730680200000) = "2024-11-04" ∧
      (getWeeklyStats newYorkAutumn2024 isoDateAutumn2024
          (fun k => if k = "2024-11-03" then some ⟨900, 0, 0, 0⟩ else none)
          1730680200000).map (fun e => (e.date, e.carbon)) =
        [("2024-10-28", 0), ("2024-10-29", 0), ("2024-10-30", 0), ("2024-10-31", 0),
          ("2024-11-01", 0), ("2024-11-02", 0), ("2024-11-04", 0)] := by
  constructor
  · decide
  · rw [getWeeklyStats_eq]
    have h6 : utcDay (setDateBack newYorkAutumn2024 1730680200000 6) = 20024 := by decide
    have h5 : utcDay (setDateBack newYorkAutumn2024 1730680200000 5) = 20025 := by decide
    have h4 : utcDay (setDateBack newYorkAutumn2024 1730680200000 4) = 20026 := by decide
    have h3 : utcDay (setDateBack newYorkAutumn2024 1730680200000 3) = 20027 := by decide
    have h2 : utcDay (setDateBack newYorkAutumn2024 1730680200000 2) = 20028 := by decide
    have h1 : utcDay (setDateBack newYorkAutumn2024 1730680200000 1) = 20029 := by decide
    have h0 : utcDay (setDateBack newYorkAutumn2024 1730680200000 0) = 20031 := by decide
    simp only [List.map_cons, List.map_nil, h6, h5, h4, h3, h2, h1, h0]
    simp [isoDateAutumn2024, zeroBucket]

theorem checkWeeklyTarget_eq (zone : TimeZone) (isoDate : ℤ → String)
    (dailyData : DailyStats) (settings : Option Settings) (T : ℤ) :
    checkWeeklyTarget zone isoDate dailyData settings T = true ↔
      ∀ i : ℤ, 0 ≤ i → i ≤ 6 →
        ((dailyData (isoDate (utcDay (setDateBack zone T i)))).getD zeroBucket).carbon <
          orDefault (settings.bind fun s => s.carbonTarget) 50 := by
  unfold checkWeeklyTarget
  rw [getWeeklyStats_eq]
  simp only [List.all_eq_true, List.mem_map, decide_eq_true_eq]
  constructor
  · intro h i h0 h6
    have hi : i ∈ ([6, 5, 4, 3, 2, 1, 0] : List ℤ) := by
      interval_cases i <;> simp
    exact h _ ⟨i, hi, rfl⟩
  · rintro h e ⟨i, hi, rfl⟩
    have hi2 : 0 ≤ i ∧ i ≤ 6 := by
      simp at hi
      rcases hi with rfl | rfl | rfl | rfl | rfl | rfl | rfl <;> norm_num
    exact h i hi2.1 hi2.2

theorem orDefault_target (settings : Option Settings) :
    orDefault (settings.bind fun s => s.carbonTarget) 50 =
      (match settings with
        | some s =>
          (match s.carbonTarget with
            | some t => if t = 0 then 50 else t
            | none => 50)
        | none => 50) := by
  cases settings with
  | none => rfl
  | some s =>
    simp only [Option.bind]
    cases s.carbonTarget <;> rfl

/-- C12, as stated, fails for a configured target of 0: on the empty store the code falls
back to 50 and returns true, although no entry has carbon strictly below 0. -/
theorem checkWeeklyTarget_zero_target :
    checkWeeklyTarget utcZone (fun n => toString n) DailyStats.empty
        (some { carbonTarget := some 0 }) 1714867200000 = true ∧
      ¬ (∀ e ∈ getWeeklyStats utcZone (fun n => toString n) DailyStats.empty 1714867200000,
          e.carbon < (0 : ℚ)) := by
  constructor
  · rw [checkWeeklyTarget_eq]
    intro i _ _
    simp [DailyStats.empty, zeroBucket, orDefault]
  · rw [getWeeklyStats_eq]
    simp [DailyStats.empty, zeroBucket]

/-- C12, amended: `checkWeeklyTarget` returns true iff each of the 7 entries of
`getWeeklyStats` has carbon strictly below the target, where the target is
`settings.carbonTarget` when it is configured and not 0, and 50 otherwise; the carbon of
an entry is the stored carbon of its date, 0 when the date has no bucket; in particular
the result is true on the empty store for every positive target. -/
theorem checkWeeklyTarget_iff (zone : TimeZone) (isoDate : ℤ → String)
    (dailyData : DailyStats) (settings : Option Settings) (T : ℤ) :
    (checkWeeklyTarget zone isoDate dailyData settings T = true ↔
      ∀ e ∈ getWeeklyStats zone isoDate dailyData T,
        e.carbon <
          (match settings with
            | some s =>
              (match s.carbonTarget with
                | some t => if t = 0 then 50 else t
                | none => 50)
            | none => 50)) ∧
      (getWeeklyStats zone isoDate dailyData T).length = 7 ∧
      (∀ e ∈ getWeeklyStats zone isoDate dailyData T,
        e.carbon = ((dailyData e.date).getD zeroBucket).carbon) ∧
      (∀ t : ℚ, 0 < t →
        checkWeeklyTarget zone isoDate DailyStats.empty (some { carbonTarget := some t }) T =
          true) := by
  refine ⟨?_, ?_, ?_, ?_⟩
  · unfold checkWeeklyTarget
    simp only [List.all_eq_true, decide_eq_true_eq, orDefault_target]
  · rw [getWeeklyStats_eq]
    simp
  · rw [getWeeklyStats_eq]
    intro e he
    simp only [List.mem_map] at he
    obtain ⟨i, _, rfl⟩ := he
    rfl
  · intro t ht
    rw [checkWeeklyTarget_eq]
    intro i _ _
    have : t ≠ 0 := ne_of_gt ht
    simp [DailyStats.empty, zeroBucket, orDefault, this, ht]

theorem checkWeeklyTarget_iff_witness :
    checkWeeklyTarget utcZone (fun n => toString n) DailyStats.empty
      (some { carbonTarget := some 50 }) 1714867200000 = true :=
  (checkWeeklyTarget_iff utcZone (fun n => toString n) DailyStats.empty none
    1714867200000).2.2.2 50 (by norm_num)

/-! ## The dashboard break score -/

theorem mathRound_intCast (n : ℤ) : mathRound (n : ℚ) = n := by
  rw [mathRound_eq_iff]
  constructor <;> linarith

theorem breakScore_eq_of_pos (stats : DailyBucket) (h : 0 < ⌊stats.screenTime / 20⌋) :
    calculateBreakScore stats =
      min 10 (mathRound (stats.breaksTaken / (⌊stats.screenTime / 20⌋ : ℚ) * 10) : ℚ) := by
  unfold calculateBreakScore
  simp only [gt_iff_lt, h, if_true]

theorem breakScore_eq_of_not_pos (stats : DailyBucket) (h : ¬ 0 < ⌊stats.screenTime / 20⌋) :
    calculateBreakScore stats = 10 := by
  unfold calculateBreakScore
  simp only [gt_iff_lt, h, if_false]
  have : mathRound (1 * 10) = 10 := by
    have := mathRound_intCast 10
    norm_num at this ⊢
    exact this
  rw [this]
  norm_num

/-- C15, as stated, fails: with 60 minutes of screen time and 1 break the code returns 3,
while `min ((breaksTaken / expectedBreaks) * 10) 10` is 10/3 (the bucket is written as
carbon, screenTime, breaksTaken, sitesVisited). -/
theorem calculateBreakScore_is_rounded :
    ⌊(60 : ℚ) / 20⌋ = 3 ∧
      calculateBreakScore (⟨0, 60, 1, 0⟩ : DailyBucket) = 3 ∧
      min ((1 : ℚ) / 3 * 10) 10 = 10 / 3 ∧
      calculateBreakScore (⟨0, 60, 1, 0⟩ : DailyBucket) ≠ min ((1 : ℚ) / 3 * 10) 10 := by
  have hf : ⌊(60 : ℚ) / 20⌋ = 3 := by
    rw [Int.floor_eq_iff]
    norm_num
  have e : calculateBreakScore (⟨0, 60, 1, 0⟩ : DailyBucket) = 3 := by
    rw [breakScore_eq_of_pos _ (by simp only [hf]; norm_num)]
    simp only [hf]
    have : mathRound ((1 : ℚ) / ((3 : ℤ) : ℚ) * 10) = 3 := by
      rw [mathRound_eq_iff]
      norm_num
    rw [this]
    norm_num
  have m : min ((1 : ℚ) / 3 * 10) 10 = 10 / 3 := by
    rw [min_eq_left (by norm_num)]
    norm_num
  refine ⟨hf, e, m, ?_⟩
  rw [e, m]
  norm_num

/-- C15, amended: for every today-bucket with `expectedBreaks = floor(screenTime / 20) > 0`
the dashboard break score is `min 10 (round ((breaksTaken / expectedBreaks) * 10))`, the
ratio times 10 rounded to the nearest integer before it is capped at 10. -/
theorem calculateBreakScore_formula (stats : DailyBucket)
    (h : 0 < ⌊stats.screenTime / 20⌋) :
    calculateBreakScore stats =
      min 10 (mathRound (stats.breaksTaken / (⌊stats.screenTime / 20⌋ : ℚ) * 10) : ℚ) :=
  breakScore_eq_of_pos stats h

theorem calculateBreakScore_formula_witness :
    calculateBreakScore (⟨0, 60, 1, 0⟩ : DailyBucket) =
      min 10 (mathRound ((1 : ℚ) / (⌊(60 : ℚ) / 20⌋ : ℚ) * 10) : ℚ) :=
  calculateBreakScore_formula
    (⟨0, 60, 1, 0⟩ : DailyBucket)
    (by
      have hf : ⌊(60 : ℚ) / 20⌋ = 3 := by
        rw [Int.floor_eq_iff]
        norm_num
      simp only [hf]
      norm_num)

/-! ## Achievements -/

theorem saveUnlocked_keeps (now : ℚ) (m : AchievementMap) (a : Achievement) (k : String)
    (r : AchievementRecord) (h : m k = some r) : saveUnlocked now m a k = some r := by
  unfold saveUnlocked
  by_cases hc : a.unlocked = true ∧ (m a.id).isNone
  · simp only [hc, and_self, if_true]
    by_cases hk : k = a.id
    · subst hk
      rw [h] at hc
      simp at hc
    · simp only [hk, if_false]
      exact h
  · simp only [hc, if_false]
    exact h

theorem foldl_saveUnlocked_keeps (now : ℚ) (l : List Achievement) :
    ∀ (m : AchievementMap) (k : String) (r : AchievementRecord), m k = some r →
      l.foldl (saveUnlocked now) m k = some r := by
  induction l with
  | nil => intro m k r h; exact h
  | cons a rest ih =>
    intro m k r h
    simp only [List.foldl_cons]
    exact ih _ k r (saveUnlocked_keeps now m a k r h)

theorem saveUnlocked_new (now : ℚ) (m : AchievementMap) (a : Achievement) (k : String)
    (r : AchievementRecord) (hm : m k = none) (h : saveUnlocked now m a k = some r) :
    a.id = k ∧ a.unlocked = true ∧
      r = { unlockedAt := now, id := a.id, name := a.name, description := a.description,
            icon := a.icon, unlocked := a.unlocked } := by
  unfold saveUnlocked at h
  by_cases hc : a.unlocked = true ∧ (m a.id).isNone
  · simp only [hc, and_self, if_true] at h
    by_cases hk : k = a.id
    · simp only [hk, if_true, Option.some.injEq] at h
      refine ⟨hk.symm, hc.1, ?_⟩
      rw [← h, hc.1]
    · simp only [hk, if_false] at h
      rw [hm] at h
      cases h
  · simp only [hc, if_false] at h
    rw [hm] at h
    cases h

theorem foldl_saveUnlocked_new (now : ℚ) (l : List Achievement) :
    ∀ (m : AchievementMap) (k : String) (r : AchievementRecord), m k = none →
      l.foldl (saveUnlocked now) m k = some r →
      ∃ a ∈ l, a.id = k ∧ a.unlocked = true ∧
        r = { unlockedAt := now, id := a.id, name := a.name, description := a.description,
              icon := a.icon, unlocked := a.unlocked } := by
  induction l with
  | nil =>
    intro m k r hm h
    simp only [List.foldl_nil] at h
    rw [hm] at h
    cases h
  | cons a rest ih =>
    intro m k r hm h
    simp only [List.foldl_cons] at h
    cases hs : saveUnlocked now m a k with
    | none =>
      obtain ⟨b, hb, hrest⟩ := ih _ k r hs h
      exact ⟨b, List.mem_cons_of_mem _ hb, hrest⟩
    | some r1 =>
      have h2 := foldl_saveUnlocked_keeps now rest _ k r1 hs
      rw [h2] at h
      cases h
      exact ⟨a, List.mem_cons_self _ _, saveUnlocked_new now m a k r hm hs⟩

theorem saveUnlocked_present (now : ℚ) (m : AchievementMap) (a : Achievement)
    (h : a.unlocked = true) : (saveUnlocked now m a a.id).isSome = true := by
  unfold saveUnlocked
  cases hv : m a.id with
  | none => simp [h, hv]
  | some r => simp [hv]

theorem foldl_saveUnlocked_present (now : ℚ) (l : List Achievement) :
    ∀ (m : AchievementMap) (a : Achievement), a ∈ l → a.unlocked = true →
      (l.foldl (saveUnlocked now) m a.id).isSome = true := by
  induction l with
  | nil => intro m a ha; cases ha
  | cons b rest ih =>
    intro m a ha hu
    simp only [List.foldl_cons]
    rcases List.mem_cons.mp ha with rfl | hmem
    · obtain ⟨r, hr⟩ := Option.isSome_iff_exists.mp (saveUnlocked_present now m a hu)
      rw [foldl_saveUnlocked_keeps now rest _ a.id r hr]
      rfl
    · exact ih _ a hmem hu

theorem foldl_saveUnlocked_fixed (now : ℚ) (l : List Achievement) (m : AchievementMap)
    (h : ∀ a ∈ l, a.unlocked = true → (m a.id).isSome = true) :
    l.foldl (saveUnlocked now) m = m := by
  induction l with
  | nil => rfl
  | cons b rest ih =>
    simp only [List.foldl_cons]
    have hb : saveUnlocked now m b = m := by
      unfold saveUnlocked
      by_cases hu : b.unlocked = true
      · have hp := h b (List.mem_cons_self _ _) hu
        obtain ⟨r, hr⟩ := Option.isSome_iff_exists.mp hp
        simp [hr]
      · simp [hu]
    rw [hb]
    exact ih fun a ha hu => h a (List.mem_cons_of_mem _ ha) hu

theorem breakScore_zeroBucket : calculateBreakScore zeroBucket = 10 := by
  apply breakScore_eq_of_not_pos
  simp [zeroBucket]

/-- C13 fails on the code: with `break_master` already in the prior map and no break
taken today, the returned set reports `break_master` as locked; the stored record is not
merged into the returned array. -/
theorem checkAchievements_reports_locked :
    ((fun k => if k = "break_master" then
        some ⟨1, "break_master", "Break Master", "Take 5+ wellness breaks today", "🧘", true⟩
        else none : AchievementMap) "break_master").isSome = true ∧
      (checkAchievements utcZone (fun n => toString n) DailyStats.empty none 1714867200000 2
        zeroBucket
        (fun k => if k = "break_master" then
          some ⟨1, "break_master", "Break Master", "Take 5+ wellness breaks today", "🧘", true⟩
          else none)).1.map (fun a => (a.id, a.unlocked)) =
        [("green_surfer", true), ("break_master", false), ("eco_warrior", true),
          ("mindful_browser", true)] := by
  constructor
  · simp
  · have hw : checkWeeklyTarget utcZone (fun n => toString n) DailyStats.empty none
        1714867200000 = true := by
      rw [checkWeeklyTarget_eq]
      intro i _ _
      simp [DailyStats.empty, zeroBucket, orDefault]
    simp only [checkAchievements, hw, breakScore_zeroBucket, List.map_cons, List.map_nil]
    simp [zeroBucket]
    norm_num

/-- C14: the map stored by `checkAchievements` contains every entry of the prior map
unchanged, adds an entry only for an achievement that is currently unlocked and absent
from the prior map (stamped with the clock value), and a second call with the same
statistics on the stored map stores the same map again, at any clock value. -/
theorem checkAchievements_store_monotone (zone : TimeZone) (isoDate : ℤ → String)
    (dailyData : DailyStats)
    (settings : Option Settings) (T : ℤ) (now : ℚ) (todayStats : DailyBucket)
    (P : AchievementMap) :
    (∀ (k : String) (r : AchievementRecord), P k = some r →
        (checkAchievements zone isoDate dailyData settings T now todayStats P).2 k = some r) ∧
      (∀ (k : String) (r : AchievementRecord), P k = none →
        (checkAchievements zone isoDate dailyData settings T now todayStats P).2 k = some r →
        ∃ a ∈ (checkAchievements zone isoDate dailyData settings T now todayStats P).1,
          a.id = k ∧ a.unlocked = true ∧
            r = { unlockedAt := now, id := a.id, name := a.name,
                  description := a.description, icon := a.icon, unlocked := a.unlocked }) ∧
      (∀ later : ℚ,
        (checkAchievements zone isoDate dailyData settings T later todayStats
            (checkAchievements zone isoDate dailyData settings T now todayStats P).2).2 =
          (checkAchievements zone isoDate dailyData settings T now todayStats P).2) := by
  refine ⟨?_, ?_, ?_⟩
  · intro k r h
    exact foldl_saveUnlocked_keeps now _ P k r h
  · intro k r hP h
    exact foldl_saveUnlocked_new now _ P k r hP h
  · intro later
    apply foldl_saveUnlocked_fixed
    intro a ha hu
    exact foldl_saveUnlocked_present now _ P a ha hu

theorem checkAchievements_store_monotone_witness :
    (checkAchievements utcZone (fun n => toString n) DailyStats.empty none 1714867200000 2
        zeroBucket
        (fun k => if k = "break_master" then
          some ⟨1, "break_master", "Break Master", "Take 5+ wellness breaks today", "🧘", true⟩
          else none)).2 "break_master" =
      some ⟨1, "break_master", "Break Master", "Take 5+ wellness breaks today", "🧘", true⟩ :=
  (checkAchievements_store_monotone utcZone (fun n => toString n) DailyStats.empty none
    1714867200000 2
    zeroBucket (fun k => if k = "break_master" then
      some ⟨1, "break_master", "Break Master", "Take 5+ wellness breaks today", "🧘", true⟩
      else none)).1 "break_master" _ (by simp)

/-! ## `WellnessTracker`: break score -/

theorem tracker_breakScore_zero_expected (sqrt : ℚ → ℚ) (w : WellnessTracker)
    (today : String) (h : ⌊w.sessionData.activeTime / 60 * 2⌋ = 0) :
    w.calculateBreakScore sqrt today = 10 := by
  unfold WellnessTracker.calculateBreakScore
  simp only [h, if_true]

theorem tracker_expectedBreaks (w : WellnessTracker) :
    ⌊w.sessionData.activeTime / 60 * 2⌋ = ⌊w.sessionData.activeTime / 30⌋ := by
  congr 1
  ring

theorem breakConsistency_few (sqrt : ℚ → ℚ) (w : WellnessTracker) (today : String)
    (h : ∀ hist, w.breakHistory = some hist → ((hist today).getD []).length < 2) :
    w.calculateBreakConsistency sqrt today = 0 := by
  unfold WellnessTracker.calculateBreakConsistency
  cases hb : w.breakHistory with
  | none => rfl
  | some hist =>
    have h2 := h hist hb
    have hm : (match hist today with
        | some l => l
        | none => []) = (hist today).getD [] := by
      cases hist today <;> rfl
    simp only [hm, h2, if_true]

theorem tracker_breakScore_few (sqrt : ℚ → ℚ) (w : WellnessTracker) (today : String)
    (hfew : ∀ hist, w.breakHistory = some hist → ((hist today).getD []).length < 2)
    (hpos : 0 < ⌊w.sessionData.activeTime / 30⌋) :
    w.calculateBreakScore sqrt today =
      min (w.sessionData.breaksTaken / (⌊w.sessionData.activeTime / 30⌋ : ℚ) * 10) 10 := by
  unfold WellnessTracker.calculateBreakScore
  have hne : ¬ ⌊w.sessionData.activeTime / 60 * 2⌋ = 0 := by
    rw [tracker_expectedBreaks]
    omega
  simp only [hne, if_false, breakConsistency_few sqrt w today hfew, add_zero]
  rw [tracker_expectedBreaks]
  rw [min_eq_left (min_le_right _ _)]

/-- C16: whenever the expected number of breaks is 0 the break score is exactly 10, for the
service worker's `calculateBreakScore` when `floor(screenTime / 20) = 0` and for
`WellnessTracker.calculateBreakScore` when its expected-break count is 0, whatever
`breaksTaken` is; 10 minutes and 0 breaks give 10 in both. -/
theorem breakScore_ten_when_none_expected :
    (∀ stats : DailyBucket, ⌊stats.screenTime / 20⌋ = 0 → calculateBreakScore stats = 10) ∧
      (∀ (sqrt : ℚ → ℚ) (w : WellnessTracker) (today : String),
        ⌊w.sessionData.activeTime / 60 * 2⌋ = 0 → w.calculateBreakScore sqrt today = 10) ∧
      calculateBreakScore ⟨0, 10, 0, 0⟩ = 10 ∧
      (∀ (sqrt : ℚ → ℚ) (today : String),
        WellnessTracker.calculateBreakScore sqrt
          ⟨⟨0, 10, 0, 0, 0, 10, none, 10, 0, 10⟩, none⟩ today = 10) := by
  have h10 : ⌊(10 : ℚ) / 20⌋ = 0 := by
    rw [Int.floor_eq_iff]
    norm_num
  have h10t : ⌊(10 : ℚ) / 60 * 2⌋ = 0 := by
    rw [Int.floor_eq_iff]
    norm_num
  refine ⟨?_, ?_, ?_, ?_⟩
  · intro stats h
    apply breakScore_eq_of_not_pos
    omega
  · intro sqrt w today h
    exact tracker_breakScore_zero_expected sqrt w today h
  · apply breakScore_eq_of_not_pos
    simp only [h10]
    norm_num
  · intro sqrt today
    exact tracker_breakScore_zero_expected sqrt _ today h10t

theorem breakScore_ten_when_none_expected_witness :
    calculateBreakScore ⟨0, 15, 3, 0⟩ = 10 ∧
      WellnessTracker.calculateBreakScore (fun x => x)
        ⟨⟨0, 15, 0, 3, 0, 10, none, 15, 0, 10⟩, none⟩ "2024-05-05" = 10 :=
  ⟨breakScore_ten_when_none_expected.1 ⟨0, 15, 3, 0⟩
      (by rw [Int.floor_eq_iff]; norm_num),
    breakScore_ten_when_none_expected.2.1 (fun x => x)
      ⟨⟨0, 15, 0, 3, 0, 10, none, 15, 0, 10⟩, none⟩ "2024-05-05"
      (by rw [Int.floor_eq_iff]; norm_num)⟩

/-- C17, as stated, fails: with 20 active minutes, no break and no break history, one
break per 20 minutes would expect `floor(20 / 20) = 1` break and give the score 0, but the
code expects `floor(20 / 60 * 2) = 0` breaks and returns 10. -/
theorem tracker_breakScore_not_per_20 :
    ⌊(20 : ℚ) / 20⌋ = 1 ∧
      min ((0 : ℚ) / ((⌊(20 : ℚ) / 20⌋ : ℤ) : ℚ) * 10) 10 = 0 ∧
      WellnessTracker.calculateBreakScore (fun x => x)
        ⟨⟨0, 20, 0, 0, 0, 10, none, 20, 0, 10⟩, none⟩ "2024-05-05" = 10 ∧
      WellnessTracker.calculateBreakScore (fun x => x)
        ⟨⟨0, 20, 0, 0, 0, 10, none, 20, 0, 10⟩, none⟩ "2024-05-05" ≠
          min ((0 : ℚ) / ((⌊(20 : ℚ) / 20⌋ : ℤ) : ℚ) * 10) 10 := by
  have h1 : ⌊(20 : ℚ) / 20⌋ = 1 := by
    rw [Int.floor_eq_iff]
    norm_num
  have e : WellnessTracker.calculateBreakScore (fun x => x)
      ⟨⟨0, 20, 0, 0, 0, 10, none, 20, 0, 10⟩, none⟩ "2024-05-05" = 10 := by
    apply tracker_breakScore_zero_expected
    rw [Int.floor_eq_iff]
    norm_num
  refine ⟨h1, by norm_num, e, ?_⟩
  rw [e]
  norm_num

/-- C17, amended: `WellnessTracker.calculateBreakScore` expects two breaks per hour, one
per 30 active minutes: with fewer than two breaks recorded today and
`floor(activeTime / 30) > 0` it equals
`min ((breaksTaken / floor(activeTime / 30)) * 10) 10`. -/
theorem tracker_breakScore_per_30 (sqrt : ℚ → ℚ) (w : WellnessTracker) (today : String)
    (hfew : ∀ hist, w.breakHistory = some hist → ((hist today).getD []).length < 2)
    (hpos : 0 < ⌊w.sessionData.activeTime / 30⌋) :
    w.calculateBreakScore sqrt today =
      min (w.sessionData.breaksTaken / (⌊w.sessionData.activeTime / 30⌋ : ℚ) * 10) 10 :=
  tracker_breakScore_few sqrt w today hfew hpos

theorem tracker_breakScore_per_30_witness :
    WellnessTracker.calculateBreakScore (fun x => x)
        ⟨⟨0, 60, 0, 1, 0, 10, none, 60, 0, 10⟩, none⟩ "2024-05-05" =
      min ((1 : ℚ) / (⌊(60 : ℚ) / 30⌋ : ℚ) * 10) 10 :=
  tracker_breakScore_per_30 (fun x => x) ⟨⟨0, 60, 0, 1, 0, 10, none, 60, 0, 10⟩, none⟩
    "2024-05-05" (by intro hist h; cases h)
    (by
      have h2 : ⌊(60 : ℚ) / 30⌋ = 2 := by
        rw [Int.floor_eq_iff]
        norm_num
      simp only [h2]
      norm_num)

/-! ## `WellnessTracker`: breaks and scores -/

/-- C18: for every tracker state and clock value, `recordBreakTaken` raises `breaksTaken`
by exactly 1, sets `lastBreakTime` to the clock value and `consecutiveActiveMinutes` to 0,
sets `eyeStrainLevel` to `max 0 (old - 2)`, `postureScore` to `min 10 (old + 1)` and
`focusScore` to `min 10 (old + 0.5)`, leaves `activeTime`, `idleTime`, `blinkRate` and
`startTime` unchanged, and returns the three new scores. -/
theorem recordBreakTaken_effect (w : WellnessTracker) (now : ℚ) (today breakType : String)
    (duration : ℚ) :
    (w.recordBreakTaken now today breakType duration).1.sessionData =
        { startTime := w.sessionData.startTime,
          activeTime := w.sessionData.activeTime,
          idleTime := w.sessionData.idleTime,
          breaksTaken := w.sessionData.breaksTaken + 1,
          eyeStrainLevel := max 0 (w.sessionData.eyeStrainLevel - 2),
          postureScore := min 10 (w.sessionData.postureScore + 1),
          lastBreakTime := some now,
          consecutiveActiveMinutes := 0,
          blinkRate := w.sessionData.blinkRate,
          focusScore := min 10 (w.sessionData.focusScore + 1 / 2) } ∧
      (w.recordBreakTaken now today breakType duration).2 =
        { eyeStrain := max 0 (w.sessionData.eyeStrainLevel - 2),
          posture := min 10 (w.sessionData.postureScore + 1),
          focus := min 10 (w.sessionData.focusScore + 1 / 2) } := by
  unfold WellnessTracker.recordBreakTaken
  constructor
  · simp only [WellnessTracker.SessionData.mk.injEq, true_and, and_true]
    norm_num
  · simp only [WellnessTracker.ImprovedScores.mk.injEq, true_and]
    norm_num

/-- C19: for every session state `calculateEyeStrainLevel` returns and stores
`min 10 (10 * (min (c / 60) 1 * 0.4 + 0.7 * 0.25 + max 0 ((20 - blinkRate) / 15) * 0.2
+ 0.5 * 0.15))`, each factor with its own weight, and changes no other field. -/
theorem calculateEyeStrainLevel_formula (s : WellnessTracker.SessionData) :
    (WellnessTracker.calculateEyeStrainLevel s).2 =
        min 10 (10 * (min (s.consecutiveActiveMinutes / 60) 1 * (4 / 10) +
          7 / 10 * (25 / 100) + max 0 ((20 - s.blinkRate) / 15) * (2 / 10) +
          5 / 10 * (15 / 100))) ∧
      (WellnessTracker.calculateEyeStrainLevel s).1 =
        { s with eyeStrainLevel := (WellnessTracker.calculateEyeStrainLevel s).2 } := by
  have hv : min (((([min (s.consecutiveActiveMinutes / 60) 1, 7 / 10,
      max 0 ((20 - s.blinkRate) / 15), 5 / 10] : List ℚ).zip
        WellnessTracker.eyeStrainWeights).foldl (fun acc p => acc + p.1 * p.2) 0) * 10) 10 =
      min 10 (10 * (min (s.consecutiveActiveMinutes / 60) 1 * (4 / 10) +
          7 / 10 * (25 / 100) + max 0 ((20 - s.blinkRate) / 15) * (2 / 10) +
          5 / 10 * (15 / 100))) := by
    simp only [WellnessTracker.eyeStrainWeights, List.zip_cons_cons, List.zip_nil_right,
      List.foldl_cons, List.foldl_nil]
    rw [min_comm]
    congr 1
    ring
  refine ⟨?_, rfl⟩
  unfold WellnessTracker.calculateEyeStrainLevel
  exact hv

/-- C20: for every session state and clock value `calculatePostureScore` returns and
stores `10 - t / 10 + bonus` clamped to `[0, 10]`, where `t` is the minutes elapsed since
`lastBreakTime` (or `consecutiveActiveMinutes` when `lastBreakTime` is null or 0) and
`bonus` is 1 exactly when `breaksTaken > 0` and `activeTime / breaksTaken ≤ 30`; the
result lies in `[0, 10]`. -/
theorem calculatePostureScore_formula (s : WellnessTracker.SessionData) (now : ℚ) :
    (WellnessTracker.calculatePostureScore s now).2 =
        max 0 (min 10 (10 -
          (match s.lastBreakTime with
            | some t0 => if t0 = 0 then s.consecutiveActiveMinutes else (now - t0) / 60000
            | none => s.consecutiveActiveMinutes) / 10 +
          (if 0 < s.breaksTaken ∧ s.activeTime / s.breaksTaken ≤ 30 then 1 else 0))) ∧
      (WellnessTracker.calculatePostureScore s now).1 =
        { s with postureScore := (WellnessTracker.calculatePostureScore s now).2 } ∧
      0 ≤ (WellnessTracker.calculatePostureScore s now).2 ∧
      (WellnessTracker.calculatePostureScore s now).2 ≤ 10 := by
  have ht : WellnessTracker.timeSinceLastBreak s now =
      (match s.lastBreakTime with
        | some t0 => if t0 = 0 then s.consecutiveActiveMinutes else (now - t0) / 60000
        | none => s.consecutiveActiveMinutes) := by
    unfold WellnessTracker.timeSinceLastBreak
    cases s.lastBreakTime with
    | none => rfl
    | some t0 =>
      by_cases h0 : t0 = 0
      · simp [h0]
      · simp only [h0, if_false]
        norm_num
  have hval : (WellnessTracker.calculatePostureScore s now).2 =
      max 0 (min 10 (10 - WellnessTracker.timeSinceLastBreak s now / 10 +
        (if 0 < s.breaksTaken ∧ s.activeTime / s.breaksTaken ≤ 30 then 1 else 0))) := by
    unfold WellnessTracker.calculatePostureScore
    simp only []
    rw [max_comm, min_comm]
    by_cases hb : s.breaksTaken > 0
    · have hb2 : 0 < s.breaksTaken := hb
      by_cases hf : s.activeTime / s.breaksTaken ≤ 30
      · simp only [hb, hb2, hf, if_true, and_self]
      · simp only [hb, hb2, hf, if_true, if_false, and_false, add_zero]
    · have hb2 : ¬ 0 < s.breaksTaken := hb
      simp only [hb, hb2, if_false, false_and, add_zero]
  refine ⟨?_, rfl, ?_, ?_⟩
  · rw [hval, ht]
  · rw [hval]
    exact le_max_left _ _
  · rw [hval]
    exact max_le (by norm_num) (min_le_left _ _)

/-! ## `WellnessTracker`: break reminder and score ranges -/

theorem timeSinceLastBreak_eq (s : WellnessTracker.SessionData) (now : ℚ) :
    WellnessTracker.timeSinceLastBreak s now =
      (match s.lastBreakTime with
        | some t0 => if t0 = 0 then s.consecutiveActiveMinutes else (now - t0) / 60000
        | none => s.consecutiveActiveMinutes) := by
  unfold WellnessTracker.timeSinceLastBreak
  cases s.lastBreakTime with
  | none => rfl
  | some t0 =>
    by_cases h0 : t0 = 0
    · simp [h0]
    · simp only [h0, if_false]
      norm_num

/-- C21: for every session state and clock value `shouldTakeBreak` is true iff the minutes
since the last break (since `lastBreakTime`, or `consecutiveActiveMinutes` when
`lastBreakTime` is null or 0) are at least 25, and it is false at the very instant at
which `recordBreakTaken` was applied. -/
theorem shouldTakeBreak_iff (s : WellnessTracker.SessionData) (now : ℚ) (w : WellnessTracker)
    (today breakType : String) (duration : ℚ) :
    (WellnessTracker.shouldTakeBreak s now = true ↔
      25 ≤ (match s.lastBreakTime with
        | some t0 => if t0 = 0 then s.consecutiveActiveMinutes else (now - t0) / 60000
        | none => s.consecutiveActiveMinutes)) ∧
      WellnessTracker.shouldTakeBreak
        (w.recordBreakTaken now today breakType duration).1.sessionData now = false := by
  constructor
  · unfold WellnessTracker.shouldTakeBreak WellnessTracker.optimalBreakInterval
    rw [timeSinceLastBreak_eq]
    simp
  · unfold WellnessTracker.shouldTakeBreak WellnessTracker.optimalBreakInterval
    rw [timeSinceLastBreak_eq]
    unfold WellnessTracker.recordBreakTaken
    by_cases h0 : now = 0
    · simp [h0]
    · simp [h0]

theorem inRange_initial (t : ℚ) : (WellnessTracker.initialSessionData t).InRange := by
  unfold WellnessTracker.SessionData.InRange WellnessTracker.initialSessionData
  norm_num

theorem eyeStrain_range (s : WellnessTracker.SessionData)
    (hc : 0 ≤ s.consecutiveActiveMinutes) :
    0 ≤ (WellnessTracker.calculateEyeStrainLevel s).2 ∧
      (WellnessTracker.calculateEyeStrainLevel s).2 ≤ 10 := by
  unfold WellnessTracker.calculateEyeStrainLevel
  simp only [WellnessTracker.eyeStrainWeights, List.zip_cons_cons, List.zip_nil_right,
    List.foldl_cons, List.foldl_nil]
  have h1 : 0 ≤ min (s.consecutiveActiveMinutes / 60) 1 := le_min (by positivity) (by norm_num)
  have h2 : (0 : ℚ) ≤ max 0 ((20 - s.blinkRate) / 15) := le_max_left _ _
  constructor
  · apply le_min _ (by norm_num)
    have : 0 ≤ min (s.consecutiveActiveMinutes / 60) 1 * (4 / 10) := by positivity
    have : 0 ≤ max 0 ((20 - s.blinkRate) / 15) * (2 / 10) := by positivity
    linarith
  · exact min_le_right _ _

theorem inRange_calculateEyeStrainLevel (s : WellnessTracker.SessionData) (h : s.InRange) :
    (WellnessTracker.calculateEyeStrainLevel s).1.InRange := by
  obtain ⟨_, hp, hf, hc, ha, hb⟩ := h
  exact ⟨eyeStrain_range s hc, hp, hf, hc, ha, hb⟩

theorem postureScore_range (s : WellnessTracker.SessionData) (now : ℚ) :
    0 ≤ (WellnessTracker.calculatePostureScore s now).2 ∧
      (WellnessTracker.calculatePostureScore s now).2 ≤ 10 := by
  unfold WellnessTracker.calculatePostureScore
  exact ⟨le_max_right _ _, max_le (min_le_right _ _) (by norm_num)⟩

theorem inRange_calculatePostureScore (s : WellnessTracker.SessionData) (now : ℚ)
    (h : s.InRange) : (WellnessTracker.calculatePostureScore s now).1.InRange := by
  obtain ⟨he, _, hf, hc, ha, hb⟩ := h
  exact ⟨he, postureScore_range s now, hf, hc, ha, hb⟩

theorem focusScore_range (s : WellnessTracker.SessionData) (random : ℚ)
    (h0 : 0 ≤ s.focusScore) (h1 : s.focusScore ≤ 10) :
    0 ≤ (WellnessTracker.calculateFocusScore s random).1.focusScore ∧
      (WellnessTracker.calculateFocusScore s random).1.focusScore ≤ 10 := by
  unfold WellnessTracker.calculateFocusScore
  by_cases ha : WellnessTracker.getActivityLevel random < 1 / 10
  · simp only [ha, if_true]
    exact ⟨le_max_right _ _, max_le (by linarith) (by norm_num)⟩
  · simp only [ha, if_false]
    exact ⟨h0, h1⟩

theorem calculateFocusScore_frame (s : WellnessTracker.SessionData) (random : ℚ) :
    (WellnessTracker.calculateFocusScore s random).1 =
      { s with focusScore := (WellnessTracker.calculateFocusScore s random).1.focusScore } := by
  unfold WellnessTracker.calculateFocusScore
  by_cases ha : WellnessTracker.getActivityLevel random < 1 / 10
  · simp only [ha, if_true]
  · simp only [ha, if_false]

theorem inRange_calculateFocusScore (s : WellnessTracker.SessionData) (random : ℚ)
    (h : s.InRange) : (WellnessTracker.calculateFocusScore s random).1.InRange := by
  obtain ⟨he, hp, ⟨hf0, hf1⟩, hc, ha, hb⟩ := h
  rw [calculateFocusScore_frame]
  exact ⟨he, hp, focusScore_range s random hf0 hf1, hc, ha, hb⟩

theorem inRange_updateActiveTime (s : WellnessTracker.SessionData) (now random : ℚ)
    (h : s.InRange) : (WellnessTracker.updateActiveTime s now random).InRange := by
  unfold WellnessTracker.updateActiveTime
  apply inRange_calculateFocusScore
  apply inRange_calculatePostureScore
  apply inRange_calculateEyeStrainLevel
  obtain ⟨he, hp, hf, hc, ha, hb⟩ := h
  exact ⟨he, hp, hf, add_nonneg hc (by norm_num), add_nonneg ha (by norm_num), hb⟩

theorem trackFocusPatterns_frame (s : WellnessTracker.SessionData) (random : ℚ) :
    WellnessTracker.trackFocusPatterns s random =
      { s with focusScore := (WellnessTracker.trackFocusPatterns s random).focusScore } := by
  unfold WellnessTracker.trackFocusPatterns
  simp only []
  split_ifs <;> rfl

theorem trackFocusPatterns_range (s : WellnessTracker.SessionData) (random : ℚ)
    (h0 : 0 ≤ s.focusScore) (h1 : s.focusScore ≤ 10) :
    0 ≤ (WellnessTracker.trackFocusPatterns s random).focusScore ∧
      (WellnessTracker.trackFocusPatterns s random).focusScore ≤ 10 := by
  unfold WellnessTracker.trackFocusPatterns
  simp only []
  split_ifs
  · exact ⟨le_min (by linarith) (by norm_num), min_le_right _ _⟩
  · exact ⟨le_max_right _ _, max_le (by linarith) (by norm_num)⟩
  · exact ⟨h0, h1⟩

theorem inRange_trackMicroMetrics (s : WellnessTracker.SessionData) (random : ℚ)
    (h : s.InRange) : (WellnessTracker.trackMicroMetrics s random).InRange := by
  obtain ⟨he, hp, ⟨hf0, hf1⟩, hc, ha, hb⟩ := h
  unfold WellnessTracker.trackMicroMetrics
  rw [trackFocusPatterns_frame]
  exact ⟨he, hp, trackFocusPatterns_range _ random hf0 hf1, hc, ha, hb⟩

theorem inRange_recordBreakTaken (w : WellnessTracker) (now : ℚ) (today breakType : String)
    (duration : ℚ) (h : w.sessionData.InRange) :
    (w.recordBreakTaken now today breakType duration).1.sessionData.InRange := by
  obtain ⟨⟨he0, he1⟩, ⟨hp0, hp1⟩, ⟨hf0, hf1⟩, hc, ha, hb⟩ := h
  unfold WellnessTracker.recordBreakTaken
  unfold WellnessTracker.SessionData.InRange
  simp only []
  refine ⟨⟨le_max_left _ _, max_le (by norm_num) (by linarith)⟩,
    ⟨le_min (by norm_num) (by linarith), min_le_left _ _⟩,
    ⟨le_min (by norm_num) (by linarith), min_le_left _ _⟩, le_refl _, ha, by linarith⟩

theorem inRange_step (w : WellnessTracker) (st : WellnessTracker.Step)
    (h : w.sessionData.InRange) : (w.step st).sessionData.InRange := by
  cases st with
  | updateActiveTime now random => exact inRange_updateActiveTime _ now random h
  | trackMicroMetrics random => exact inRange_trackMicroMetrics _ random h
  | recordBreakTaken now today breakType duration =>
    exact inRange_recordBreakTaken w now today breakType duration h

theorem inRange_run (steps : List WellnessTracker.Step) :
    ∀ w : WellnessTracker, w.sessionData.InRange → (w.run steps).sessionData.InRange := by
  induction steps with
  | nil => intro w h; exact h
  | cons st rest ih =>
    intro w h
    exact ih _ (inRange_step w st h)

/-- C22: starting from the initial tracker state, after any sequence of
`updateActiveTime`, `trackMicroMetrics` and `recordBreakTaken` steps, with any clock
values and any random draws, `eyeStrainLevel`, `postureScore` and `focusScore` lie in
`[0, 10]` and `consecutiveActiveMinutes`, `activeTime` and `breaksTaken` are
non-negative. -/
theorem score_range_invariant (startTime : ℚ) (steps : List WellnessTracker.Step) :
    (0 ≤ ((WellnessTracker.initial startTime).run steps).sessionData.eyeStrainLevel ∧
        ((WellnessTracker.initial startTime).run steps).sessionData.eyeStrainLevel ≤ 10) ∧
      (0 ≤ ((WellnessTracker.initial startTime).run steps).sessionData.postureScore ∧
        ((WellnessTracker.initial startTime).run steps).sessionData.postureScore ≤ 10) ∧
      (0 ≤ ((WellnessTracker.initial startTime).run steps).sessionData.focusScore ∧
        ((WellnessTracker.initial startTime).run steps).sessionData.focusScore ≤ 10) ∧
      0 ≤ ((WellnessTracker.initial startTime).run steps).sessionData.consecutiveActiveMinutes ∧
      0 ≤ ((WellnessTracker.initial startTime).run steps).sessionData.activeTime ∧
      0 ≤ ((WellnessTracker.initial startTime).run steps).sessionData.breaksTaken :=
  inRange_run steps (WellnessTracker.initial startTime) (inRange_initial startTime)

/-! ## `WellnessTracker`: mental wellness score -/

/-- C23 fails on the code: on a fresh session (`activeTime = 0`, `breaksTaken = 0`) the
break-balance factor is `0 / 0`, and `calculateMentalWellnessScore` returns `NaN`, not a
value in `[0, 10]`. -/
theorem calculateMentalWellnessScore_fresh_is_nan (startTime : ℚ) :
    (WellnessTracker.initialSessionData startTime).focusScore = 10 ∧
      (WellnessTracker.initialSessionData startTime).eyeStrainLevel = 0 ∧
      (WellnessTracker.initialSessionData startTime).activeTime = 0 ∧
      (WellnessTracker.initialSessionData startTime).breaksTaken = 0 ∧
      WellnessTracker.calculateMentalWellnessScore
        (WellnessTracker.initialSessionData startTime) = JsNumber.nan := by
  refine ⟨rfl, rfl, rfl, rfl, ?_⟩
  unfold WellnessTracker.calculateMentalWellnessScore WellnessTracker.initialSessionData
  simp [jsDiv, JsNumber.minWith, JsNumber.weighted]

theorem estimateStressLevel_range (s : WellnessTracker.SessionData) :
    0 ≤ WellnessTracker.estimateStressLevel s ∧ WellnessTracker.estimateStressLevel s ≤ 1 := by
  unfold WellnessTracker.estimateStressLevel
  simp only []
  refine ⟨le_min ?_ (by norm_num), min_le_right _ _⟩
  split_ifs <;> norm_num

/-- Once some active time has been counted the mental wellness score is a number in
`[0, 10]`. -/
theorem calculateMentalWellnessScore_active (s : WellnessTracker.SessionData)
    (hf0 : 0 ≤ s.focusScore) (hf1 : s.focusScore ≤ 10) (ha : 0 < s.activeTime)
    (hb : 0 ≤ s.breaksTaken) :
    ∃ v : ℚ, WellnessTracker.calculateMentalWellnessScore s = JsNumber.finite v ∧
      0 ≤ v ∧ v ≤ 10 := by
  have hne : s.activeTime / 60 ≠ 0 := by positivity
  obtain ⟨hs0, hs1⟩ := estimateStressLevel_range s
  have hb0 : 0 ≤ min (s.breaksTaken / (s.activeTime / 60)) 1 :=
    le_min (by positivity) (by norm_num)
  have hb1 : min (s.breaksTaken / (s.activeTime / 60)) 1 ≤ 1 := min_le_right _ _
  unfold WellnessTracker.calculateMentalWellnessScore
  simp only [jsDiv, hne, if_false, JsNumber.minWith, JsNumber.weighted,
    WellnessTracker.mentalWellnessWeights, List.zip_cons_cons, List.zip_nil_right,
    List.foldl_cons, List.foldl_nil]
  refine ⟨_, rfl, ?_, ?_⟩
  · have : 0 ≤ s.focusScore / 10 := by positivity
    nlinarith
  · have : s.focusScore / 10 ≤ 1 := by linarith
    nlinarith

/-! ## The visit log -/

/-- C24: for every existing visit log `L` (of at most 100 entries, and also beyond) and
every new visit `v`, `logPageVisit` stores the last `min (|L| + 1) 100` entries of `L`
followed by `v`, in their order: at most 100 entries, `v` last, the oldest dropped. -/
theorem logPageVisit_keeps_latest (L : List VisitEntry) (url : String)
    (size carbon now : ℚ) :
    logPageVisit (some L) url size carbon now =
        (L ++ [(⟨url, size, carbon, now⟩ : VisitEntry)]).drop
          ((L ++ [(⟨url, size, carbon, now⟩ : VisitEntry)]).length -
            min (L.length + 1) 100) ∧
      (logPageVisit (some L) url size carbon now).length = min (L.length + 1) 100 ∧
      (logPageVisit (some L) url size carbon now).length ≤ 100 ∧
      (logPageVisit (some L) url size carbon now).getLast? =
        some (⟨url, size, carbon, now⟩ : VisitEntry) ∧
      logPageVisit none url size carbon now = [(⟨url, size, carbon, now⟩ : VisitEntry)] := by
  have hlen : (L ++ [(⟨url, size, carbon, now⟩ : VisitEntry)]).length = L.length + 1 := by
    simp
  have heq : logPageVisit (some L) url size carbon now =
      (L ++ [(⟨url, size, carbon, now⟩ : VisitEntry)]).drop
        ((L ++ [(⟨url, size, carbon, now⟩ : VisitEntry)]).length -
          min (L.length + 1) 100) := by
    unfold logPageVisit
    simp only [hlen]
    by_cases h : L.length + 1 > 100
    · simp only [h, if_true]
      congr 1
      omega
    · simp only [h, if_false]
      have : L.length + 1 - min (L.length + 1) 100 = 0 := by omega
      rw [this, List.drop_zero]
  refine ⟨heq, ?_, ?_, ?_, ?_⟩
  · rw [heq, List.length_drop, hlen]
    omega
  · rw [heq, List.length_drop, hlen]
    omega
  · rw [heq, List.getLast?_drop, hlen]
    have : ¬ (L.length + 1 ≤ L.length + 1 - min (L.length + 1) 100) := by omega
    simp [this]
  · unfold logPageVisit
    simp

/-! ## `formatCarbonFootprint` -/

theorem digitChar_ne_k (d : ℕ) : digitChar d ≠ 'k' := by
  unfold digitChar
  have h : d % 10 < 10 := Nat.mod_lt _ (by norm_num)
  generalize d % 10 = r at h
  interval_cases r <;> decide

theorem digitChar_spec (d : ℕ) :
    (digitChar d).isDigit = true ∧ (digitChar d).toNat - 48 = d % 10 ∧
      (digitChar d != '.') = true ∧ digitChar d ≠ '-' := by
  unfold digitChar
  have h : d % 10 < 10 := Nat.mod_lt _ (by norm_num)
  generalize d % 10 = r at h
  interval_cases r <;> decide

theorem decimalDigits_no_k (fuel : ℕ) : ∀ n : ℕ, 'k' ∉ decimalDigits fuel n := by
  induction fuel with
  | zero => intro n; simp [decimalDigits]
  | succ f ih =>
    intro n
    unfold decimalDigits
    by_cases h : n < 10
    · simp only [h, if_true, List.mem_singleton]
      exact fun hk => digitChar_ne_k n hk.symm
    · simp only [h, if_false, List.mem_append, List.mem_singleton, not_or]
      exact ⟨ih _, fun hk => digitChar_ne_k _ hk.symm⟩

theorem digitsValue_append (xs : List Char) (c : Char) :
    digitsValue (xs ++ [c]) = 10 * digitsValue xs + (c.toNat - 48) := by
  unfold digitsValue
  rw [List.foldl_append]
  rfl

/-- The digits of `n` are digits, at least one, and denote `n`. -/
theorem decimalDigits_spec (fuel : ℕ) : ∀ n : ℕ, n < 10 ^ fuel → 0 < fuel →
    (∀ c ∈ decimalDigits fuel n, c.isDigit = true ∧ (c != '.') = true) ∧
      decimalDigits fuel n ≠ [] ∧
      digitsValue (decimalDigits fuel n) = n := by
  induction fuel with
  | zero => intro n _ h; exact absurd h (lt_irrefl _)
  | succ f ih =>
    intro n hn _
    unfold decimalDigits
    by_cases h : n < 10
    · rw [if_pos h]
      have hs := digitChar_spec n
      refine ⟨?_, by simp, ?_⟩
      · intro c hc
        rw [List.mem_singleton] at hc
        rw [hc]
        exact ⟨hs.1, hs.2.2.1⟩
      · have e := digitsValue_append [] (digitChar n)
        simp only [List.nil_append] at e
        rw [e, hs.2.1, Nat.mod_eq_of_lt h]
        simp [digitsValue]
    · simp only [h, if_false]
      have hf : 0 < f := by
        rcases Nat.eq_zero_or_pos f with h0 | h0
        · rw [h0] at hn
          omega
        · exact h0
      have hn' : n / 10 < 10 ^ f := by
        rw [pow_succ] at hn
        exact Nat.div_lt_of_lt_mul (by linarith)
      obtain ⟨i1, i2, i3⟩ := ih (n / 10) hn' hf
      have hs := digitChar_spec (n % 10)
      refine ⟨?_, by simp, ?_⟩
      · intro c hc
        rw [List.mem_append, List.mem_singleton] at hc
        rcases hc with hc | hc
        · exact i1 c hc
        · rw [hc]
          exact ⟨hs.1, hs.2.2.1⟩
      · rw [digitsValue_append, i3, hs.2.1]
        omega

theorem isDigits_of_all (cs : List Char) (h : ∀ c ∈ cs, c.isDigit = true) (hne : cs ≠ []) :
    isDigits cs = true := by
  unfold isDigits
  rw [Bool.and_eq_true]
  constructor
  · cases cs with
    | nil => exact absurd rfl hne
    | cons a t => rfl
  · rw [List.all_eq_true]
    exact h

theorem dropWhile_no_dot (xs ys : List Char) (h : ∀ c ∈ xs, (c != '.') = true) :
    (xs ++ '.' :: ys).dropWhile (fun c => c != '.') = '.' :: ys ∧
      (xs ++ '.' :: ys).takeWhile (fun c => c != '.') = xs := by
  induction xs with
  | nil => simp [List.dropWhile, List.takeWhile]
  | cons a t ih =>
    have ha := h a (List.mem_cons_self _ _)
    have ih' := ih (fun c hc => h c (List.mem_cons_of_mem _ hc))
    rw [List.cons_append, List.dropWhile_cons, List.takeWhile_cons, ha, if_pos rfl,
      if_pos rfl, ih'.1, ih'.2]
    exact ⟨rfl, rfl⟩

theorem dropWhile_all (xs : List Char) (h : ∀ c ∈ xs, (c != '.') = true) :
    xs.dropWhile (fun c => c != '.') = [] := by
  induction xs with
  | nil => rfl
  | cons a t ih =>
    have ha := h a (List.mem_cons_self _ _)
    rw [List.dropWhile_cons, ha, if_pos rfl]
    exact ih (fun c hc => h c (List.mem_cons_of_mem _ hc))

/-- The value of the unsigned numeral printed for `a / 100`. -/
theorem unsignedValue_hundredths (a : ℕ) :
    unsignedValue (decimalDigits (a / 100 + 1) (a / 100) ++
      (if a % 100 = 0 then []
        else if a % 10 = 0 then ['.', digitChar (a % 100 / 10)]
        else ['.', digitChar (a % 100 / 10), digitChar (a % 10)])) = some ((a : ℚ) / 100) := by
  have hlt : a / 100 < 10 ^ (a / 100 + 1) :=
    lt_of_lt_of_le (Nat.lt_pow_self (by norm_num) _) (Nat.pow_le_pow_right (by norm_num)
      (Nat.le_succ _))
  obtain ⟨w1, w2, w3⟩ := decimalDigits_spec (a / 100 + 1) (a / 100) hlt (Nat.succ_pos _)
  have wd : isDigits (decimalDigits (a / 100 + 1) (a / 100)) = true :=
    isDigits_of_all _ (fun c hc => (w1 c hc).1) w2
  have wn : ∀ c ∈ decimalDigits (a / 100 + 1) (a / 100), (c != '.') = true :=
    fun c hc => (w1 c hc).2
  have hdiv : (a : ℚ) = 100 * ((a / 100 : ℕ) : ℚ) + ((a % 100 : ℕ) : ℚ) := by
    have := Nat.div_add_mod a 100
    exact_mod_cast this.symm
  have s1 := digitChar_spec (a % 100 / 10)
  have s2 := digitChar_spec (a % 10)
  have h10 : a % 100 / 10 % 10 = a % 100 / 10 := by omega
  by_cases c1 : a % 100 = 0
  · simp only [c1, if_true, List.append_nil]
    unfold unsignedValue
    rw [dropWhile_all _ wn]
    simp only [wd, if_true, w3]
    rw [hdiv, c1]
    congr 1
    push_cast
    ring
  · by_cases c2 : a % 10 = 0
    · simp only [c1, c2, if_true, if_false]
      unfold unsignedValue
      rw [(dropWhile_no_dot _ _ wn).1, (dropWhile_no_dot _ _ wn).2]
      have fd : isDigits [digitChar (a % 100 / 10)] = true :=
        isDigits_of_all _ (by simp [s1.1]) (by simp)
      have fv : digitsValue [digitChar (a % 100 / 10)] = a % 100 / 10 := by
        have e := digitsValue_append [] (digitChar (a % 100 / 10))
        simp only [List.nil_append] at e
        rw [e, s1.2.1, h10]
        simp [digitsValue]
      simp only [wd, fd, Bool.and_self, if_true, w3, fv, List.length_singleton, pow_one]
      have hm : ((a % 100 : ℕ) : ℚ) = 10 * ((a % 100 / 10 : ℕ) : ℚ) := by
        have : a % 100 = 10 * (a % 100 / 10) := by omega
        exact_mod_cast this
      rw [hdiv, hm]
      congr 1
      ring
    · simp only [c1, c2, if_false]
      unfold unsignedValue
      rw [(dropWhile_no_dot _ _ wn).1, (dropWhile_no_dot _ _ wn).2]
      have fd : isDigits [digitChar (a % 100 / 10), digitChar (a % 10)] = true :=
        isDigits_of_all _ (by simp [s1.1, s2.1]) (by simp)
      have fv : digitsValue [digitChar (a % 100 / 10), digitChar (a % 10)] =
          10 * (a % 100 / 10) + a % 10 := by
        have e := digitsValue_append [digitChar (a % 100 / 10)] (digitChar (a % 10))
        have e0 := digitsValue_append [] (digitChar (a % 100 / 10))
        simp only [List.nil_append, List.singleton_append] at e e0
        rw [e, e0, s1.2.1, s2.2.1, h10]
        simp [digitsValue]
      simp only [wd, fd, Bool.and_self, if_true, w3, fv, List.length_cons, List.length_nil]
      have hm : ((a % 100 : ℕ) : ℚ) = ((10 * (a % 100 / 10) + a % 10 : ℕ) : ℚ) := by
        have : a % 100 = 10 * (a % 100 / 10) + a % 10 := by omega
        exact_mod_cast this
      rw [hdiv, hm]
      congr 1
      push_cast
      ring

/-- The numeral printed for `n / 100` denotes `n / 100`. -/
theorem decimalValue_hundredthsToString (n : ℤ) :
    decimalValue (hundredthsToString n) = some ((n : ℚ) / 100) := by
  have hu := unsignedValue_hundredths n.natAbs
  have hlt : n.natAbs / 100 < 10 ^ (n.natAbs / 100 + 1) :=
    lt_of_lt_of_le (Nat.lt_pow_self (by norm_num) _) (Nat.pow_le_pow_right (by norm_num)
      (Nat.le_succ _))
  obtain ⟨w1, w2, _⟩ := decimalDigits_spec (n.natAbs / 100 + 1) (n.natAbs / 100) hlt
    (Nat.succ_pos _)
  unfold decimalValue hundredthsToString
  by_cases hneg : n < 0
  · have hq : ((n.natAbs : ℕ) : ℚ) = -(n : ℚ) := by
      rw [← Int.cast_natCast, Int.ofNat_natAbs_of_nonpos (le_of_lt hneg), Int.cast_neg]
    simp only [hneg, if_true, List.append_assoc, List.singleton_append, List.cons_append,
      List.nil_append]
    rw [hu, hq]
    simp only [Option.map_some', Option.some.injEq]
    ring
  · have hq : ((n.natAbs : ℕ) : ℚ) = (n : ℚ) := by
      rw [← Int.cast_natCast, Int.natAbs_of_nonneg (not_lt.mp hneg)]
    simp only [hneg, if_false, List.nil_append]
    obtain ⟨d, ds, hd⟩ := List.exists_cons_of_ne_nil w2
    have hdm : d ∈ decimalDigits (n.natAbs / 100 + 1) (n.natAbs / 100) := by
      rw [hd]
      exact List.mem_cons_self _ _
    have hdd : d ≠ '-' := by
      intro e
      have := (w1 d hdm).1
      rw [e] at this
      revert this
      decide
    rw [hd] at hu ⊢
    simp only [List.cons_append, hdd, if_false]
    simp only [List.cons_append] at hu
    rw [hu, hq]

theorem hundredthsToString_no_k (n : ℤ) : 'k' ∉ (hundredthsToString n).data := by
  unfold hundredthsToString
  simp only [List.mem_append, not_or]
  refine ⟨⟨?_, decimalDigits_no_k _ _⟩, ?_⟩
  · split_ifs <;> simp
  · have h1 := digitChar_ne_k (n.natAbs % 100 / 10)
    have h2 := digitChar_ne_k (n.natAbs % 10)
    split_ifs
    · simp
    · simp only [List.mem_cons, List.mem_singleton, List.not_mem_nil, or_false, not_or]
      exact ⟨by decide, fun hk => h1 hk.symm⟩
    · simp only [List.mem_cons, List.mem_singleton, List.not_mem_nil, or_false, not_or]
      exact ⟨by decide, fun hk => h1 hk.symm, fun hk => h2 hk.symm⟩

theorem no_kg_of_no_k (num : String) (h : 'k' ∉ num.data) :
    ¬ "kg".data <:+: (num ++ "g CO₂").data := by
  intro hin
  have hk : 'k' ∈ (num ++ "g CO₂").data := hin.subset (by decide)
  rw [String.data_append, List.mem_append] at hk
  rcases hk with hk | hk
  · exact h hk
  · revert hk
    decide

theorem kg_in_kg_suffix (num : String) : "kg".data <:+: (num ++ "kg CO₂").data := by
  rw [String.data_append]
  exact ⟨num.data, " CO₂".data, by simp⟩

theorem format_close_g (x : ℚ) (hx : fl x = x) :
    CloseTo (1 + relTol) (fl (fl x * 100)) (x * 100) := by
  rw [hx]
  refine closeTo_mono (closeTo_fl_self _) ?_
  unfold unitRoundoff relTol
  norm_num

theorem format_close_kg (x : ℚ) (hx : fl x = x) :
    CloseTo (1 + relTol) (fl (fl x / 10)) (x / 1000 * 100) := by
  rw [hx]
  have e : x / 1000 * 100 = x / 10 := by ring
  rw [e]
  refine closeTo_mono (closeTo_fl_self _) ?_
  unfold unitRoundoff relTol
  norm_num

theorem fl_fl_45_1000 : fl (3242591731706757 / 72057594037927936) =
    3242591731706757 / 72057594037927936 := by
  have h := fl_dyadic 3242591731706757 (-56) (by norm_num)
  norm_num at h
  exact h

theorem fl_fl_201_200 : fl (1131529406376837 / 1125899906842624) =
    1131529406376837 / 1125899906842624 := by
  have h := fl_dyadic 1131529406376837 (-50) (by norm_num)
  norm_num at h
  exact h

/-- C25, as stated, fails where the double product `x * 100` rounds across a tie. The
double nearest to 0.045 lies below 0.045, so that its value rounded to 2 decimals is
0.04, and the code prints 0.05; the literal 1.005 is read as the double nearest to it,
which lies below 1.005, and the code prints 1 where 1.005 rounded to 2 decimals is
1.01. -/
theorem formatCarbonFootprint_rounds_product :
    fl (fl (45 / 1000)) = fl (45 / 1000) ∧
      fl (45 / 1000) < 45 / 1000 ∧
      round2 (fl (45 / 1000)) = 4 / 100 ∧
      formatCarbonFootprint (fl (45 / 1000)) = "0.05g CO₂" ∧
      round2 (201 / 200) = 101 / 100 ∧
      formatCarbonFootprint (201 / 200) = "1g CO₂" := by
  refine ⟨?_, ?_, ?_, ?_, ?_, ?_⟩
  · rw [fl_45_1000, fl_fl_45_1000]
  · rw [fl_45_1000]
    norm_num
  · rw [fl_45_1000, round2_eq_of _ 4 (by norm_num) (by norm_num)]
    norm_num
  · unfold formatCarbonFootprint
    rw [fl_45_1000, fl_fl_45_1000, if_pos (by norm_num), format_45_y,
      (mathRound_eq_iff _ 5).2 (by norm_num)]
    decide
  · rw [round2_eq_of _ 101 (by norm_num) (by norm_num)]
    norm_num
  · unfold formatCarbonFootprint
    rw [fl_201_200, if_pos (by norm_num), format_1005_y,
      (mathRound_eq_iff _ 100).2 (by norm_num)]
    decide

/-- C25, amended: for every double `x < 1000`, `formatCarbonFootprint x` is a decimal
numeral followed by "g CO₂" and does not contain "kg"; the numeral denotes a multiple
of 0.01 within `0.005 + 2⁻⁵⁰ * |x|` of `x`, which is `x` rounded to 2 decimals whenever
`x * 100` is farther than `2⁻⁵⁰ * |x * 100|` from every half-integer. For every double
`x ≥ 1000` it is such a numeral for `x / 1000` followed by "kg CO₂" and contains
"kg". -/
theorem formatCarbonFootprint_units (x : ℚ) (hx : fl x = x) :
    (x < 1000 →
      ∃ (numeral : String) (v : ℚ),
        formatCarbonFootprint x = numeral ++ "g CO₂" ∧
          decimalValue numeral = some v ∧
          (∃ k : ℤ, v = (k : ℚ) / 100) ∧
          |v - x| ≤ 1 / 200 + relTol * |x| ∧
          ((∀ j : ℤ, relTol * |x * 100| < |x * 100 - ((j : ℚ) + 1 / 2)|) → v = round2 x) ∧
          ¬ "kg".data <:+: (formatCarbonFootprint x).data) ∧
      (1000 ≤ x →
        ∃ (numeral : String) (v : ℚ),
          formatCarbonFootprint x = numeral ++ "kg CO₂" ∧
            decimalValue numeral = some v ∧
            (∃ k : ℤ, v = (k : ℚ) / 100) ∧
            |v - x / 1000| ≤ 1 / 200 + relTol * |x / 1000| ∧
            ((∀ j : ℤ, relTol * |x / 1000 * 100| < |x / 1000 * 100 - ((j : ℚ) + 1 / 2)|) →
              v = round2 (x / 1000)) ∧
            "kg".data <:+: (formatCarbonFootprint x).data) := by
  constructor
  · intro h
    have e : formatCarbonFootprint x =
        hundredthsToString (mathRound (fl (fl x * 100))) ++ "g CO₂" := by
      unfold formatCarbonFootprint
      rw [if_pos (by rw [hx]; exact h)]
    have hc := round_of_close _ _ (format_close_g x hx)
    refine ⟨_, _, e, decimalValue_hundredthsToString _, ⟨_, rfl⟩, hc.1, hc.2, ?_⟩
    rw [e]
    exact no_kg_of_no_k _ (hundredthsToString_no_k _)
  · intro h
    have e : formatCarbonFootprint x =
        hundredthsToString (mathRound (fl (fl x / 10))) ++ "kg CO₂" := by
      unfold formatCarbonFootprint
      rw [if_neg (by rw [hx]; exact not_lt.mpr h)]
    have hc := round_of_close _ _ (format_close_kg x hx)
    refine ⟨_, _, e, decimalValue_hundredthsToString _, ⟨_, rfl⟩, hc.1, hc.2, ?_⟩
    rw [e]
    exact kg_in_kg_suffix _

theorem fl_250 : fl 250 = 250 := by
  have h := fl_intCast 250 (by norm_num)
  push_cast at h
  exact h

theorem fl_2500 : fl 2500 = 2500 := by
  have h := fl_intCast 2500 (by norm_num)
  push_cast at h
  exact h

theorem fl_25000 : fl 25000 = 25000 := by
  have h := fl_intCast 25000 (by norm_num)
  push_cast at h
  exact h

theorem fl_2469_2 : fl (2469 / 2) = 2469 / 2 := by
  have h := fl_dyadic 2469 (-1) (by norm_num)
  norm_num at h
  exact h

theorem formatCarbonFootprint_units_witness :
    fl 250 = 250 ∧ fl 2500 = 2500 ∧
      (∃ (numeral : String) (v : ℚ),
        formatCarbonFootprint 250 = numeral ++ "g CO₂" ∧
          decimalValue numeral = some v ∧
          (∃ k : ℤ, v = (k : ℚ) / 100) ∧
          |v - 250| ≤ 1 / 200 + relTol * |250| ∧
          ((∀ j : ℤ,
              relTol * |(250 : ℚ) * 100| < |(250 : ℚ) * 100 - ((j : ℚ) + 1 / 2)|) →
            v = round2 250) ∧
          ¬ "kg".data <:+: (formatCarbonFootprint 250).data) ∧
      (∃ (numeral : String) (v : ℚ),
        formatCarbonFootprint 2500 = numeral ++ "kg CO₂" ∧
          decimalValue numeral = some v ∧
          (∃ k : ℤ, v = (k : ℚ) / 100) ∧
          |v - 2500 / 1000| ≤ 1 / 200 + relTol * |2500 / 1000| ∧
          ((∀ j : ℤ, relTol * |(2500 : ℚ) / 1000 * 100| <
              |(2500 : ℚ) / 1000 * 100 - ((j : ℚ) + 1 / 2)|) →
            v = round2 (2500 / 1000)) ∧
          "kg".data <:+: (formatCarbonFootprint 2500).data) ∧
      (∀ j : ℤ, relTol * |(250 : ℚ) * 100| < |(250 : ℚ) * 100 - ((j : ℚ) + 1 / 2)|) :=
  ⟨fl_250, fl_2500, (formatCarbonFootprint_units 250 fl_250).1 (by norm_num),
    (formatCarbonFootprint_units 2500 fl_2500).2 (by norm_num), by
      have e : (250 : ℚ) * 100 = ((25000 : ℤ) : ℚ) := by norm_num
      rw [e]
      exact int_gap 25000 (by norm_num)⟩

/-- Two sample renderings: 250 g and 1234.5 g. -/
theorem formatCarbonFootprint_samples :
    formatCarbonFootprint 250 = "250g CO₂" ∧
      formatCarbonFootprint (2469 / 2) = "1.23kg CO₂" ∧
      decimalValue "250" = some 250 ∧
      decimalValue "1.23" = some (123 / 100) ∧
      decimalValue "" = none := by
  refine ⟨?_, ?_, ?_, ?_, ?_⟩
  · unfold formatCarbonFootprint
    have e : (250 : ℚ) * 100 = 25000 := by norm_num
    rw [fl_250, if_pos (by norm_num), e, fl_25000, (mathRound_eq_iff _ 25000).2 (by norm_num)]
    decide
  · unfold formatCarbonFootprint
    rw [fl_2469_2, if_neg (by norm_num), format_12345_y,
      (mathRound_eq_iff _ 123).2 (by norm_num)]
    decide
  · have h := decimalValue_hundredthsToString 25000
    have e : hundredthsToString 25000 = "250" := by decide
    rw [e] at h
    rw [h]
    norm_num
  · have h := decimalValue_hundredthsToString 123
    have e : hundredthsToString 123 = "1.23" := by decide
    rw [e] at h
    rw [h]
    norm_num
  · rfl

/-! ## Bucket operations -/

theorem updateScreenTime_dailyStats (s : BackgroundState) (today : String) :
    (updateScreenTime s today).dailyStats =
      s.dailyStats.set today
        { carbon := ((s.dailyStats today).getD zeroBucket).carbon,
          screenTime := ((s.dailyStats today).getD zeroBucket).screenTime + 1,
          breaksTaken := ((s.dailyStats today).getD zeroBucket).breaksTaken,
          sitesVisited := ((s.dailyStats today).getD zeroBucket).sitesVisited + 1 } := by
  unfold updateScreenTime
  cases hb : s.dailyStats today with
  | none =>
    have h1 : (s.dailyStats.set today zeroBucket) today = some zeroBucket := by
      simp [DailyStats.set]
    simp only [hb, Option.isNone_none, if_true, h1, Option.getD_none]
    funext k
    by_cases hk : k = today <;> simp [DailyStats.set, hk]
  | some b0 =>
    simp only [hb, Option.isNone_some, Bool.false_eq_true, if_false, Option.getD_some]

theorem recordBreakTaken_dailyStats (s : BackgroundState) (today : String) :
    (recordBreakTaken s today).dailyStats =
      s.dailyStats.set today
        { carbon := ((s.dailyStats today).getD zeroBucket).carbon,
          screenTime := ((s.dailyStats today).getD zeroBucket).screenTime,
          breaksTaken := ((s.dailyStats today).getD zeroBucket).breaksTaken + 1,
          sitesVisited := ((s.dailyStats today).getD zeroBucket).sitesVisited } := by
  unfold recordBreakTaken
  cases hb : s.dailyStats today with
  | none =>
    have h1 : (s.dailyStats.set today zeroBucket) today = some zeroBucket := by
      simp [DailyStats.set]
    simp only [hb, Option.isNone_none, if_true, h1, Option.getD_none]
    funext k
    by_cases hk : k = today <;> simp [DailyStats.set, hk]
  | some b0 =>
    simp only [hb, Option.isNone_some, Bool.false_eq_true, if_false, Option.getD_some]

theorem getD_zeroBucket_balanced (o : Option DailyBucket)
    (h : ∀ b, o = some b → b.screenTime = b.sitesVisited) :
    (o.getD zeroBucket).screenTime = (o.getD zeroBucket).sitesVisited := by
  cases o with
  | none => rfl
  | some b => exact h b rfl

theorem applyBucketOp_balanced (s : BackgroundState) (op : BucketOp)
    (h : ∀ d b, s.dailyStats d = some b → b.screenTime = b.sitesVisited) :
    ∀ d b, (applyBucketOp s op).dailyStats d = some b → b.screenTime = b.sitesVisited := by
  intro d b hb
  cases op with
  | updateCarbonFootprint today g =>
    simp only [applyBucketOp, updateCarbonFootprint_dailyStats, DailyStats.set] at hb
    by_cases hd : d = today
    · simp only [hd, if_true, Option.some.injEq] at hb
      rw [← hb]
      exact getD_zeroBucket_balanced _ (h today)
    · simp only [hd, if_false] at hb
      exact h d b hb
  | updateScreenTime today =>
    simp only [applyBucketOp, updateScreenTime_dailyStats, DailyStats.set] at hb
    by_cases hd : d = today
    · simp only [hd, if_true, Option.some.injEq] at hb
      rw [← hb]
      simp only []
      rw [getD_zeroBucket_balanced _ (h today)]
    · simp only [hd, if_false] at hb
      exact h d b hb
  | recordBreakTaken today =>
    simp only [applyBucketOp, recordBreakTaken_dailyStats, DailyStats.set] at hb
    by_cases hd : d = today
    · simp only [hd, if_true, Option.some.injEq] at hb
      rw [← hb]
      exact getD_zeroBucket_balanced _ (h today)
    · simp only [hd, if_false] at hb
      exact h d b hb

theorem foldl_applyBucketOp_balanced (ops : List BucketOp) :
    ∀ s : BackgroundState,
      (∀ d b, s.dailyStats d = some b → b.screenTime = b.sitesVisited) →
      ∀ d b, (ops.foldl applyBucketOp s).dailyStats d = some b →
        b.screenTime = b.sitesVisited := by
  induction ops with
  | nil => intro s h; exact h
  | cons op rest ih =>
    intro s h
    exact ih _ (applyBucketOp_balanced s op h)

/-- C26: in every store reachable from the empty store by `updateCarbonFootprint`,
`updateScreenTime` and `recordBreakTaken`, every bucket has `screenTime = sitesVisited`. -/
theorem screenTime_eq_sitesVisited (ops : List BucketOp) (d : String) (b : DailyBucket)
    (hb : (ops.foldl applyBucketOp BackgroundState.initial).dailyStats d = some b) :
    b.screenTime = b.sitesVisited :=
  foldl_applyBucketOp_balanced ops BackgroundState.initial
    (by intro d b h; simp [BackgroundState.initial, DailyStats.empty] at h) d b hb

theorem screenTime_eq_sitesVisited_witness :
    ∃ b, ([BucketOp.updateScreenTime "2024-05-05", BucketOp.updateCarbonFootprint "2024-05-05" 3,
        BucketOp.updateScreenTime "2024-05-05", BucketOp.recordBreakTaken "2024-05-05"].foldl
          applyBucketOp BackgroundState.initial).dailyStats "2024-05-05" = some b ∧
      b.screenTime = 2 ∧ b.screenTime = b.sitesVisited := by
  have hb : ([BucketOp.updateScreenTime "2024-05-05",
      BucketOp.updateCarbonFootprint "2024-05-05" 3,
      BucketOp.updateScreenTime "2024-05-05", BucketOp.recordBreakTaken "2024-05-05"].foldl
        applyBucketOp BackgroundState.initial).dailyStats "2024-05-05" =
      some ⟨3, 2, 1, 2⟩ := by
    simp only [List.foldl_cons, List.foldl_nil, applyBucketOp, recordBreakTaken_dailyStats,
      updateScreenTime_dailyStats, updateCarbonFootprint_dailyStats, DailyStats.set,
      BackgroundState.initial, DailyStats.empty, zeroBucket]
    norm_num
  exact ⟨_, hb, rfl, screenTime_eq_sitesVisited _ _ _ hb⟩

/-! ## Network requests -/

/-- C27: `trackNetworkRequest` adds carbon only for a request of type `main_frame`, and
then the constant `0.25 + 50 * 0.5 = 25.25` g to the session total and to the bucket of
today, whatever the other fields of the request are; for any other type the state is
unchanged. -/
theorem trackNetworkRequest_effect (s : BackgroundState) (today : String)
    (details : RequestDetails) :
    (details.type = "main_frame" →
      trackNetworkRequest s today details = updateCarbonFootprint s today (2525 / 100) ∧
        (trackNetworkRequest s today details).totalCarbon = s.totalCarbon + 2525 / 100 ∧
        (∃ b, (trackNetworkRequest s today details).dailyStats today = some b ∧
          b.carbon = ((s.dailyStats today).getD zeroBucket).carbon + 2525 / 100) ∧
        ∀ d, d ≠ today → (trackNetworkRequest s today details).dailyStats d = s.dailyStats d) ∧
      (details.type ≠ "main_frame" → trackNetworkRequest s today details = s) := by
  constructor
  · intro h
    have e : trackNetworkRequest s today details =
        updateCarbonFootprint s today (2525 / 100) := by
      unfold trackNetworkRequest
      simp only [h, if_true, carbonFactors_serverRequest, carbonFactors_dataTransfer]
      norm_num
    rw [e]
    refine ⟨rfl, updateCarbonFootprint_totalCarbon s today _, ?_, ?_⟩
    · obtain ⟨b, hb, hc, _⟩ := updateCarbonFootprint_same_date s today (2525 / 100)
      exact ⟨b, hb, hc⟩
    · intro d hd
      exact updateCarbonFootprint_other_date s today _ d hd
  · intro h
    unfold trackNetworkRequest
    simp only [h, if_false]

theorem trackNetworkRequest_effect_witness :
    (trackNetworkRequest BackgroundState.initial "2024-05-05"
        ⟨"main_frame", "https://example.org/", 200, some 123456⟩).totalCarbon =
        BackgroundState.initial.totalCarbon + 2525 / 100 ∧
      trackNetworkRequest BackgroundState.initial "2024-05-05"
        ⟨"image", "https://example.org/a.png", 200, some 123456⟩ = BackgroundState.initial :=
  ⟨((trackNetworkRequest_effect BackgroundState.initial "2024-05-05"
      ⟨"main_frame", "https://example.org/", 200, some 123456⟩).1 rfl).2.1,
    (trackNetworkRequest_effect BackgroundState.initial "2024-05-05"
      ⟨"image", "https://example.org/a.png", 200, some 123456⟩).2 (by decide)⟩

/-! ## Achievements on an idle day -/

theorem breakScore_short_screenTime (stats : DailyBucket) (h : stats.screenTime < 20) :
    calculateBreakScore stats = 10 := by
  apply breakScore_eq_of_not_pos
  have h1 : ⌊stats.screenTime / 20⌋ < 1 := by
    rw [Int.floor_lt]
    push_cast
    linarith
  omega

/-- C28: on a day with no recorded activity (empty store, today's bucket all zeros, no
carbon target configured) `checkAchievements` reports `green_surfer`, `eco_warrior` and
`mindful_browser` as unlocked and `break_master` as locked; and `mindful_browser` is
unlocked for every bucket with `screenTime < 20`, whatever its `breaksTaken`. -/
theorem checkAchievements_idle_day (zone : TimeZone) (isoDate : ℤ → String) (T : ℤ)
    (now : ℚ) (P : AchievementMap) (settings : Option Settings)
    (hs : ∀ s, settings = some s → s.carbonTarget = none) :
    (checkAchievements zone isoDate DailyStats.empty settings T now zeroBucket P).1.map
        (fun a => (a.id, a.unlocked)) =
      [("green_surfer", true), ("break_master", false), ("eco_warrior", true),
        ("mindful_browser", true)] ∧
      ∀ (dailyData : DailyStats) (anySettings : Option Settings) (todayStats : DailyBucket),
        todayStats.screenTime < 20 →
        ("mindful_browser", true) ∈
          (checkAchievements zone isoDate dailyData anySettings T now todayStats P).1.map
            (fun a => (a.id, a.unlocked)) := by
  constructor
  · have ht : orDefault (settings.bind fun s => s.carbonTarget) 50 = 50 := by
      cases settings with
      | none => rfl
      | some s =>
        have := hs s rfl
        simp [Option.bind, this, orDefault]
    have hw : checkWeeklyTarget zone isoDate DailyStats.empty settings T = true := by
      rw [checkWeeklyTarget_eq]
      intro i _ _
      rw [ht]
      simp [DailyStats.empty, zeroBucket]
    simp only [checkAchievements, hw, breakScore_zeroBucket, List.map_cons, List.map_nil]
    simp [zeroBucket]
    norm_num
  · intro dailyData anySettings todayStats h
    simp only [checkAchievements, breakScore_short_screenTime todayStats h, List.map_cons,
      List.map_nil]
    simp
    norm_num

theorem checkAchievements_idle_day_witness :
    (checkAchievements utcZone (fun n => toString n) DailyStats.empty (some {}) 1714867200000
        0 zeroBucket
        (fun _ => none)).1.map (fun a => (a.id, a.unlocked)) =
      [("green_surfer", true), ("break_master", false), ("eco_warrior", true),
        ("mindful_browser", true)] ∧
      ("mindful_browser", true) ∈
        (checkAchievements utcZone (fun n => toString n) DailyStats.empty none 1714867200000 0
          ⟨0, 19, 0, 0⟩
          (fun _ => none)).1.map (fun a => (a.id, a.unlocked)) :=
  ⟨(checkAchievements_idle_day utcZone (fun n => toString n) 1714867200000 0 (fun _ => none)
      (some {})
      (by intro s h; cases h; rfl)).1,
    (checkAchievements_idle_day utcZone (fun n => toString n) 1714867200000 0 (fun _ => none)
      (some {})
      (by intro s h; cases h; rfl)).2 DailyStats.empty none ⟨0, 19, 0, 0⟩ (by norm_num)⟩

/-! ## `resetDailyData` -/

/-- C29 fails on the code: after `resetDailyData` every counter equals the constructor's
initial value except `blinkRate`, which is 15 where the constructor starts with 0. -/
theorem resetDailyData_blinkRate (w : WellnessTracker) (now : ℚ) :
    (w.resetDailyData now).sessionData =
        { WellnessTracker.initialSessionData now with blinkRate := 15 } ∧
      (w.resetDailyData now).sessionData.blinkRate = 15 ∧
      (WellnessTracker.initialSessionData now).blinkRate = 0 ∧
      (w.resetDailyData now).sessionData.blinkRate ≠
        (WellnessTracker.initialSessionData now).blinkRate := by
  refine ⟨rfl, rfl, rfl, ?_⟩
  show (15 : ℚ) ≠ 0
  norm_num

/-! ## `WellnessTimer` -/

theorem succ_div_mod (N m : ℕ) (hN : 0 < N) :
    (m % N + 1 = N ∧ (m + 1) % N = 0 ∧ (m + 1) / N = m / N + 1) ∨
      (m % N + 1 < N ∧ (m + 1) % N = m % N + 1 ∧ (m + 1) / N = m / N) := by
  have hr : m % N < N := Nat.mod_lt _ hN
  have hm : m % N + N * (m / N) = m := Nat.mod_add_div m N
  by_cases h : m % N + 1 = N
  · left
    have := (Nat.div_mod_unique hN (a := m + 1) (d := m / N + 1) (c := 0)).2
      ⟨by rw [Nat.mul_add]; omega, hN⟩
    exact ⟨h, this.2, this.1⟩
  · right
    have hlt : m % N + 1 < N := by omega
    have := (Nat.div_mod_unique hN (a := m + 1) (d := m / N) (c := m % N + 1)).2
      ⟨by omega, hlt⟩
    exact ⟨hlt, this.2, this.1⟩

theorem ticks_closed_form (k : ℕ) (hk : 0 < k) (n : ℕ) :
    ((WellnessTimer.fresh.connectedCallback (some (k : ℚ))).ticks n).intervalMins = k ∧
      ((WellnessTimer.fresh.connectedCallback (some (k : ℚ))).ticks n).remaining =
        ((60 * k : ℕ) : ℚ) - ((n % (60 * k) : ℕ) : ℚ) ∧
      ((WellnessTimer.fresh.connectedCallback (some (k : ℚ))).ticks n).sent = n / (60 * k) := by
  have hN : 0 < 60 * k := by omega
  induction n with
  | zero =>
    simp [WellnessTimer.ticks, WellnessTimer.connectedCallback, WellnessTimer.fresh]
    ring
  | succ m ih =>
    obtain ⟨hi, hr, hs⟩ := ih
    have hmod : m % (60 * k) < 60 * k := Nat.mod_lt _ hN
    simp only [WellnessTimer.ticks]
    unfold WellnessTimer.tick
    simp only [hi, hr, hs]
    rcases succ_div_mod (60 * k) m hN with ⟨h1, h2, h3⟩ | ⟨h1, h2, h3⟩
    · have hq : ((60 * k : ℕ) : ℚ) = ((m % (60 * k) : ℕ) : ℚ) + 1 := by
        exact_mod_cast h1.symm
      have hle : ((60 * k : ℕ) : ℚ) - ((m % (60 * k) : ℕ) : ℚ) - 1 ≤ 0 := by linarith
      simp only [hle, if_true, h2, h3]
      push_cast
      refine ⟨trivial, ?_, trivial⟩
      ring
    · have hq : ((m % (60 * k) : ℕ) : ℚ) + 1 < ((60 * k : ℕ) : ℚ) := by
        exact_mod_cast h1
      have hle : ¬ ((60 * k : ℕ) : ℚ) - ((m % (60 * k) : ℕ) : ℚ) - 1 ≤ 0 := by linarith
      simp only [hle, if_false, h2, h3]
      push_cast
      refine ⟨trivial, ?_, trivial⟩
      ring

/-- C30: for a timer with a positive whole-minute interval `k` and `N = 60 * k`, after
every tick `1 ≤ remaining ≤ N`, and the `BREAK_NOW` message is sent on the `n`-th tick iff
`n` is a positive multiple of `N`, after which `remaining` is `N` again. -/
theorem wellnessTimer_cycle (k : ℕ) (hk : 0 < k) (n : ℕ) (hn : 0 < n) :
    1 ≤ ((WellnessTimer.fresh.connectedCallback (some (k : ℚ))).ticks n).remaining ∧
      ((WellnessTimer.fresh.connectedCallback (some (k : ℚ))).ticks n).remaining ≤
        ((60 * k : ℕ) : ℚ) ∧
      (((WellnessTimer.fresh.connectedCallback (some (k : ℚ))).ticks n).sent =
          ((WellnessTimer.fresh.connectedCallback (some (k : ℚ))).ticks (n - 1)).sent + 1 ↔
        60 * k ∣ n) ∧
      (60 * k ∣ n →
        ((WellnessTimer.fresh.connectedCallback (some (k : ℚ))).ticks n).remaining =
          ((60 * k : ℕ) : ℚ)) := by
  have hN : 0 < 60 * k := by omega
  obtain ⟨_, hr, hs⟩ := ticks_closed_form k hk n
  obtain ⟨_, _, hs1⟩ := ticks_closed_form k hk (n - 1)
  have hmod : n % (60 * k) < 60 * k := Nat.mod_lt _ hN
  have hmodq : ((n % (60 * k) : ℕ) : ℚ) + 1 ≤ ((60 * k : ℕ) : ℚ) := by
    exact_mod_cast hmod
  have hmod0 : (0 : ℚ) ≤ ((n % (60 * k) : ℕ) : ℚ) := by positivity
  refine ⟨by rw [hr]; linarith, by rw [hr]; linarith, ?_, ?_⟩
  · rw [hs, hs1]
    obtain ⟨m, rfl⟩ : ∃ m, n = m + 1 := ⟨n - 1, by omega⟩
    simp only [Nat.add_sub_cancel]
    rcases succ_div_mod (60 * k) m hN with ⟨_, h2, h3⟩ | ⟨h1, h2, h3⟩
    · rw [h3]
      exact ⟨fun _ => Nat.dvd_of_mod_eq_zero h2, fun _ => rfl⟩
    · rw [h3]
      constructor
      · intro h
        omega
      · intro h
        have := Nat.mod_eq_zero_of_dvd h
        omega
  · intro h
    rw [hr, Nat.mod_eq_zero_of_dvd h]
    simp

theorem wellnessTimer_cycle_witness :
    1 ≤ ((WellnessTimer.fresh.connectedCallback (some ((1 : ℕ) : ℚ))).ticks 60).remaining ∧
      ((WellnessTimer.fresh.connectedCallback (some ((1 : ℕ) : ℚ))).ticks 60).remaining =
        ((60 * 1 : ℕ) : ℚ) :=
  ⟨(wellnessTimer_cycle 1 (by norm_num) 60 (by norm_num)).1,
    (wellnessTimer_cycle 1 (by norm_num) 60 (by norm_num)).2.2.2 (by norm_num)⟩

end EcoWellness
